import Mathlib

/-!
# Associative fillet: the geometry resolver `AssocFilletConfig`

A shallow embedding of `AssocFilletConfig.cpp`.

Conventions of the embedding.

* A C++ `double` is an exact rational (`ℚ`): rounding, infinities and NaN are
  not modelled.  `fabs`, `fmod` and `__min` are the exact functions.
* The AcGe geometry library is not part of the repository.  What the code reads
  from a curve through accessors is a field of `Curve`; what the library
  computes (closest points, offsets, intersections, tolerant comparisons,
  lengths) is a field of `GeLib`, over which every function is parametric.
* Arrays of two elements are pairs; `for (i = 0; i < 2; i++)` loops are unrolled.
* A member function that mutates `*this` or a curve it is handed returns the
  new value next to its status.
* Curve pointers are never null.
-/

namespace AssocFillet

/-! ## Points, vectors, intervals -/

/-- An `AcGePoint3d`. -/
structure Point3d where
  x : ℚ
  y : ℚ
  z : ℚ
deriving DecidableEq, Repr

/-- An `AcGeVector3d`. -/
structure Vector3d where
  x : ℚ
  y : ℚ
  z : ℚ
deriving DecidableEq, Repr

/-- The point `AcGePoint3d::kOrigin`. -/
def Point3d.kOrigin : Point3d := ⟨0, 0, 0⟩

/-- The vector `AcGeVector3d::kZAxis`. -/
def Vector3d.kZAxis : Vector3d := ⟨0, 0, 1⟩

/-- The vector `AcGeVector3d::kXAxis`. -/
def Vector3d.kXAxis : Vector3d := ⟨1, 0, 0⟩

/-- The default-constructed `AcGeVector3d` (all components zero). -/
def Vector3d.zero : Vector3d := ⟨0, 0, 0⟩

/-- The difference `p - q` of two points. -/
def Point3d.sub (p q : Point3d) : Vector3d := ⟨p.x - q.x, p.y - q.y, p.z - q.z⟩

/-- The sum `u + v`. -/
def Vector3d.add (u v : Vector3d) : Vector3d := ⟨u.x + v.x, u.y + v.y, u.z + v.z⟩

/-- The vector `-v` (`negate`). -/
def Vector3d.negate (v : Vector3d) : Vector3d := ⟨-v.x, -v.y, -v.z⟩

/-- The cross product `u.crossProduct(v)`. -/
def Vector3d.crossProduct (u v : Vector3d) : Vector3d :=
  ⟨u.y * v.z - u.z * v.y, u.z * v.x - u.x * v.z, u.x * v.y - u.y * v.x⟩

/-- The dot product `u.dotProduct(v)`. -/
def Vector3d.dotProduct (u v : Vector3d) : ℚ := u.x * v.x + u.y * v.y + u.z * v.z

/-- An `AcGeInterval`: two bounds, each with a flag telling whether it is set. -/
structure AcGeInterval where
  lower : ℚ
  upper : ℚ
  boundedBelow : Bool
  boundedAbove : Bool
deriving DecidableEq, Repr

/-- The call `setUpper(v)`: the upper bound becomes `v` and is bounded. -/
def AcGeInterval.setUpper (i : AcGeInterval) (v : ℚ) : AcGeInterval :=
  { i with upper := v, boundedAbove := true }

/-- The call `setLower(v)`: the lower bound becomes `v` and is bounded. -/
def AcGeInterval.setLower (i : AcGeInterval) (v : ℚ) : AcGeInterval :=
  { i with lower := v, boundedBelow := true }

/-- The bounded interval `[a, b]`. -/
def AcGeInterval.bounded (a b : ℚ) : AcGeInterval := ⟨a, b, true, true⟩

/-! ## Curves as the code sees them -/

/-- The entity types (`AcGe::EntityId`) the code tests with `isKindOf`. -/
inductive EntityId
  | kLine3d
  | kRay3d
  | kLineSeg3d
  | kCircArc3d
  | kEllipArc3d
  | kNurbCurve3d
  | kCompositeCrv3d
  | kOtherCurve3d
deriving DecidableEq, Repr

/-- The intersection configurations `AcGe::AcGeXConfig`. -/
inductive AcGeXConfig
  | kNotDefined
  | kUnknown
  | kLeftRight
  | kRightLeft
  | kLeftLeft
  | kRightRight
  | kPointLeft
  | kPointRight
  | kLeftOverlap
  | kOverlapLeft
  | kRightOverlap
  | kOverlapRight
  | kOverlapStart
  | kOverlapEnd
  | kOverlapOverlap
deriving DecidableEq, Repr

/-- The statuses (`Acad::ErrorStatus`) that occur in `AssocFilletConfig.cpp`. -/
inductive ErrorStatus
  | eOk
  | eInvalidInput
  | eInvalidNormal
  | eNotInitializedYet
  | eNullPtr
  | eInvalidDxfCode
  | eInvalidResBuf
  | eMakeMeProxy
  | eEndOfFile
deriving DecidableEq, Repr

/-- An `AcGeCurve3d` through its accessors.

* `type`: the class of the entity (`isKindOf`);
* `interval`: `getInterval` / `setInterval`;
* `period?`: `isPeriodic(period)`: `some P` when it answers true and stores `P`,
  `none` when it answers false and leaves its argument alone;
* `closed`: `isClosed()`;
* `startPoint?`, `endPoint?`: `hasStartPoint`, `hasEndPoint` (for a line segment
  also `startPoint()`, `endPoint()`);
* `pointOnLine`, `direction`: the accessors of a linear entity;
* `center`, `normal`, `refVec`, `radius`: the accessors of a circular arc
  (`center`, `normal` also those of an elliptical arc);
* `majorAxis`, `minorAxis`, `majorRadius`, `minorRadius`: the accessors of an
  elliptical arc;
* `planeNormal?`: `isPlanar(plane)`, with the normal of the plane it stores;
* `tag`: tells apart geometries that agree on all accessors. -/
structure Curve where
  type : EntityId
  interval : AcGeInterval
  period? : Option ℚ
  closed : Bool
  startPoint? : Option Point3d
  endPoint? : Option Point3d
  pointOnLine : Point3d
  direction : Vector3d
  center : Point3d
  normal : Vector3d
  refVec : Vector3d
  radius : ℚ
  majorAxis : Vector3d
  minorAxis : Vector3d
  majorRadius : ℚ
  minorRadius : ℚ
  planeNormal? : Option Vector3d
  tag : Nat
deriving DecidableEq, Repr

/-- The test `isKindOf(AcGe::kLinearEnt3d)`: lines, rays and line segments. -/
def Curve.isLinearEnt (c : Curve) : Bool :=
  c.type == EntityId.kLine3d || c.type == EntityId.kRay3d || c.type == EntityId.kLineSeg3d

/-- The call `setInterval(i)`. -/
def Curve.setInterval (c : Curve) (i : AcGeInterval) : Curve := { c with interval := i }

/-- An `AcGePointOnCurve3d` as far as it is read: the point and the first derivative. -/
structure PointOnCurve3d where
  point : Point3d
  deriv1 : Vector3d
deriving DecidableEq, Repr

/-- An `AcGeCircArc3d` returned as fillet arc. -/
structure CircArc3d where
  center : Point3d
  normal : Vector3d
  refVec : Vector3d
  radius : ℚ
  startAng : ℚ
  endAng : ℚ
deriving DecidableEq, Repr

/-- One intersection held by an `AcGeCurveCurveInt3d`: `intPoint(i)`,
`getIntParams(i, ..)` and `getIntConfigs(i, ..)`. -/
structure Intersection where
  intersPoint : Point3d
  param : ℚ × ℚ
  config : AcGeXConfig × AcGeXConfig
deriving DecidableEq, Repr

/-- The AcGe library, as far as `AssocFilletConfig.cpp` calls into it.  The
tolerant predicates are the ones in force under `AcGeTolSetter`. -/
structure GeLib where
  /-- `AcGeVector3d::length` -/
  length : Vector3d → ℚ
  /-- `AcGeVector3d::normalize` and `AcGeVector3d::normal` -/
  normalize : Vector3d → Vector3d
  /-- `AcGeVector3d::isZeroLength` -/
  isZeroLength : Vector3d → Bool
  /-- `AcGeVector3d::isCodirectionalTo` -/
  isCodirectionalTo : Vector3d → Vector3d → Bool
  /-- `AcGeVector3d::isParallelTo` -/
  isParallelTo : Vector3d → Vector3d → Bool
  /-- `AcGeVector3d::angleTo` -/
  angleTo : Vector3d → Vector3d → ℚ
  /-- `AcGePoint3d::isEqualTo` -/
  isEqualTo : Point3d → Point3d → Bool
  /-- `AcGePoint3d::distanceTo` -/
  distanceTo : Point3d → Point3d → ℚ
  /-- `AcGeCurve3d::getClosestPointTo(point, pointOnCurve)` -/
  getClosestPointTo : Curve → Point3d → PointOnCurve3d
  /-- `AcGePointOnCurve3d::point(curve, param)`, with `deriv(1)` there -/
  pointOnCurve : Curve → ℚ → PointOnCurve3d
  /-- `AcGeLinearEnt3d::closestPointTo` -/
  closestPointTo : Curve → Point3d → Point3d
  /-- `AcGeLinearEnt3d::getLine` -/
  getLine : Curve → Curve
  /-- the curve `AcGeCircArc3d(center, normal, refVec, radius, startAng, endAng)` -/
  circArc : Point3d → Vector3d → Vector3d → ℚ → ℚ → ℚ → Curve
  /-- the curve `AcGeEllipArc3d(center, majorAxis, minorAxis, majorRadius, minorRadius)` -/
  ellipArc : Point3d → Vector3d → Vector3d → ℚ → ℚ → Curve
  /-- `AcGeCurve3d::getTrimmedOffset(distance, normal, offsets, AcGe::kExtend)`;
  `none` is an entity that is not a curve -/
  getTrimmedOffset : Curve → ℚ → Vector3d → List (Option Curve)
  /-- `AcGeCompositeCurve3d::getCurveList` -/
  getCurveList : Curve → List Curve
  /-- `AcGeCurveCurveInt3d::set(curve0, curve1, normal)`: the intersections it then holds -/
  curveCurveInt : Curve → Curve → Vector3d → List Intersection
  /-- `AcGeCurve3d::isDegenerate` -/
  isDegenerate : Curve → Bool
  /-- the reference vector the library gives a circle constructed from center,
  normal and radius only -/
  perpVector : Vector3d → Vector3d
  /-- the start and end angle the library gives a circle constructed from
  center, normal and radius only -/
  circleAngles : ℚ × ℚ
  /-- the parameter interval the library gives the segment set by
  `AcGeLineSeg3d::set(pnt1, pnt2)` -/
  lineSegInterval : Point3d → Point3d → AcGeInterval
  /-- the default-constructed arc `AcGeCircArc3d()` -/
  defaultCircArc : CircArc3d
  /-- what the read `config[2]`, one past the end of the array, yields -/
  configBeyond : AcGeXConfig

/-! ## Constants -/

/-- The double nearest to π (`M_PI`). -/
def M_PI : ℚ := 884279719003555 / 281474976710656

/-- The double written `1e30`. -/
def c1e30 : ℚ := 1000000000000000019884624838656

/-- The double written `1e29`. -/
def c1e29 : ℚ := 99999999999999991433150857216

/-! ## `math.h` -/

/-- The C function `fabs`; on a double it is exact. -/
def fabs (x : ℚ) : ℚ := |x|

/-- The C function `fmod(x, y)` for `y ≠ 0`: `x - n * y` with `n` the quotient
`x / y` rounded towards zero.  On doubles this remainder is a double, and
`fmod` returns it without rounding. -/
def fmod (x y : ℚ) : ℚ :=
  x - (if 0 ≤ x / y then ⌊x / y⌋ else ⌈x / y⌉ : ℤ) * y

/-- The macro `__min(a, b)`, that is `((a) < (b)) ? (a) : (b)`. -/
def min__ (a b : ℚ) : ℚ := if a < b then a else b

/-! ## The arithmetic of `double` -/

/-- The integer nearest to `x`; of the two nearest when `x` lies half way
between them, the even one. -/
def roundHalfEven (x : ℚ) : ℤ :=
  if x - ⌊x⌋ < 1 / 2 then ⌊x⌋
  else if 1 / 2 < x - ⌊x⌋ then ⌊x⌋ + 1
  else if ⌊x⌋ % 2 = 0 then ⌊x⌋ else ⌊x⌋ + 1

/-- The exponent of the unit in the last place of the doubles of the magnitude
of `x`: the significand has 53 bits, and no unit is below `2 ^ (-1074)`. -/
def ulpExponent (x : ℚ) : ℤ :=
  max (Int.log 2 |x| - 52) (-1074)

/-- The `double` nearest to `x`, ties to the even significand: the value of an
arithmetic operation on doubles whose exact result is `x`.  A result that
overflows, of magnitude `2 ^ 1024` or more, is not covered. -/
def roundDouble (x : ℚ) : ℚ :=
  roundHalfEven (x / 2 ^ ulpExponent x) * 2 ^ ulpExponent x

/-- `a + b` on doubles. -/
@[simp]
def dadd (a b : ℚ) : ℚ := roundDouble (a + b)

/-- `a - b` on doubles. -/
@[simp]
def dsub (a b : ℚ) : ℚ := roundDouble (a - b)

/-- `a * b` on doubles. -/
@[simp]
def dmul (a b : ℚ) : ℚ := roundDouble (a * b)

/-! ## Curve utilities -/

/-- `getCurveParamRange`: the triple `(isClosed, paramInterval, paramPeriod)`. -/
def getCurveParamRange (G : GeLib) (pCurve : Curve) : Bool × AcGeInterval × ℚ :=
  let paramInterval := pCurve.interval
  let paramPeriod : ℚ := pCurve.period?.getD 0
  let isClosed : Bool :=
    pCurve.period?.isSome ||
    pCurve.closed ||
    (match pCurve.startPoint?, pCurve.endPoint? with
     | some p0, some p1 => G.isEqualTo p0 p1
     | _, _ => false)
  (isClosed, paramInterval, paramPeriod)

/-- `paramDistance`. -/
def paramDistance (G : GeLib) (pCurve : Curve) (param0 param1 : ℚ) : ℚ :=
  let r := getCurveParamRange G pCurve
  let isClosed := r.1
  let paramInterval := r.2.1
  let paramPeriod := r.2.2
  let minDist := fabs (dsub param1 param0)
  if paramPeriod ≠ 0 then
    let param0' := fmod (dadd param0 (dmul 2 paramPeriod)) paramPeriod
    let param1' := fmod (dadd param1 (dmul 2 paramPeriod)) paramPeriod
    let minDist := min__ minDist (fabs (dadd (dsub param0' param1') paramPeriod))
    let minDist := min__ minDist (fabs (dadd (dsub param1' param0') paramPeriod))
    minDist
  else if isClosed then
    let fromParam := paramInterval.lower
    let toParam := paramInterval.upper
    let minDist :=
      min__ minDist (dadd (fabs (dsub param0 fromParam)) (fabs (dsub param1 toParam)))
    let minDist :=
      min__ minDist (dadd (fabs (dsub param1 fromParam)) (fabs (dsub param0 toParam)))
    minDist
  else
    minDist

/-- `AssocFilletConfig::trimOrExtendCurve`: the status and the curve as it is
left. -/
def trimOrExtendCurve (G : GeLib) (pCurve : Curve) (param : ℚ) (isIncoming : Bool) :
    ErrorStatus × Curve :=
  let r := getCurveParamRange G pCurve
  let paramInterval := r.2.1
  let paramPeriod := r.2.2
  if paramPeriod ≠ 0 then
    (ErrorStatus.eOk, pCurve)
  else
    let paramInterval :=
      if isIncoming then
        let param :=
          if paramPeriod > 0 then
            (if param ≤ paramInterval.lower then dadd param paramPeriod else param)
          else param
        paramInterval.setUpper param
      else
        let param :=
          if paramPeriod > 0 then
            (if param ≥ paramInterval.upper then dsub param paramPeriod else param)
          else param
        paramInterval.setLower param
    if paramInterval.boundedBelow && paramInterval.boundedAbove &&
        decide (paramInterval.lower ≥ paramInterval.upper) then
      (ErrorStatus.eInvalidInput, pCurve)
    else
      let pCurve := pCurve.setInterval paramInterval
      if G.isDegenerate pCurve then
        (ErrorStatus.eInvalidInput, pCurve)
      else
        (ErrorStatus.eOk, pCurve)

/-- `getUnboundedCurve`: the full line of a linear entity, the full circle of a
circular arc, the full ellipse of an elliptical arc, a copy of anything else. -/
def getUnboundedCurve (G : GeLib) (pCurve : Curve) : Curve :=
  if pCurve.isLinearEnt then
    G.getLine pCurve
  else if pCurve.type = EntityId.kCircArc3d then
    G.circArc pCurve.center pCurve.normal pCurve.refVec pCurve.radius 0 (2 * M_PI)
  else if pCurve.type = EntityId.kEllipArc3d then
    G.ellipArc pCurve.center pCurve.majorAxis pCurve.minorAxis pCurve.majorRadius
      pCurve.minorRadius
  else
    pCurve

/-- `getUnbooundedOffsetCurves`: the unbounded base curve and the simple offset
curves; an entity that is not a curve is skipped, a composite curve is replaced
by its curve list. -/
def getUnbooundedOffsetCurves (G : GeLib) (pCurve : Curve) (normal : Vector3d) (radius : ℚ) :
    Curve × List Curve :=
  let pUnboundedBaseCurve := getUnboundedCurve G pCurve
  let offsetCurvesVoid := G.getTrimmedOffset pUnboundedBaseCurve radius normal
  let offsetCurves := offsetCurvesVoid.flatMap fun e =>
    match e with
    | none => []
    | some pOffsetCurve =>
      if pOffsetCurve.type = EntityId.kCompositeCrv3d then G.getCurveList pOffsetCurve
      else [pOffsetCurve]
  (pUnboundedBaseCurve, offsetCurves)

/-- `getCurveNormal(const AcGeCurve3d* pCurve)`. -/
def getCurveNormal (pCurve : Curve) : Vector3d :=
  if pCurve.type = EntityId.kCircArc3d then pCurve.normal
  else if pCurve.type = EntityId.kEllipArc3d then pCurve.normal
  else
    match pCurve.planeNormal? with
    | some n => n
    | none => Vector3d.kZAxis

/-- `getCurveNormal(const AcGeCurve3d* curve[2])`, the normal of the pair. -/
def getCurveNormal₂ (G : GeLib) (curve : Curve × Curve) : Vector3d :=
  let isLinear0 := curve.1.isLinearEnt
  let isLinear1 := curve.2.isLinearEnt
  if isLinear0 && isLinear1 then
    let vec0 := G.normalize curve.1.direction
    let vec1 := G.normalize curve.2.direction
    let normal :=
      if G.isCodirectionalTo vec0 vec1 then
        let pnt0 := curve.1.pointOnLine
        let pnt1 := G.closestPointTo curve.2 pnt0
        vec0.crossProduct (pnt1.sub pnt0)
      else
        vec0.crossProduct vec1
    if !G.isZeroLength normal then G.normalize normal else Vector3d.kZAxis
  else if isLinear0 then
    getCurveNormal curve.2
  else
    getCurveNormal curve.1

/-! ## The iterator over the intersections of the offset curves -/

/-- The members of `AcDbOffsetCurveIntersectionIter`.  The member
`mCurrentIntersectionIndex` is `none` where the code holds `-1` ("the
intersection object is not initialized") and `some i` where it holds the index
`i`; `mCurrentCurveCurveInters` is the list of intersections the
`AcGeCurveCurveInt3d` holds. -/
structure AcDbOffsetCurveIntersectionIter where
  mBaseCurve : Curve × Curve
  mOffsetCurves : List Curve × List Curve
  mNormal : Vector3d
  mCurrentCurveCurveInters : List Intersection
  mCurrentCurveIndex : Nat × Nat
  mCurrentIntersectionIndex : Option Nat

/-- The constructor of `AcDbOffsetCurveIntersectionIter`. -/
def AcDbOffsetCurveIntersectionIter.new (G : GeLib) (curve : Curve × Curve)
    (normal : Vector3d) (offsetDist : ℚ) (offsetLeft : Bool × Bool) :
    AcDbOffsetCurveIntersectionIter :=
  let r0 := getUnbooundedOffsetCurves G curve.1 normal
    (if offsetLeft.1 then offsetDist else -offsetDist)
  let r1 := getUnbooundedOffsetCurves G curve.2 normal
    (if offsetLeft.2 then offsetDist else -offsetDist)
  { mBaseCurve := (r0.1, r1.1)
    mOffsetCurves := (r0.2, r1.2)
    mNormal := normal
    mCurrentCurveCurveInters := []
    mCurrentCurveIndex := (0, 0)
    mCurrentIntersectionIndex := none }

/-- `AcDbOffsetCurveIntersectionIter::getNext`: `some` of the intersection when
the call returns true, `none` when it returns false, and the iterator as the
call leaves it.  Each recursive call is the next turn of the inner or of the
outer `for` loop. -/
def AcDbOffsetCurveIntersectionIter.getNext (G : GeLib)
    (it : AcDbOffsetCurveIntersectionIter) :
    Option Intersection × AcDbOffsetCurveIntersectionIter :=
  if h0 : it.mCurrentCurveIndex.1 < it.mOffsetCurves.1.length then
    if h1 : it.mCurrentCurveIndex.2 < it.mOffsetCurves.2.length then
      -- `if (mCurrentIntersectionIndex == -1) { set(..); mCurrentIntersectionIndex = 0; }`
      let inters :=
        match it.mCurrentIntersectionIndex with
        | none => G.curveCurveInt (it.mOffsetCurves.1[it.mCurrentCurveIndex.1])
            (it.mOffsetCurves.2[it.mCurrentCurveIndex.2]) it.mNormal
        | some _ => it.mCurrentCurveCurveInters
      let index := it.mCurrentIntersectionIndex.getD 0
      if h : index < inters.length then
        (some (inters.get ⟨index, h⟩),
          { it with mCurrentCurveCurveInters := inters
                    mCurrentIntersectionIndex := some (index + 1) })
      else
        getNext G { it with mCurrentCurveCurveInters := inters
                            mCurrentIntersectionIndex := none
                            mCurrentCurveIndex := (it.mCurrentCurveIndex.1,
                                                   it.mCurrentCurveIndex.2 + 1) }
    else
      getNext G { it with mCurrentCurveIndex := (it.mCurrentCurveIndex.1 + 1, 0) }
  else
    (none, it)
termination_by (it.mOffsetCurves.1.length - it.mCurrentCurveIndex.1,
  it.mOffsetCurves.2.length - it.mCurrentCurveIndex.2)
decreasing_by
  all_goals simp_wf
  · exact Prod.Lex.right _ (by omega)
  · exact Prod.Lex.left _ _ (by omega)

/-- What is left of the enumeration, as a bound for the loop over `getNext`:
the offset curves of curve 0 still to visit, those of curve 1 still to visit in
the current row, and the intersections still to return for the current pair. -/
def AcDbOffsetCurveIntersectionIter.left (G : GeLib)
    (it : AcDbOffsetCurveIntersectionIter) : Nat × Nat × Nat :=
  (it.mOffsetCurves.1.length - it.mCurrentCurveIndex.1,
   it.mOffsetCurves.2.length - it.mCurrentCurveIndex.2,
   match it.mCurrentIntersectionIndex with
   | some i => it.mCurrentCurveCurveInters.length - i
   | none =>
     match it.mOffsetCurves.1[it.mCurrentCurveIndex.1]?,
           it.mOffsetCurves.2[it.mCurrentCurveIndex.2]? with
     | some c0, some c1 => (G.curveCurveInt c0 c1 it.mNormal).length + 1
     | _, _ => 0)

/-- The intersections of all pairs of offset curves, the offset curves of
curve 0 in the outer position, those of curve 1 in the inner position. -/
def allIntersections (G : GeLib) (offsetCurves : List Curve × List Curve)
    (normal : Vector3d) : List Intersection :=
  offsetCurves.1.flatMap fun c0 =>
    offsetCurves.2.flatMap fun c1 => G.curveCurveInt c0 c1 normal

/-- The intersections an iterator has still to return: the rest of the current
pair, then the pairs that follow in the current row, then the rows that
follow. -/
def AcDbOffsetCurveIntersectionIter.pending (G : GeLib)
    (it : AcDbOffsetCurveIntersectionIter) : List Intersection :=
  let row := fun (i1 : Nat) =>
    match it.mOffsetCurves.1[it.mCurrentCurveIndex.1]? with
    | some c0 => (it.mOffsetCurves.2.drop i1).flatMap fun c1 => G.curveCurveInt c0 c1 it.mNormal
    | none => []
  let rows :=
    allIntersections G (it.mOffsetCurves.1.drop (it.mCurrentCurveIndex.1 + 1),
      it.mOffsetCurves.2) it.mNormal
  match it.mCurrentIntersectionIndex with
  | none => row it.mCurrentCurveIndex.2 ++ rows
  | some i => it.mCurrentCurveCurveInters.drop i ++ row (it.mCurrentCurveIndex.2 + 1) ++ rows

/-- The states of an iterator that the constructor and `getNext` produce: an
intersection index other than `-1` goes with curve indices within range. -/
def AcDbOffsetCurveIntersectionIter.Valid (it : AcDbOffsetCurveIntersectionIter) : Prop :=
  it.mCurrentIntersectionIndex = none ∨
    (it.mCurrentCurveIndex.1 < it.mOffsetCurves.1.length ∧
     it.mCurrentCurveIndex.2 < it.mOffsetCurves.2.length)

/-- The loop `while (iter.getNext(intersPnt, param, config)) body`, started on
the iterator `it` with the loop-carried variables `acc`; `body` is one turn of
the loop on the intersection that `getNext` returned. -/
def AcDbOffsetCurveIntersectionIter.whileGetNext {σ : Type} (G : GeLib)
    (body : σ → Intersection → σ) (it : AcDbOffsetCurveIntersectionIter) (acc : σ) : σ :=
  match _h : AcDbOffsetCurveIntersectionIter.getNext G it with
  | (some x, it') => whileGetNext G body it' (body acc x)
  | (none, _) => acc
termination_by AcDbOffsetCurveIntersectionIter.left G it
decreasing_by
  have key : ∀ (it : AcDbOffsetCurveIntersectionIter) (x : Intersection)
      (it' : AcDbOffsetCurveIntersectionIter),
      AcDbOffsetCurveIntersectionIter.getNext G it = (some x, it') →
      Prod.Lex (· < ·) (Prod.Lex (· < ·) (· < ·))
        (AcDbOffsetCurveIntersectionIter.left G it')
        (AcDbOffsetCurveIntersectionIter.left G it) := by
    intro it
    induction it using AcDbOffsetCurveIntersectionIter.getNext.induct G with
    | case1 it h0 h1 inters index h =>
      intro x it' hx
      rw [AcDbOffsetCurveIntersectionIter.getNext] at hx
      simp only [h0, h1, dif_pos] at hx
      rw [dif_pos h] at hx
      obtain ⟨-, rfl⟩ := Prod.mk.inj hx
      simp only [AcDbOffsetCurveIntersectionIter.left, Prod.lex_def]
      have h' := h
      unfold inters index at h'
      clear h hx
      clear_value inters index
      rcases hk : it.mCurrentIntersectionIndex with _ | i
      · simp only [hk, Option.getD, List.getElem?_eq_getElem h0,
          List.getElem?_eq_getElem h1] at h' ⊢
        exact Or.inr ⟨trivial, Or.inr ⟨trivial, by omega⟩⟩
      · simp only [hk, Option.getD] at h' ⊢
        exact Or.inr ⟨trivial, Or.inr ⟨trivial, by omega⟩⟩
    | case2 it h0 h1 inters index h ih =>
      intro x it' hx
      rw [AcDbOffsetCurveIntersectionIter.getNext] at hx
      simp only [h0, h1, dif_pos] at hx
      rw [dif_neg h] at hx
      have := ih x it' hx
      simp only [AcDbOffsetCurveIntersectionIter.left, Prod.lex_def] at this ⊢
      omega
    | case3 it h0 h1 ih =>
      intro x it' hx
      rw [AcDbOffsetCurveIntersectionIter.getNext] at hx
      simp only [h0, h1, dif_pos, dif_neg, not_false_eq_true] at hx
      have := ih x it' hx
      simp only [AcDbOffsetCurveIntersectionIter.left, Prod.lex_def] at this ⊢
      omega
    | case4 it h0 =>
      intro x it' hx
      rw [AcDbOffsetCurveIntersectionIter.getNext] at hx
      simp [h0] at hx
  have := key it x it' (by assumption)
  simpa only [AcDbOffsetCurveIntersectionIter.left, Prod.lex_def] using this

/-- The intersections that successive calls of `getNext` return, up to the
first call that returns false. -/
def AcDbOffsetCurveIntersectionIter.results (G : GeLib)
    (it : AcDbOffsetCurveIntersectionIter) : List Intersection :=
  AcDbOffsetCurveIntersectionIter.whileGetNext G (fun l x => l ++ [x]) it []

/-! ## The resolver `AssocFilletConfig` -/

/-- The data members of `AssocFilletConfig`. -/
structure AssocFilletConfig where
  mIsIncoming : Bool × Bool
  mIntersCrossingType : Int
  mParam : ℚ × ℚ
  mArcEndPoint : Point3d × Point3d
  mIntersPoint : Point3d
  mHaveIntersPoint : Bool
  mIsInitialized : Bool
  mPickPoint : Point3d × Point3d
deriving DecidableEq, Repr

/-- The element `a[index]` of a two-element array. -/
def at2 {α : Type} (a : α × α) (index : Fin 2) : α :=
  match index with
  | 0 => a.1
  | 1 => a.2

/-- The constructor `AssocFilletConfig::AssocFilletConfig()`. -/
def AssocFilletConfig.new : AssocFilletConfig :=
  { mIsIncoming := (true, true)
    mIntersCrossingType := 1
    mParam := (0, 0)
    mArcEndPoint := (Point3d.kOrigin, Point3d.kOrigin)
    mIntersPoint := Point3d.kOrigin
    mHaveIntersPoint := false
    mIsInitialized := false
    mPickPoint := (Point3d.kOrigin, Point3d.kOrigin) }

/-- The inline member `isInitialized`. -/
def AssocFilletConfig.isInitialized (this : AssocFilletConfig) : Bool := this.mIsInitialized

/-- `AssocFilletConfig::setPickPoints`. -/
def AssocFilletConfig.setPickPoints (this : AssocFilletConfig) (pickPoint : Point3d × Point3d) :
    AssocFilletConfig :=
  { this with mIsInitialized := false, mPickPoint := pickPoint }

/-- `AssocFilletConfig::setIntersectionCrossingType`.  The array `config` has two
elements; the read `config[2]` in the second tangential test yields
`G.configBeyond`. -/
def AssocFilletConfig.setIntersectionCrossingType (G : GeLib) (this : AssocFilletConfig)
    (config : AcGeXConfig × AcGeXConfig) : ErrorStatus × AssocFilletConfig :=
  if config.1 = AcGeXConfig.kLeftRight then
    (ErrorStatus.eOk, { this with mIntersCrossingType := 1 })
  else if config.1 = AcGeXConfig.kRightLeft then
    (ErrorStatus.eOk, { this with mIntersCrossingType := 0 })
  else if config.1 = AcGeXConfig.kLeftLeft then
    if config.2 = AcGeXConfig.kLeftLeft then
      (ErrorStatus.eOk, { this with mIntersCrossingType :=
        if this.mIsIncoming.1 && !this.mIsIncoming.2 then 1 else 0 })
    else if G.configBeyond = AcGeXConfig.kRightRight then
      (ErrorStatus.eOk, { this with mIntersCrossingType :=
        if this.mIsIncoming.1 && this.mIsIncoming.2 then 1 else 0 })
    else
      (ErrorStatus.eInvalidInput, this)
  else if config.1 = AcGeXConfig.kRightRight then
    if config.2 = AcGeXConfig.kLeftLeft then
      (ErrorStatus.eOk, { this with mIntersCrossingType :=
        if !this.mIsIncoming.1 && !this.mIsIncoming.2 then 1 else 0 })
    else if config.2 = AcGeXConfig.kRightRight then
      (ErrorStatus.eOk, { this with mIntersCrossingType :=
        if !this.mIsIncoming.1 && this.mIsIncoming.2 then 1 else 0 })
    else
      (ErrorStatus.eInvalidInput, this)
  else
    (ErrorStatus.eInvalidInput, this)

/-- One turn of the `while` loop of `initializeFromPickPoints` on the
intersection `x`; the loop carries `*this` and `minDist`. -/
def AssocFilletConfig.initializeFromPickPoints.body (G : GeLib) (curve : Curve × Curve)
    (radius : ℚ) (acc : AssocFilletConfig × ℚ) (x : Intersection) :
    AssocFilletConfig × ℚ :=
  let this := acc.1
  let minDist := acc.2
  let dist := dadd (G.distanceTo x.intersPoint this.mPickPoint.1)
    (G.distanceTo x.intersPoint this.mPickPoint.2)
  if dist < minDist then
    let pointOnCurve0 := G.getClosestPointTo curve.1 x.intersPoint
    let pointOnCurve1 := G.getClosestPointTo curve.2 x.intersPoint
    let directionToArc := Vector3d.zero
    let directionToArc := directionToArc.add
      (if radius ≠ 0 then G.normalize (pointOnCurve0.point.sub x.intersPoint)
       else G.normalize (x.intersPoint.sub this.mPickPoint.1))
    let directionToArc := directionToArc.add
      (if radius ≠ 0 then G.normalize (pointOnCurve1.point.sub x.intersPoint)
       else G.normalize (x.intersPoint.sub this.mPickPoint.2))
    let this := { this with mIsIncoming :=
      (decide (directionToArc.dotProduct pointOnCurve0.deriv1 > 0),
       decide (directionToArc.dotProduct pointOnCurve1.deriv1 > 0)) }
    let r := this.setIntersectionCrossingType G x.config
    if r.1 ≠ ErrorStatus.eOk then
      (r.2, minDist)
    else
      ({ r.2 with mParam := x.param }, dist)
  else
    acc

/-- `AssocFilletConfig::initializeFromPickPoints`: the status and `*this` as the
call leaves it. -/
def AssocFilletConfig.initializeFromPickPoints (G : GeLib) (this : AssocFilletConfig)
    (curve : Curve × Curve) (radius : ℚ) : ErrorStatus × AssocFilletConfig :=
  let normal := getCurveNormal₂ G curve
  if G.length normal < 1 / 2 then
    (ErrorStatus.eInvalidNormal, this)
  else
    let pointOnCurve0 := G.getClosestPointTo curve.1 this.mPickPoint.2
    let vec0 := normal.crossProduct pointOnCurve0.deriv1
    let offsetLeft0 := decide (vec0.dotProduct (this.mPickPoint.2.sub pointOnCurve0.point) > 0)
    let pointOnCurve1 := G.getClosestPointTo curve.2 this.mPickPoint.1
    let vec1 := normal.crossProduct pointOnCurve1.deriv1
    let offsetLeft1 := decide (vec1.dotProduct (this.mPickPoint.1.sub pointOnCurve1.point) > 0)
    let iter := AcDbOffsetCurveIntersectionIter.new G curve normal radius
      (offsetLeft0, offsetLeft1)
    let r := AcDbOffsetCurveIntersectionIter.whileGetNext G
      (AssocFilletConfig.initializeFromPickPoints.body G curve radius) iter (this, c1e30)
    if r.2 > c1e29 then
      (ErrorStatus.eInvalidInput, r.1)
    else
      (ErrorStatus.eOk, { r.1 with mIsInitialized := true })

/-- `AcGeLineSeg3d::set(pnt1, pnt2)`: the segment from `pnt1` to `pnt2`, on the
parameter interval the library gives it. -/
def Curve.setLineSeg (G : GeLib) (c : Curve) (pnt1 pnt2 : Point3d) : Curve :=
  { c with startPoint? := some pnt1
           endPoint? := some pnt2
           pointOnLine := pnt1
           direction := pnt2.sub pnt1
           interval := G.lineSegInterval pnt1 pnt2 }

/-- `AssocFilletConfig::adjustTweakedLine`: the curve as the call leaves it. -/
def AssocFilletConfig.adjustTweakedLine (G : GeLib) (this : AssocFilletConfig)
    (index : Fin 2) (pCurve : Curve) : Curve :=
  if pCurve.type ≠ EntityId.kLineSeg3d then pCurve
  else if !this.mHaveIntersPoint then pCurve
  else
    let startPoint := pCurve.startPoint?.getD Point3d.kOrigin
    let endPoint := pCurve.endPoint?.getD Point3d.kOrigin
    let touchPoint := if at2 this.mIsIncoming index then endPoint else startPoint
    let otherPoint := if at2 this.mIsIncoming index then startPoint else endPoint
    let toTouchPointVector := touchPoint.sub otherPoint
    let toIntersPointVector := this.mIntersPoint.sub otherPoint
    if G.isEqualTo touchPoint (at2 this.mArcEndPoint index) &&
        !G.isParallelTo toTouchPointVector toIntersPointVector &&
        !G.isZeroLength toIntersPointVector then
      if G.isEqualTo startPoint touchPoint then
        pCurve.setLineSeg G this.mIntersPoint otherPoint
      else
        pCurve.setLineSeg G otherPoint this.mIntersPoint
    else
      pCurve

/-- The circle `AcGeCircArc3d(cent, nrm, radius)`: the center, normal and
radius are the arguments, the reference vector and the angles are those the
library gives a circle constructed without them. -/
def CircArc3d.circle (G : GeLib) (cent : Point3d) (nrm : Vector3d) (radius : ℚ) : CircArc3d :=
  { center := cent, normal := nrm, refVec := G.perpVector nrm, radius := radius
    startAng := G.circleAngles.1, endAng := G.circleAngles.2 }

/-- The loop-carried variables of the `while` loop of `evaluate`. -/
structure AssocFilletConfig.evaluate.Best where
  minParamDist : ℚ
  bestIntersPnt : Point3d
  bestParam : ℚ × ℚ
deriving DecidableEq, Repr

/-- The test of `evaluate` whether the configuration of an intersection matches
`mIntersCrossingType`. -/
def AssocFilletConfig.evaluate.matches (this : AssocFilletConfig)
    (config : AcGeXConfig × AcGeXConfig) : Bool :=
  (this.mIntersCrossingType == 1 && config.1 == AcGeXConfig.kLeftRight) ||
  (this.mIntersCrossingType == 0 && config.1 == AcGeXConfig.kRightLeft) ||
  config.1 == AcGeXConfig.kLeftLeft || config.1 == AcGeXConfig.kRightRight

/-- The value `paramDist` that `evaluate` computes for an intersection. -/
def AssocFilletConfig.evaluate.paramDist (G : GeLib) (this : AssocFilletConfig)
    (curve : Curve × Curve) (x : Intersection) : ℚ :=
  let paramDist0 := paramDistance G curve.1 x.param.1 this.mParam.1
  let paramDist1 := paramDistance G curve.2 x.param.2 this.mParam.2
  dadd paramDist0 paramDist1

/-- One turn of the `while` loop of `evaluate` on the intersection `x`. -/
def AssocFilletConfig.evaluate.body (G : GeLib) (this : AssocFilletConfig)
    (curve : Curve × Curve) (acc : AssocFilletConfig.evaluate.Best) (x : Intersection) :
    AssocFilletConfig.evaluate.Best :=
  if AssocFilletConfig.evaluate.matches this x.config then
    let paramDist := AssocFilletConfig.evaluate.paramDist G this curve x
    if paramDist < acc.minParamDist then
      { minParamDist := paramDist, bestIntersPnt := x.intersPoint, bestParam := x.param }
    else acc
  else acc

/-- The part of `evaluate` that creates the fillet arc from the chosen
intersection: the arc and the local array `arcEndPoint`. -/
def AssocFilletConfig.evaluate.filletArc (G : GeLib) (this : AssocFilletConfig)
    (curve : Curve × Curve) (radius : ℚ) (normal : Vector3d) (bestIntersPnt : Point3d)
    (bestParam : ℚ × ℚ) : CircArc3d × (Point3d × Point3d) :=
  if radius = 0 then
    (CircArc3d.circle G bestIntersPnt normal 0, (Point3d.kOrigin, Point3d.kOrigin))
  else
    let pointOnCurve0 := G.pointOnCurve curve.1 bestParam.1
    let pointOnCurve1 := G.pointOnCurve curve.2 bestParam.2
    let arcEndPoint := (pointOnCurve0.point, pointOnCurve1.point)
    let vec0 := arcEndPoint.1.sub bestIntersPnt
    let vec1 := arcEndPoint.2.sub bestIntersPnt
    let vec2 := vec0.crossProduct vec1
    if G.isZeroLength vec2 then
      let vec2 := pointOnCurve1.deriv1
      let vec2 := if !this.mIsIncoming.1 then vec2.negate else vec2
      let vec2 := normal.crossProduct vec2
      let arcRefVec := if vec2.dotProduct vec1 > 0 then vec1 else vec0
      ({ center := bestIntersPnt, normal := normal, refVec := arcRefVec, radius := radius
         startAng := 0, endAng := M_PI }, arcEndPoint)
    else
      let arcRefVec := if vec2.dotProduct normal > 0 then vec0 else vec1
      ({ center := bestIntersPnt, normal := normal, refVec := arcRefVec, radius := radius
         startAng := 0, endAng := G.angleTo vec0 vec1 }, arcEndPoint)

/-- What a call of `evaluate` leaves: its status, `*this`, the two curves and
`filletArcOut`. -/
structure EvaluateResult where
  status : ErrorStatus
  config : AssocFilletConfig
  curve : Curve × Curve
  filletArcOut : CircArc3d
deriving DecidableEq, Repr

/-- The start of `evaluate`: `if (!isInitialized()) initializeFromPickPoints(curve, radius);`
The status of the call is dropped; what is kept is `*this` as it leaves it. -/
def AssocFilletConfig.evaluate.initialized (G : GeLib) (this : AssocFilletConfig)
    (curve : Curve × Curve) (radius : ℚ) : AssocFilletConfig :=
  if !this.isInitialized then (this.initializeFromPickPoints G curve radius).2 else this

/-- The block `if (adjustTweakedCurves && radius != 0.0) ..` of `evaluate`: the
two curves as it leaves them. -/
def AssocFilletConfig.evaluate.adjusted (G : GeLib) (this : AssocFilletConfig)
    (curve : Curve × Curve) (radius : ℚ) (isTrimCurve : Bool × Bool)
    (adjustTweakedCurves : Bool) : Curve × Curve :=
  if adjustTweakedCurves && decide (radius ≠ 0) then
    (if isTrimCurve.1 then this.adjustTweakedLine G 0 curve.1 else curve.1,
     if isTrimCurve.2 then this.adjustTweakedLine G 1 curve.2 else curve.2)
  else curve

/-- The array `left` of `evaluate`, the side of the offset of each curve. -/
def AssocFilletConfig.evaluate.left (this : AssocFilletConfig) : Bool × Bool :=
  let left : Bool × Bool := (!this.mIsIncoming.2, this.mIsIncoming.1)
  if this.mIntersCrossingType = 0 then (!left.1, !left.2) else left

/-- The iterator `iter` that `evaluate` constructs. -/
def AssocFilletConfig.evaluate.iter (G : GeLib) (this : AssocFilletConfig)
    (curve : Curve × Curve) (normal : Vector3d) (radius : ℚ) :
    AcDbOffsetCurveIntersectionIter :=
  AcDbOffsetCurveIntersectionIter.new G curve normal radius
    (AssocFilletConfig.evaluate.left this)

/-- The `while` loop of `evaluate`, from `minParamDist = 1e30`: the variables
`minParamDist`, `bestIntersPnt` and `bestParam` when it ends. -/
def AssocFilletConfig.evaluate.best (G : GeLib) (this : AssocFilletConfig)
    (curve : Curve × Curve) (normal : Vector3d) (radius : ℚ) :
    AssocFilletConfig.evaluate.Best :=
  AcDbOffsetCurveIntersectionIter.whileGetNext G
    (AssocFilletConfig.evaluate.body G this curve)
    (AssocFilletConfig.evaluate.iter G this curve normal radius)
    { minParamDist := c1e30, bestIntersPnt := Point3d.kOrigin, bestParam := (0, 0) }

/-- The condition
`isTrimCurve[0] && trimOrExtendCurve(curve[0], ..) != eOk || isTrimCurve[1] && trimOrExtendCurve(curve[1], ..) != eOk`
of `evaluate`: `eInvalidInput` when it holds, and the two curves as its
evaluation leaves them.  The second call is not made when the first fails. -/
def AssocFilletConfig.evaluate.trimmed (G : GeLib) (this : AssocFilletConfig)
    (curve : Curve × Curve) (bestParam : ℚ × ℚ) (isTrimCurve : Bool × Bool) :
    ErrorStatus × (Curve × Curve) :=
  let trim0 :=
    if isTrimCurve.1 then trimOrExtendCurve G curve.1 bestParam.1 this.mIsIncoming.1
    else (ErrorStatus.eOk, curve.1)
  if trim0.1 ≠ ErrorStatus.eOk then
    (ErrorStatus.eInvalidInput, (trim0.2, curve.2))
  else
    let trim1 :=
      if isTrimCurve.2 then trimOrExtendCurve G curve.2 bestParam.2 this.mIsIncoming.2
      else (ErrorStatus.eOk, curve.2)
    if trim1.1 ≠ ErrorStatus.eOk then
      (ErrorStatus.eInvalidInput, (trim0.2, trim1.2))
    else
      (ErrorStatus.eOk, (trim0.2, trim1.2))

mutual

/-- `AssocFilletConfig::evaluate`. -/
def AssocFilletConfig.evaluate (G : GeLib) (this : AssocFilletConfig) (updateState : Bool)
    (curve : Curve × Curve) (radius : ℚ) (isTrimCurve : Bool × Bool)
    (adjustTweakedCurves : Bool) : EvaluateResult :=
  let filletArcOut := G.defaultCircArc
  let this := AssocFilletConfig.evaluate.initialized G this curve radius
  let curve := AssocFilletConfig.evaluate.adjusted G this curve radius isTrimCurve
    adjustTweakedCurves
  if !this.isInitialized then
    ⟨ErrorStatus.eNotInitializedYet, this, curve, filletArcOut⟩
  else
    let normal := getCurveNormal₂ G curve
    if G.length normal < 1 / 2 then
      ⟨ErrorStatus.eInvalidInput, this, curve, filletArcOut⟩
    else
      let best := AssocFilletConfig.evaluate.best G this curve normal radius
      if best.minParamDist > c1e29 then
        ⟨ErrorStatus.eInvalidInput, this, curve, filletArcOut⟩
      else
        let arc := AssocFilletConfig.evaluate.filletArc G this curve radius normal
          best.bestIntersPnt best.bestParam
        let filletArc := arc.1
        let arcEndPoint := arc.2
        let trimmed := AssocFilletConfig.evaluate.trimmed G this curve best.bestParam
          isTrimCurve
        let curve := trimmed.2
        if trimmed.1 ≠ ErrorStatus.eOk then
          ⟨ErrorStatus.eInvalidInput, this, curve, filletArcOut⟩
        else if _h : updateState = true then
          let this := { this with mParam := best.bestParam }
          if radius = 0 then
            ⟨ErrorStatus.eOk,
              { this with mArcEndPoint := (filletArc.center, filletArc.center)
                          mIntersPoint := filletArc.center },
              curve, filletArc⟩
          else
            let this := { this with mArcEndPoint := arcEndPoint }
            let r := AssocFilletConfig.getIntersectionPoint G this curve
            ⟨ErrorStatus.eOk,
              { this with mIntersPoint := r.2
                          mHaveIntersPoint := r.1 == ErrorStatus.eOk },
              curve, filletArc⟩
        else
          ⟨ErrorStatus.eOk, this, curve, filletArc⟩
termination_by (if updateState = true then 2 else 0)
decreasing_by
  simp_all

/-- `AssocFilletConfig::getIntersectionPoint`, called by `evaluate` with
`mIntersPoint` as its argument `intersPoint`: the status and `intersPoint`.
The first statement stores the origin through `intersPoint`, so the copy
`config = *this` is taken with `mIntersPoint` at the origin. -/
def AssocFilletConfig.getIntersectionPoint (G : GeLib) (this : AssocFilletConfig)
    (curve : Curve × Curve) : ErrorStatus × Point3d :=
  let intersPoint := Point3d.kOrigin
  let this := { this with mIntersPoint := intersPoint }
  let pUnboundedCurve := (getUnboundedCurve G curve.1, getUnboundedCurve G curve.2)
  let doNotTrimCurves := (false, false)
  let config := this
  let r := AssocFilletConfig.evaluate G config false pUnboundedCurve 0 doNotTrimCurves false
  if r.status = ErrorStatus.eOk then
    (ErrorStatus.eOk, r.filletArcOut.center)
  else
    (r.status, intersPoint)
termination_by 1
decreasing_by
  simp

end

/-! ## A library instance and inputs for the worked examples -/

/-- A library instance for the worked examples, where the curves are straight
and parallel to the axes and the offset distance is zero: lengths and distances
are sums of absolute coordinate differences (the Euclidean ones on vectors
parallel to an axis), unit vectors are their own normalization, the closest
point on a line is the orthogonal projection, the offset of a curve at distance
zero is the curve itself, a circle constructed without angles is a full
circle, a segment is parametrized over `[0, 1]`, and every pair of offset
curves has the intersections `inters`.  `degenerate` is the answer of `isDegenerate`. -/
def exampleLib (inters : List Intersection) (degenerate : Bool) : GeLib :=
  { length := fun v => |v.x| + |v.y| + |v.z|
    normalize := fun v => v
    isZeroLength := fun v => decide (v = Vector3d.zero)
    isCodirectionalTo := fun u v => decide (u = v)
    isParallelTo := fun u v => decide (u.crossProduct v = Vector3d.zero)
    angleTo := fun _ _ => 0
    isEqualTo := fun p q => decide (p = q)
    distanceTo := fun p q => |p.x - q.x| + |p.y - q.y| + |p.z - q.z|
    getClosestPointTo := fun c p =>
      let t := (p.sub c.pointOnLine).dotProduct c.direction
      ⟨⟨c.pointOnLine.x + t * c.direction.x, c.pointOnLine.y + t * c.direction.y,
        c.pointOnLine.z + t * c.direction.z⟩, c.direction⟩
    pointOnCurve := fun c t =>
      ⟨⟨c.pointOnLine.x + t * c.direction.x, c.pointOnLine.y + t * c.direction.y,
        c.pointOnLine.z + t * c.direction.z⟩, c.direction⟩
    closestPointTo := fun c p =>
      let t := (p.sub c.pointOnLine).dotProduct c.direction
      ⟨c.pointOnLine.x + t * c.direction.x, c.pointOnLine.y + t * c.direction.y,
        c.pointOnLine.z + t * c.direction.z⟩
    getLine := fun c =>
      { c with type := EntityId.kLine3d, interval := ⟨0, 0, false, false⟩
               startPoint? := none, endPoint? := none }
    circArc := fun cent nrm ref r a0 a1 =>
      { type := EntityId.kCircArc3d, interval := AcGeInterval.bounded a0 a1
        period? := some (2 * M_PI), closed := false, startPoint? := none, endPoint? := none
        pointOnLine := cent, direction := ref, center := cent, normal := nrm, refVec := ref
        radius := r, majorAxis := ref, minorAxis := ref, majorRadius := r, minorRadius := r
        planeNormal? := some nrm, tag := 0 }
    ellipArc := fun cent major minor r0 r1 =>
      { type := EntityId.kEllipArc3d, interval := AcGeInterval.bounded 0 (2 * M_PI)
        period? := some (2 * M_PI), closed := true, startPoint? := none, endPoint? := none
        pointOnLine := cent, direction := major, center := cent
        normal := major.crossProduct minor, refVec := major
        radius := r0, majorAxis := major, minorAxis := minor, majorRadius := r0
        minorRadius := r1, planeNormal? := some (major.crossProduct minor), tag := 0 }
    getTrimmedOffset := fun c _ _ => [some c]
    getCurveList := fun c => [c]
    curveCurveInt := fun _ _ _ => inters
    isDegenerate := fun _ => degenerate
    perpVector := fun _ => Vector3d.kXAxis
    circleAngles := (0, 2 * M_PI)
    lineSegInterval := fun _ _ => AcGeInterval.bounded 0 1
    defaultCircArc := ⟨Point3d.kOrigin, Vector3d.kZAxis, Vector3d.kXAxis, 1, 0, 2 * M_PI⟩
    configBeyond := AcGeXConfig.kNotDefined }

/-- The line segment from `p` to `p + d`, with parameter interval `[0, 1]`. -/
def exampleLineSeg (p : Point3d) (d : Vector3d) : Curve :=
  { type := EntityId.kLineSeg3d, interval := AcGeInterval.bounded 0 1
    period? := none, closed := false
    startPoint? := some p, endPoint? := some ⟨p.x + d.x, p.y + d.y, p.z + d.z⟩
    pointOnLine := p, direction := d, center := Point3d.kOrigin
    normal := Vector3d.kZAxis, refVec := Vector3d.kXAxis, radius := 0
    majorAxis := Vector3d.kXAxis, minorAxis := Vector3d.kXAxis, majorRadius := 0
    minorRadius := 0, planeNormal? := none, tag := 0 }

/-- A curve that is not a line, an arc or an ellipse (a spline), with the
given parameter interval, period and closedness. -/
def exampleSpline (interval : AcGeInterval) (period? : Option ℚ) (closed : Bool) : Curve :=
  { type := EntityId.kNurbCurve3d, interval := interval
    period? := period?, closed := closed
    startPoint? := none, endPoint? := none
    pointOnLine := Point3d.kOrigin, direction := Vector3d.kXAxis, center := Point3d.kOrigin
    normal := Vector3d.kZAxis, refVec := Vector3d.kXAxis, radius := 0
    majorAxis := Vector3d.kXAxis, minorAxis := Vector3d.kXAxis, majorRadius := 0
    minorRadius := 0, planeNormal? := some Vector3d.kZAxis, tag := 0 }

/-- Two segments that end at the origin: from `(-1, 0, 0)` along the x axis and
from `(0, -1, 0)` along the y axis. -/
def exampleCurves : Curve × Curve :=
  (exampleLineSeg ⟨-1, 0, 0⟩ ⟨1, 0, 0⟩, exampleLineSeg ⟨0, -1, 0⟩ ⟨0, 1, 0⟩)

/-- The intersection of the two lines of `exampleCurves`: the origin, at
parameter 1 of each, the first line crossing the second from left to right. -/
def exampleCorner : Intersection :=
  ⟨Point3d.kOrigin, (1, 1), (AcGeXConfig.kLeftRight, AcGeXConfig.kRightLeft)⟩

/-- A new resolver with pick points at the middle of each segment of
`exampleCurves`. -/
def examplePicked : AssocFilletConfig :=
  AssocFilletConfig.new.setPickPoints (⟨-1 / 2, 0, 0⟩, ⟨0, -1 / 2, 0⟩)

/-- The resolver `examplePicked` once initialized on `exampleCurves`. -/
def exampleSolved : AssocFilletConfig :=
  { examplePicked with mParam := (1, 1), mIsInitialized := true }

/-- The curves of `evaluate` as they are when the search for the intersection
starts: after the lazy initialization and the adjustment of tweaked lines. -/
def AssocFilletConfig.evaluate.curveIn (G : GeLib) (this : AssocFilletConfig)
    (curve : Curve × Curve) (radius : ℚ) (isTrimCurve : Bool × Bool)
    (adjustTweakedCurves : Bool) : Curve × Curve :=
  AssocFilletConfig.evaluate.adjusted G
    (AssocFilletConfig.evaluate.initialized G this curve radius) curve radius isTrimCurve
    adjustTweakedCurves

/-- The intersections that the iterator of `evaluate` returns, in the order in
which the `while` loop sees them. -/
def AssocFilletConfig.evaluate.candidates (G : GeLib) (this : AssocFilletConfig)
    (curve : Curve × Curve) (radius : ℚ) (isTrimCurve : Bool × Bool)
    (adjustTweakedCurves : Bool) : List Intersection :=
  AcDbOffsetCurveIntersectionIter.results G
    (AssocFilletConfig.evaluate.iter G
      (AssocFilletConfig.evaluate.initialized G this curve radius)
      (AssocFilletConfig.evaluate.curveIn G this curve radius isTrimCurve adjustTweakedCurves)
      (getCurveNormal₂ G
        (AssocFilletConfig.evaluate.curveIn G this curve radius isTrimCurve
          adjustTweakedCurves))
      radius)

/-- The variables `minParamDist`, `bestIntersPnt` and `bestParam` of `evaluate`
when its `while` loop ends. -/
def AssocFilletConfig.evaluate.chosen (G : GeLib) (this : AssocFilletConfig)
    (curve : Curve × Curve) (radius : ℚ) (isTrimCurve : Bool × Bool)
    (adjustTweakedCurves : Bool) : AssocFilletConfig.evaluate.Best :=
  AssocFilletConfig.evaluate.best G
    (AssocFilletConfig.evaluate.initialized G this curve radius)
    (AssocFilletConfig.evaluate.curveIn G this curve radius isTrimCurve adjustTweakedCurves)
    (getCurveNormal₂ G
      (AssocFilletConfig.evaluate.curveIn G this curve radius isTrimCurve
        adjustTweakedCurves))
    radius

/-- The interval that `trimOrExtendCurve` computes for a curve without period:
the upper bound moved to `param` for an incoming curve, the lower bound for an
outgoing one. -/
def trimInterval (c : Curve) (param : ℚ) (isIncoming : Bool) : AcGeInterval :=
  if isIncoming then c.interval.setUpper param else c.interval.setLower param

/-- The segment from the origin along the x axis and the segment from
`(0, -1, 0)` to the origin: the first starts at the corner, the second ends
there. -/
def exampleCurvesAway : Curve × Curve :=
  (exampleLineSeg ⟨0, 0, 0⟩ ⟨1, 0, 0⟩, exampleLineSeg ⟨0, -1, 0⟩ ⟨0, 1, 0⟩)

/-- The intersection of the two lines of `exampleCurvesAway`: the origin, at
parameter 0 of the first and parameter 1 of the second. -/
def exampleCornerAway : Intersection :=
  ⟨Point3d.kOrigin, (0, 1), (AcGeXConfig.kLeftRight, AcGeXConfig.kRightLeft)⟩

/-- The resolver `examplePicked` once initialized on `exampleCurvesAway`. -/
def exampleSolvedAway : AssocFilletConfig :=
  { examplePicked with mParam := (0, 1), mIsInitialized := true }

/-- Two parallel segments, on the lines `y = 0` and `y = 1`. -/
def exampleParallel : Curve × Curve :=
  (exampleLineSeg ⟨0, 0, 0⟩ ⟨1, 0, 0⟩, exampleLineSeg ⟨0, 1, 0⟩ ⟨1, 0, 0⟩)

/-- A new resolver with a pick point on each segment of `exampleParallel`. -/
def examplePickedParallel : AssocFilletConfig :=
  AssocFilletConfig.new.setPickPoints (⟨1 / 2, 0, 0⟩, ⟨1 / 2, 1, 0⟩)

/-- The resolver `exampleSolved` with the double `2e30` as cached parameter of
the first curve. -/
def exampleSolvedFar : AssocFilletConfig :=
  { exampleSolved with mParam := (2000000000000000039769249677312, 1) }

/-! ## Transformation of the resolver -/

/-- An `AcGeMatrix3d` through what the code uses of it: its determinant
`det()` and the point to which `AcGePoint3d::transformBy` maps a point. -/
structure AcGeMatrix3d where
  det : ℚ
  transform : Point3d → Point3d

/-- `AssocFilletConfig::transformBy`. -/
def AssocFilletConfig.transformBy (this : AssocFilletConfig) (trans : AcGeMatrix3d) :
    AssocFilletConfig :=
  let this :=
    { this with
      mArcEndPoint := (trans.transform this.mArcEndPoint.1, trans.transform this.mArcEndPoint.2)
      mIntersPoint := trans.transform this.mIntersPoint
      mPickPoint := (trans.transform this.mPickPoint.1, trans.transform this.mPickPoint.2) }
  if trans.det < 0 then
    { this with mIntersCrossingType := if this.mIntersCrossingType = 1 then 0 else 1 }
  else this

/-- The mirroring about the plane `x = 0`. -/
def exampleMirror : AcGeMatrix3d :=
  { det := -1, transform := fun p => ⟨-p.x, p.y, p.z⟩ }

/-! ## Successive calls of `getNext` -/

/-- The results of `n` successive calls of `getNext`, each on the iterator as
the call before left it: `some` of the intersection for a call that returns
true, `none` for a call that returns false. -/
def AcDbOffsetCurveIntersectionIter.getNextCalls (G : GeLib) :
    Nat → AcDbOffsetCurveIntersectionIter → List (Option Intersection)
  | 0, _ => []
  | n + 1, it =>
    (AcDbOffsetCurveIntersectionIter.getNext G it).1 ::
      getNextCalls G n (AcDbOffsetCurveIntersectionIter.getNext G it).2

/-! ## The DWG fields of the resolver -/

/-- One item of a DWG filer, by the call that writes it. -/
inductive DwgItem
  | bool (b : Bool)
  | int32 (i : Int)
  | double (d : ℚ)
  | point3d (p : Point3d)
deriving DecidableEq, Repr

/-- The value an `int` takes when it is stored as `Adesk::Int32`. -/
def toInt32 (i : Int) : Int := (i + 2 ^ 31) % 2 ^ 32 - 2 ^ 31

/-- `AcDbDwgFiler::readBool(&b)` on the items still to read: the variable and
the items left.  A read that does not find an item of its kind leaves both as
they are. -/
def readBool (items : List DwgItem) (b : Bool) : Bool × List DwgItem :=
  match items with
  | DwgItem.bool v :: rest => (v, rest)
  | _ => (b, items)

/-- `AcDbDwgFiler::readInt32(&i)`. -/
def readInt32 (items : List DwgItem) (i : Int) : Int × List DwgItem :=
  match items with
  | DwgItem.int32 v :: rest => (v, rest)
  | _ => (i, items)

/-- `AcDbDwgFiler::readDouble(&d)`. -/
def readDouble (items : List DwgItem) (d : ℚ) : ℚ × List DwgItem :=
  match items with
  | DwgItem.double v :: rest => (v, rest)
  | _ => (d, items)

/-- `AcDbDwgFiler::readPoint3d(&p)`. -/
def readPoint3d (items : List DwgItem) (p : Point3d) : Point3d × List DwgItem :=
  match items with
  | DwgItem.point3d v :: rest => (v, rest)
  | _ => (p, items)

/-- `AssocFilletConfig::dwgOutFields`: the items it writes, in order.  The
status it returns is that of the filer. -/
def AssocFilletConfig.dwgOutFields (this : AssocFilletConfig) : List DwgItem :=
  [DwgItem.bool this.mIsIncoming.1,
   DwgItem.bool this.mIsIncoming.2,
   DwgItem.int32 (toInt32 this.mIntersCrossingType),
   DwgItem.double this.mParam.1,
   DwgItem.double this.mParam.2,
   DwgItem.point3d this.mArcEndPoint.1,
   DwgItem.point3d this.mArcEndPoint.2,
   DwgItem.bool this.mHaveIntersPoint] ++
  (if this.mHaveIntersPoint then [DwgItem.point3d this.mIntersPoint] else []) ++
  [DwgItem.bool this.mIsInitialized] ++
  (if !this.mIsInitialized then
    [DwgItem.point3d this.mPickPoint.1, DwgItem.point3d this.mPickPoint.2]
   else [])

/-- `AssocFilletConfig::dwgInFields` on the items still to read: `*this` as the
call leaves it and the items it has not read.  The status it returns is that
of the filer. -/
def AssocFilletConfig.dwgInFields (this : AssocFilletConfig) (items : List DwgItem) :
    AssocFilletConfig × List DwgItem :=
  let r0 := readBool items this.mIsIncoming.1
  let r1 := readBool r0.2 this.mIsIncoming.2
  let r2 := readInt32 r1.2 this.mIntersCrossingType
  let r3 := readDouble r2.2 this.mParam.1
  let r4 := readDouble r3.2 this.mParam.2
  let r5 := readPoint3d r4.2 this.mArcEndPoint.1
  let r6 := readPoint3d r5.2 this.mArcEndPoint.2
  let r7 := readBool r6.2 this.mHaveIntersPoint
  let r8 := if r7.1 then readPoint3d r7.2 this.mIntersPoint else (this.mIntersPoint, r7.2)
  let r9 := readBool r8.2 this.mIsInitialized
  let r10 :=
    if !r9.1 then readPoint3d r9.2 this.mPickPoint.1 else (this.mPickPoint.1, r9.2)
  let r11 :=
    if !r9.1 then readPoint3d r10.2 this.mPickPoint.2 else (this.mPickPoint.2, r10.2)
  ({ mIsIncoming := (r0.1, r1.1)
     mIntersCrossingType := r2.1
     mParam := (r3.1, r4.1)
     mArcEndPoint := (r5.1, r6.1)
     mIntersPoint := r8.1
     mHaveIntersPoint := r7.1
     mIsInitialized := r9.1
     mPickPoint := (r10.1, r11.1) }, r11.2)

/-! ## The deep clone of the action body -/

/-- An `AcDbIdPair`: key, value and the flag `isCloned`. -/
structure AcDbIdPair where
  key : Nat
  value : Nat
  isCloned : Bool
deriving DecidableEq, Repr

/-- `AcDbIdMapping::compute(pair)` on the pairs of the mapping: whether the key
of `pair` is in the mapping, and the pair as the call leaves it. -/
def AcDbIdMapping.compute (idMap : List AcDbIdPair) (pair : AcDbIdPair) : Bool × AcDbIdPair :=
  match idMap.find? (fun p => p.key == pair.key) with
  | some p => (true, p)
  | none => (false, pair)

/-- An `AssocFilletActionBody`: its two data members, and what it gets from
the database where `addMoreObjectsToDeepCloneOverride` asks: the leaf id
`getInputEdge(i).entity().leafId()` of each input edge, `parentAction()` and
`getFilletArcId()`.  Object ids are numbers, `AcDbObjectId::kNull` is 0. -/
structure AssocFilletActionBody where
  mFilletConfig : AssocFilletConfig
  mFilletArcDepId : Nat
  inputEdgeLeafId : Nat × Nat
  parentAction : Nat
  filletArcId : Nat
deriving DecidableEq, Repr

/-- `AssocFilletActionBody::addMoreObjectsToDeepCloneOverride`: the status and
the array `additionalObjectsToClone` as the call leaves it.  Both turns of the
loop `for (int i = 0; i < 2; i++)` read `getInputEdge(0)`. -/
def AssocFilletActionBody.addMoreObjectsToDeepCloneOverride (this : AssocFilletActionBody)
    (idMap : List AcDbIdPair) (additionalObjectsToClone : List Nat) :
    ErrorStatus × List Nat :=
  -- `i = 0`
  if !(AcDbIdMapping.compute idMap ⟨at2 this.inputEdgeLeafId 0, 0, false⟩).1 then
    (ErrorStatus.eOk, additionalObjectsToClone)
  -- `i = 1`
  else if !(AcDbIdMapping.compute idMap ⟨at2 this.inputEdgeLeafId 0, 0, false⟩).1 then
    (ErrorStatus.eOk, additionalObjectsToClone)
  else
    (ErrorStatus.eOk, additionalObjectsToClone ++ [this.parentAction, this.filletArcId])

/-! ## The candidates of `initializeFromPickPoints` -/

/-- The iterator that the loop of `initializeFromPickPoints` runs on. -/
def AssocFilletConfig.initializeFromPickPoints.iter (G : GeLib) (this : AssocFilletConfig)
    (curve : Curve × Curve) (radius : ℚ) : AcDbOffsetCurveIntersectionIter :=
  let normal := getCurveNormal₂ G curve
  let pointOnCurve0 := G.getClosestPointTo curve.1 this.mPickPoint.2
  let vec0 := normal.crossProduct pointOnCurve0.deriv1
  let offsetLeft0 := decide (vec0.dotProduct (this.mPickPoint.2.sub pointOnCurve0.point) > 0)
  let pointOnCurve1 := G.getClosestPointTo curve.2 this.mPickPoint.1
  let vec1 := normal.crossProduct pointOnCurve1.deriv1
  let offsetLeft1 := decide (vec1.dotProduct (this.mPickPoint.1.sub pointOnCurve1.point) > 0)
  AcDbOffsetCurveIntersectionIter.new G curve normal radius (offsetLeft0, offsetLeft1)

/-- The intersections that the iterator of `initializeFromPickPoints` returns,
in the order in which the `while` loop sees them. -/
def AssocFilletConfig.initializeFromPickPoints.candidates (G : GeLib)
    (this : AssocFilletConfig) (curve : Curve × Curve) (radius : ℚ) : List Intersection :=
  AcDbOffsetCurveIntersectionIter.results G
    (AssocFilletConfig.initializeFromPickPoints.iter G this curve radius)

/-- The value `dist` that `initializeFromPickPoints` computes for an
intersection: the sum of its distances to the two pick points. -/
def AssocFilletConfig.initializeFromPickPoints.dist (G : GeLib) (this : AssocFilletConfig)
    (x : Intersection) : ℚ :=
  dadd (G.distanceTo x.intersPoint this.mPickPoint.1)
    (G.distanceTo x.intersPoint this.mPickPoint.2)

/-- Whether `setIntersectionCrossingType` returns `eOk` on a configuration. -/
def classifies (G : GeLib) (config : AcGeXConfig × AcGeXConfig) : Bool :=
  decide ((AssocFilletConfig.new.setIntersectionCrossingType G config).1 = ErrorStatus.eOk)

/-! ## The fillet arc of `evaluate` -/

/-- The vectors `vec0` and `vec1` of `evaluate`, from the chosen intersection
to the points of the curves at the chosen parameters. -/
def AssocFilletConfig.evaluate.tangencyVectors (G : GeLib) (this : AssocFilletConfig)
    (curve : Curve × Curve) (radius : ℚ) (isTrimCurve : Bool × Bool)
    (adjustTweakedCurves : Bool) : Vector3d × Vector3d :=
  let best := AssocFilletConfig.evaluate.chosen G this curve radius isTrimCurve
    adjustTweakedCurves
  let c := AssocFilletConfig.evaluate.curveIn G this curve radius isTrimCurve
    adjustTweakedCurves
  ((G.pointOnCurve c.1 best.bestParam.1).point.sub best.bestIntersPnt,
   (G.pointOnCurve c.2 best.bestParam.2).point.sub best.bestIntersPnt)

/-- The normal of the pair that `evaluate` computes. -/
def AssocFilletConfig.evaluate.normal (G : GeLib) (this : AssocFilletConfig)
    (curve : Curve × Curve) (radius : ℚ) (isTrimCurve : Bool × Bool)
    (adjustTweakedCurves : Bool) : Vector3d :=
  getCurveNormal₂ G
    (AssocFilletConfig.evaluate.curveIn G this curve radius isTrimCurve adjustTweakedCurves)

/-- The vector that decides the reference vector of a 180 degree arc in
`evaluate`: the normal crossed with the derivative of the second curve at the
chosen parameter, negated when the first curve is not incoming. -/
def AssocFilletConfig.evaluate.halfTurnVector (G : GeLib) (this : AssocFilletConfig)
    (curve : Curve × Curve) (radius : ℚ) (isTrimCurve : Bool × Bool)
    (adjustTweakedCurves : Bool) : Vector3d :=
  let best := AssocFilletConfig.evaluate.chosen G this curve radius isTrimCurve
    adjustTweakedCurves
  let c := AssocFilletConfig.evaluate.curveIn G this curve radius isTrimCurve
    adjustTweakedCurves
  let vec2 := (G.pointOnCurve c.2 best.bestParam.2).deriv1
  let vec2 :=
    if !(AssocFilletConfig.evaluate.initialized G this curve radius).mIsIncoming.1 then
      vec2.negate
    else vec2
  (AssocFilletConfig.evaluate.normal G this curve radius isTrimCurve
    adjustTweakedCurves).crossProduct vec2

/-! ## More inputs for the worked examples -/

/-- The segment along the x axis from the origin, and a curve that is not
straight and passes through `(0, 2, 0)` with tangent `(1, 0, 0)` at parameter 0
(as the circle of radius 1 about `(0, 3, 0)` does). -/
def exampleTangent : Curve × Curve :=
  (exampleLineSeg ⟨0, 0, 0⟩ ⟨1, 0, 0⟩,
   { exampleSpline (AcGeInterval.bounded (-1) 1) none false with
     pointOnLine := ⟨0, 2, 0⟩, direction := ⟨1, 0, 0⟩ })

/-- The intersection of the offsets at distance 1 of the curves of
`exampleTangent`, which touch at `(0, 1, 0)`. -/
def exampleTouch : Intersection :=
  ⟨⟨0, 1, 0⟩, (0, 0), (AcGeXConfig.kLeftLeft, AcGeXConfig.kLeftLeft)⟩

/-- An initialized resolver for `exampleTangent`, its first curve outgoing. -/
def exampleSolvedTangent : AssocFilletConfig :=
  { AssocFilletConfig.new with mIsIncoming := (false, true), mIsInitialized := true }

/-- An intersection far from the pick points of `examplePicked`: the sum of
its distances to them is `5 * 10 ^ 29 + 1`, which is rounded to the double
`5e29`, between `1e29` and `1e30`. -/
def exampleCornerFar : Intersection :=
  ⟨⟨250000000000000000000000000000, 0, 0⟩, (1, 1),
    (AcGeXConfig.kLeftRight, AcGeXConfig.kRightLeft)⟩

/-- An intersection at `(1, 1, 0)` where the first curve crosses the second
from right to left; the sum of its distances to the pick points of
`examplePicked` is 5. -/
def exampleWinner : Intersection :=
  ⟨⟨1, 1, 0⟩, (2, 2), (AcGeXConfig.kRightLeft, AcGeXConfig.kLeftRight)⟩

/-- An intersection at `(-1/2, -1/2, 0)` whose configuration
`setIntersectionCrossingType` does not accept; the sum of its distances to the
pick points of `examplePicked` is 1. -/
def exampleRejected : Intersection :=
  ⟨⟨-1 / 2, -1 / 2, 0⟩, (1 / 2, 1 / 2), (AcGeXConfig.kPointLeft, AcGeXConfig.kPointLeft)⟩

/-- A fillet action body whose input edges are on the entities 10 and 20, with
parent action 40 and fillet arc 50. -/
def exampleBody : AssocFilletActionBody :=
  { mFilletConfig := AssocFilletConfig.new, mFilletArcDepId := 30
    inputEdgeLeafId := (10, 20), parentAction := 40, filletArcId := 50 }

/-- An id mapping in which the entity 10 is cloned and the entity 20 is not. -/
def exampleIdMap : List AcDbIdPair :=
  [⟨10, 110, true⟩]

/-- A resolver that has solved `exampleCurves` with radius 1: the intersection
of the curves is the origin and the fillet arc ends on the first curve at
`(-1, 0, 0)` and on the second at `(0, -1, 0)`. -/
def exampleTweaked : AssocFilletConfig :=
  { exampleSolved with
    mArcEndPoint := (⟨-1, 0, 0⟩, ⟨0, -1, 0⟩), mIntersPoint := Point3d.kOrigin
    mHaveIntersPoint := true }

/-- The first segment of `exampleCurves` after its start point has been dragged
to `(-3, 1, 0)`; its end point is still `(-1, 0, 0)`. -/
def exampleTweakedSeg : Curve :=
  exampleLineSeg ⟨-3, 1, 0⟩ ⟨2, -1, 0⟩

/-! ## Sequences of calls on a resolver -/

/-- A call of one of the member functions that write the resolver, with its
arguments. -/
inductive AssocFilletConfig.Call
  | setPickPoints (pickPoint : Point3d × Point3d)
  | initializeFromPickPoints (curve : Curve × Curve) (radius : ℚ)
  | evaluate (updateState : Bool) (curve : Curve × Curve) (radius : ℚ)
      (isTrimCurve : Bool × Bool) (adjustTweakedCurves : Bool)
  | transformBy (trans : AcGeMatrix3d)

/-- The resolver as the call leaves it, whatever status the call returns. -/
def AssocFilletConfig.call (G : GeLib) (this : AssocFilletConfig) :
    AssocFilletConfig.Call → AssocFilletConfig
  | .setPickPoints pickPoint => this.setPickPoints pickPoint
  | .initializeFromPickPoints curve radius => (this.initializeFromPickPoints G curve radius).2
  | .evaluate updateState curve radius isTrimCurve adjustTweakedCurves =>
    (this.evaluate G updateState curve radius isTrimCurve adjustTweakedCurves).config
  | .transformBy matrix => this.transformBy matrix

/-- The resolver after the constructor `AssocFilletConfig()` and the calls of
the list, in order. -/
def AssocFilletConfig.calls (G : GeLib) (l : List AssocFilletConfig.Call) : AssocFilletConfig :=
  l.foldl (AssocFilletConfig.call G) AssocFilletConfig.new

/-! ## The DXF fields -/

/-- `AcDb::kDxfXCoord`. -/
def kDxfXCoord : Int := 10

/-- `AcDb::kDxfReal`. -/
def kDxfReal : Int := 40

/-- `AcDb::kDxfInt32`. -/
def kDxfInt32 : Int := 90

/-- `AcDb::kDxfBool`. -/
def kDxfBool : Int := 290

/-- `AcDb::kDxfSoftPointerId`. -/
def kDxfSoftPointerId : Int := 330

/-- A `resbuf`: the group code `restype` and the members of the union `resval`
that the code reads. -/
structure resbuf where
  restype : Int
  rint : Int
  rlong : Int
  rreal : ℚ
  rpoint : Point3d
  mnLongPtr : Nat
deriving DecidableEq, Repr

/-- An `AcDbDxfFiler` that reads: the items still to read, the item read last,
and the status, other than `eOk`, with which `readResBuf` reports that no item
is left. -/
structure AcDbDxfFiler where
  items : List resbuf
  last : Option resbuf
  endStatus : ErrorStatus
deriving DecidableEq, Repr

/-- `AcDbDxfFiler::readResBuf(&rb)`: the item read, or `none` when no item is
left (the status is then `endStatus`), and the filer. -/
def AcDbDxfFiler.readResBuf (pFiler : AcDbDxfFiler) : Option resbuf × AcDbDxfFiler :=
  match pFiler.items with
  | [] => (none, pFiler)
  | rb :: rest => (some rb, { pFiler with items := rest, last := some rb })

/-- `AcDbDxfFiler::pushBackItem()`: the next read returns the item read last
again. -/
def AcDbDxfFiler.pushBackItem (pFiler : AcDbDxfFiler) : AcDbDxfFiler :=
  match pFiler.last with
  | some rb => { pFiler with items := rb :: pFiler.items, last := none }
  | none => pFiler

/-- The `switch (rb.restype)` of `AssocFilletConfig::dxfInFields`: `*this` as
the `case` of the group code leaves it, `none` in the `default` case. -/
def AssocFilletConfig.dxfInFields.assign (this : AssocFilletConfig) (rb : resbuf) :
    Option AssocFilletConfig :=
  if rb.restype = kDxfBool then
    some { this with mIsIncoming := (decide (rb.rint ≠ 0), this.mIsIncoming.2) }
  else if rb.restype = kDxfBool + 1 then
    some { this with mIsIncoming := (this.mIsIncoming.1, decide (rb.rint ≠ 0)) }
  else if rb.restype = kDxfInt32 then
    some { this with mIntersCrossingType := rb.rint }
  else if rb.restype = kDxfBool + 3 then
    some { this with mHaveIntersPoint := decide (rb.rint ≠ 0) }
  else if rb.restype = kDxfBool + 4 then
    some { this with mIsInitialized := decide (rb.rint ≠ 0) }
  else if rb.restype = kDxfReal + 1 then
    some { this with mParam := (rb.rreal, this.mParam.2) }
  else if rb.restype = kDxfReal + 2 then
    some { this with mParam := (this.mParam.1, rb.rreal) }
  else if rb.restype = kDxfXCoord then
    some { this with mArcEndPoint := (rb.rpoint, this.mArcEndPoint.2) }
  else if rb.restype = kDxfXCoord + 1 then
    some { this with mArcEndPoint := (this.mArcEndPoint.1, rb.rpoint) }
  else if rb.restype = kDxfXCoord + 2 then
    some { this with mIntersPoint := rb.rpoint }
  else if rb.restype = kDxfXCoord + 3 then
    some { this with mPickPoint := (rb.rpoint, this.mPickPoint.2) }
  else if rb.restype = kDxfXCoord + 4 then
    some { this with mPickPoint := (this.mPickPoint.1, rb.rpoint) }
  else
    none

/-- The loop `while ((err = pFiler->readResBuf(&rb)) == eOk)` of
`AssocFilletConfig::dxfInFields`, run for at most `fuel` turns: the status
returned, `*this` and the filer, or `none` if the loop has not ended after
`fuel` turns.  In the `default` case the `break` leaves the `switch`, and the
condition of the `while` is evaluated next: it reads, and assigns `err`. -/
def AssocFilletConfig.dxfInFields.loop (fuel : Nat) (this : AssocFilletConfig)
    (pFiler : AcDbDxfFiler) : Option (ErrorStatus × AssocFilletConfig × AcDbDxfFiler) :=
  match fuel with
  | 0 => none
  | fuel + 1 =>
    match pFiler.readResBuf with
    | (none, pFiler) => some (pFiler.endStatus, this, pFiler)
    | (some rb, pFiler) =>
      match AssocFilletConfig.dxfInFields.assign this rb with
      | some this => AssocFilletConfig.dxfInFields.loop fuel this pFiler
      | none => AssocFilletConfig.dxfInFields.loop fuel this pFiler.pushBackItem

/-- `AssocFilletConfig::dxfInFields`, its loop run for at most `fuel` turns. -/
def AssocFilletConfig.dxfInFields (fuel : Nat) (this : AssocFilletConfig)
    (pFiler : AcDbDxfFiler) : Option (ErrorStatus × AssocFilletConfig × AcDbDxfFiler) :=
  AssocFilletConfig.dxfInFields.loop fuel this pFiler

/-- `kCurrentObjectVersion` of `AssocFilletActionBody.cpp`. -/
def kCurrentObjectVersion : Int := 0

/-- `AssocFilletActionBody::dxfInFields`, the loop of the resolver run for at
most `fuel` turns.  `err` is the status of `AcDbAssocActionBody::dxfInFields`,
`atSubclassData` and `filerStatus` are what the filer answers, and `pFiler` is
the filer as these calls leave it.  The condition
`!VERIFY(rb.restype = kDxfSoftPointerId)` assigns the group code and tests the
value assigned.  `setFromOldId` is taken to yield the id it is given. -/
def AssocFilletActionBody.dxfInFields (fuel : Nat) (this : AssocFilletActionBody)
    (err : ErrorStatus) (atSubclassData : Bool) (filerStatus : ErrorStatus)
    (pFiler : AcDbDxfFiler) : Option (ErrorStatus × AssocFilletActionBody × AcDbDxfFiler) :=
  if err ≠ ErrorStatus.eOk then some (err, this, pFiler)
  else if !atSubclassData then some (filerStatus, this, pFiler)
  else
    match pFiler.readResBuf with
    | (none, pFiler) => some (pFiler.endStatus, this, pFiler)
    | (some rb, pFiler) =>
      if rb.restype ≠ kDxfInt32 then
        some (ErrorStatus.eInvalidDxfCode, this, pFiler.pushBackItem)
      else
        let objectVersion := rb.rlong
        if objectVersion ≠ kCurrentObjectVersion then
          some (ErrorStatus.eMakeMeProxy, this, pFiler)
        else
          match pFiler.readResBuf with
          | (none, pFiler) => some (pFiler.endStatus, this, pFiler)
          | (some rb, pFiler) =>
            let rb : resbuf := { rb with restype := kDxfSoftPointerId }
            if rb.restype = (0 : Int) then
              some (ErrorStatus.eInvalidResBuf, this, pFiler)
            else
              let this := { this with mFilletArcDepId := rb.mnLongPtr }
              match this.mFilletConfig.dxfInFields fuel pFiler with
              | none => none
              | some r => some (r.1, { this with mFilletConfig := r.2.1 }, r.2.2)

/-! ## Inputs for the worked examples of the normal, the state and the filers -/

/-- Two parallel lines of the plane `y = 0` that run in opposite directions:
the x axis, and the line through `(1, 0, 1)` with direction `(-1, 0, 0)`. -/
def exampleOpposite : Curve × Curve :=
  (exampleLineSeg ⟨0, 0, 0⟩ ⟨1, 0, 0⟩, exampleLineSeg ⟨1, 0, 1⟩ ⟨-1, 0, 0⟩)

/-- The two lines of `exampleOpposite`, the second with its direction
reversed: both run along `(1, 0, 0)`. -/
def exampleSameWay : Curve × Curve :=
  (exampleLineSeg ⟨0, 0, 0⟩ ⟨1, 0, 0⟩, exampleLineSeg ⟨1, 0, 1⟩ ⟨1, 0, 0⟩)

/-- Two segments that end at `(1, 1, 0)`: from `(0, 1, 0)` along the x
direction and from `(1, 0, 0)` along the y direction. -/
def exampleCurvesShifted : Curve × Curve :=
  (exampleLineSeg ⟨0, 1, 0⟩ ⟨1, 0, 0⟩, exampleLineSeg ⟨1, 0, 0⟩ ⟨0, 1, 0⟩)

/-- The intersection of the two lines of `exampleCurvesShifted`: `(1, 1, 0)`,
at parameter 1 of each, the first line crossing the second from left to
right. -/
def exampleCornerShifted : Intersection :=
  ⟨⟨1, 1, 0⟩, (1, 1), (AcGeXConfig.kLeftRight, AcGeXConfig.kRightLeft)⟩

/-- The library of the examples, with `kRightRight` where the read one past the
end of the array `config` lands. -/
def exampleLibBeyond : GeLib :=
  { exampleLib [] false with configBeyond := AcGeXConfig.kRightRight }

/-- An item with group code 0, which `AssocFilletConfig::dxfInFields` does not
recognize. -/
def exampleItemUnknown : resbuf :=
  ⟨0, 0, 0, 0, Point3d.kOrigin, 0⟩

/-- The item of the object version: group code `kDxfInt32`, version 0. -/
def exampleItemVersion : resbuf :=
  ⟨kDxfInt32, 0, 0, 0, Point3d.kOrigin, 0⟩

/-- An item with group code 5 and the id 77. -/
def exampleItemHandle : resbuf :=
  ⟨5, 0, 0, 0, Point3d.kOrigin, 77⟩

/-- Two splines that have no period and are not closed. -/
def exampleWavy : Curve × Curve :=
  (exampleSpline (AcGeInterval.bounded 0 1) none false,
   exampleSpline (AcGeInterval.bounded 0 1) none false)

/-- Five intersections of the splines of `exampleWavy`, in the order in which
the iterator yields them.  With the cached parameters `(1, 1)` their parametric
distances are 2, 0, 1/2, 1/2 and 1; the second is a crossing from right to
left, the others are crossings from left to right. -/
def exampleCrossings : List Intersection :=
  [⟨⟨1, 0, 0⟩, (0, 0), (AcGeXConfig.kLeftRight, AcGeXConfig.kRightLeft)⟩,
   ⟨⟨2, 0, 0⟩, (1, 1), (AcGeXConfig.kRightLeft, AcGeXConfig.kLeftRight)⟩,
   ⟨⟨3, 0, 0⟩, (1 / 2, 1), (AcGeXConfig.kLeftRight, AcGeXConfig.kRightLeft)⟩,
   ⟨⟨4, 0, 0⟩, (1, 1 / 2), (AcGeXConfig.kLeftRight, AcGeXConfig.kRightLeft)⟩,
   ⟨⟨5, 0, 0⟩, (0, 1), (AcGeXConfig.kLeftRight, AcGeXConfig.kRightLeft)⟩]

/-- The resolver `exampleSolved` with the double `1e29` as cached parameter of
the first curve. -/
def exampleSolvedThreshold : AssocFilletConfig :=
  { exampleSolved with mParam := (c1e29, 1) }

/-- An intersection at the parameters `(-1, 1)`, the first line crossing the
second from left to right. -/
def exampleCornerThreshold : Intersection :=
  ⟨Point3d.kOrigin, (-1, 1), (AcGeXConfig.kLeftRight, AcGeXConfig.kRightLeft)⟩

/-- A new resolver with the pick points `(0, 0, 0)` and `(1e29, 1, 0)`. -/
def examplePickedThreshold : AssocFilletConfig :=
  AssocFilletConfig.new.setPickPoints (⟨0, 0, 0⟩, ⟨c1e29, 1, 0⟩)

/-- An intersection at `(1e29, 0, 0)`, at the distances `1e29` and 1 from the
pick points of `examplePickedThreshold`. -/
def exampleCornerAtThreshold : Intersection :=
  ⟨⟨c1e29, 0, 0⟩, (1, 1), (AcGeXConfig.kLeftRight, AcGeXConfig.kRightLeft)⟩

/-- The double nearest to one tenth, the value of the literal `0.1`. -/
def exampleTenth : ℚ := 3602879701896397 / 2 ^ 55

/-- The double nearest to seven tenths, the value of the literal `0.7`. -/
def exampleSevenTenths : ℚ := 3152519739159347 / 2 ^ 52

/-- The double `3 * 2 ^ (-56)`, a parameter just above the lower end of the
interval `[0, 1]`. -/
def exampleNearSeam : ℚ := 3 / 2 ^ 56

/-! ## Rounding to the nearest `double` -/

theorem roundHalfEven_intCast (n : ℤ) : roundHalfEven (n : ℚ) = n := by
  simp [roundHalfEven]

theorem roundHalfEven_eq_of_lt (x : ℚ) (n : ℤ) (h : |x - n| < 1 / 2) :
    roundHalfEven x = n := by
  rw [abs_lt] at h
  unfold roundHalfEven
  have hf1 : (⌊x⌋ : ℚ) ≤ x := Int.floor_le x
  have hf2 : x < ⌊x⌋ + 1 := Int.lt_floor_add_one x
  split_ifs with h1 h2
  · rw [Int.floor_eq_iff]
    constructor
    · by_contra hc
      push_neg at hc
      have : (⌊x⌋ : ℚ) ≤ n - 1 := by
        have h3 : ⌊x⌋ < n := by
          rw [Int.floor_lt]; exact hc
        have h4 : ⌊x⌋ ≤ n - 1 := by omega
        exact_mod_cast h4
      linarith
    · by_contra hc
      push_neg at hc
      have h3 : n + 1 ≤ ⌊x⌋ := by
        rw [Int.le_floor]; push_cast; exact hc
      have : ((n : ℚ) + 1) ≤ ⌊x⌋ := by exact_mod_cast h3
      linarith
  · have h3 : n ≤ ⌊x⌋ + 1 := by
      by_contra hc
      push_neg at hc
      have h4 : ⌊x⌋ + 2 ≤ n := by omega
      have : ((⌊x⌋ : ℚ) + 2) ≤ n := by exact_mod_cast h4
      linarith
    have h5 : ⌊x⌋ + 1 ≤ n := by
      by_contra hc
      push_neg at hc
      have h4 : n ≤ ⌊x⌋ := by omega
      have : (n : ℚ) ≤ ⌊x⌋ := by exact_mod_cast h4
      linarith
    omega
  · exfalso
    have hx : x - ⌊x⌋ = 1 / 2 := le_antisymm (not_lt.mp h2) (not_lt.mp h1)
    by_cases hc : n ≤ ⌊x⌋
    · have : (n : ℚ) ≤ ⌊x⌋ := by exact_mod_cast hc
      linarith
    · push_neg at hc
      have h4 : ⌊x⌋ + 1 ≤ n := by omega
      have : ((⌊x⌋ : ℚ) + 1) ≤ n := by exact_mod_cast h4
      linarith
  · exfalso
    have hx : x - ⌊x⌋ = 1 / 2 := le_antisymm (not_lt.mp h2) (not_lt.mp h1)
    by_cases hc : n ≤ ⌊x⌋
    · have : (n : ℚ) ≤ ⌊x⌋ := by exact_mod_cast hc
      linarith
    · push_neg at hc
      have h4 : ⌊x⌋ + 1 ≤ n := by omega
      have : ((⌊x⌋ : ℚ) + 1) ≤ n := by exact_mod_cast h4
      linarith

/-- Half way between two integers the even one is taken. -/
theorem roundHalfEven_eq_of_tie (x : ℚ) (n : ℤ) (h : |x - n| = 1 / 2) (hn : n % 2 = 0) :
    roundHalfEven x = n := by
  unfold roundHalfEven
  rcases abs_eq (by norm_num : (0 : ℚ) ≤ 1 / 2) |>.mp h with h | h
  · -- x = n + 1/2
    have hfl : ⌊x⌋ = n := by
      rw [Int.floor_eq_iff]; constructor <;> linarith
    rw [hfl]
    have hx : x - n = 1 / 2 := h
    rw [hx]
    simp [hn]
  · -- x = n - 1/2
    have hfl : ⌊x⌋ = n - 1 := by
      rw [Int.floor_eq_iff]; push_cast; constructor <;> linarith
    rw [hfl]
    have hx : x - ((n - 1 : ℤ) : ℚ) = 1 / 2 := by push_cast; linarith
    rw [hx]
    have hodd : (n - 1) % 2 ≠ 0 := by omega
    simp [hodd]

theorem ulpExponent_eq (x : ℚ) (e : ℤ) (he : -1074 ≤ e) (hlo : 2 ^ 52 * 2 ^ e ≤ |x|)
    (hhi : |x| < 2 ^ 53 * 2 ^ e) : ulpExponent x = e := by
  have hpos : 0 < |x| := lt_of_lt_of_le (by positivity) hlo
  have hlog : Int.log 2 |x| = e + 52 := by
    apply le_antisymm
    · have : Int.log 2 |x| < e + 53 := by
        rw [← Int.lt_zpow_iff_log_lt (by norm_num) hpos]
        calc |x| < 2 ^ 53 * 2 ^ e := hhi
          _ = ((2 : ℕ) : ℚ) ^ (e + 53) := by
            rw [zpow_add₀ (by norm_num)]; norm_num; ring
      omega
    · rw [← Int.zpow_le_iff_le_log (by norm_num) hpos]
      calc ((2 : ℕ) : ℚ) ^ (e + 52) = 2 ^ 52 * 2 ^ e := by
            rw [zpow_add₀ (by norm_num)]; norm_num; ring
        _ ≤ |x| := hlo
  unfold ulpExponent
  rw [hlog]
  omega

/-- The double nearest to `x`, from the exponent `e` of its unit in the last
place and the integer `n` nearest to `x / 2 ^ e`. -/
theorem roundDouble_eq (x : ℚ) (e n : ℤ) (he : -1074 ≤ e) (hlo : 2 ^ 52 * 2 ^ e ≤ |x|)
    (hhi : |x| < 2 ^ 53 * 2 ^ e) (hn : roundHalfEven (x / 2 ^ e) = n) :
    roundDouble x = n * 2 ^ e := by
  unfold roundDouble
  rw [ulpExponent_eq x e he hlo hhi, hn]

theorem ulpExponent_le (n e : ℤ) (h0 : n ≠ 0) (hn : |n| < 2 ^ 53) (he : -1074 ≤ e) :
    ulpExponent ((n : ℚ) * 2 ^ e) ≤ e := by
  unfold ulpExponent
  apply max_le _ he
  · have hpos : 0 < |(n : ℚ) * 2 ^ e| := by
      apply abs_pos.mpr
      apply mul_ne_zero
      · exact_mod_cast h0
      · positivity
    have : Int.log 2 |(n : ℚ) * 2 ^ e| < e + 53 := by
      rw [← Int.lt_zpow_iff_log_lt (by norm_num) hpos]
      rw [abs_mul, abs_of_pos (by positivity : (0 : ℚ) < 2 ^ e)]
      have h1 : |(n : ℚ)| < 2 ^ 53 := by exact_mod_cast hn
      calc |(n : ℚ)| * 2 ^ e < 2 ^ 53 * 2 ^ e := by
            apply mul_lt_mul_of_pos_right h1 (by positivity)
        _ = ((2 : ℕ) : ℚ) ^ (e + 53) := by
            rw [zpow_add₀ (by norm_num)]; norm_num; ring
    omega

/-- A number `n * 2 ^ e` with `|n| < 2 ^ 53` and `-1074 ≤ e` is a double: it
is rounded to itself. -/
theorem roundDouble_eq_self (x : ℚ) (n e : ℤ) (hn : |n| < 2 ^ 53) (he : -1074 ≤ e)
    (hx : x = n * 2 ^ e) : roundDouble x = x := by
  subst hx
  by_cases h0 : n = 0
  · subst h0
    simp [roundDouble, roundHalfEven]
  have hu := ulpExponent_le n e h0 hn he
  unfold roundDouble
  set u := ulpExponent ((n : ℚ) * 2 ^ e) with hudef
  obtain ⟨k, hk⟩ : ∃ k : ℕ, e = u + k := ⟨(e - u).toNat, by omega⟩
  have hq : (n : ℚ) * 2 ^ e / 2 ^ u = ((n * 2 ^ k : ℤ) : ℚ) := by
    rw [hk, zpow_add₀ (by norm_num)]
    push_cast
    field_simp
    ring
  rw [hq, roundHalfEven_intCast, hk, zpow_add₀ (by norm_num)]
  push_cast
  rw [zpow_natCast]
  ring

theorem roundDouble_intCast (n : ℤ) (hn : |n| < 2 ^ 53) : roundDouble (n : ℚ) = n :=
  roundDouble_eq_self _ n 0 hn (by norm_num) (by simp)

/-- The integer that `roundHalfEven` gives is within one half of the number,
and is even when it is exactly one half away. -/
theorem roundHalfEven_spec (x : ℚ) :
    |x - roundHalfEven x| < 1 / 2 ∨
      (|x - roundHalfEven x| = 1 / 2 ∧ roundHalfEven x % 2 = 0) := by
  have hf1 : (⌊x⌋ : ℚ) ≤ x := Int.floor_le x
  have hf2 : x < ⌊x⌋ + 1 := Int.lt_floor_add_one x
  unfold roundHalfEven
  split_ifs with h1 h2 h3
  · left
    rw [abs_lt]; constructor <;> linarith
  · left
    rw [abs_lt]; push_cast; constructor <;> linarith
  · right
    have hx : x - ⌊x⌋ = 1 / 2 := le_antisymm (not_lt.mp h2) (not_lt.mp h1)
    exact ⟨by rw [hx]; norm_num, h3⟩
  · right
    have hx : x - ⌊x⌋ = 1 / 2 := le_antisymm (not_lt.mp h2) (not_lt.mp h1)
    constructor
    · push_cast
      have : x - (⌊x⌋ + 1) = -(1 / 2) := by linarith
      rw [this]; norm_num
    · omega

theorem roundHalfEven_neg (x : ℚ) : roundHalfEven (-x) = -roundHalfEven x := by
  rcases roundHalfEven_spec x with h | ⟨h, he⟩
  · apply roundHalfEven_eq_of_lt
    push_cast
    rw [show -x - -(roundHalfEven x : ℚ) = -(x - roundHalfEven x) by ring, abs_neg]
    exact h
  · apply roundHalfEven_eq_of_tie
    · push_cast
      rw [show -x - -(roundHalfEven x : ℚ) = -(x - roundHalfEven x) by ring, abs_neg]
      exact h
    · omega

/-- Rounding is odd: the double nearest to `-x` is the opposite of the double
nearest to `x`. -/
@[simp]
theorem roundDouble_neg (x : ℚ) : roundDouble (-x) = -roundDouble x := by
  unfold roundDouble ulpExponent
  rw [abs_neg, neg_div, roundHalfEven_neg]
  push_cast
  ring

@[simp]
theorem roundDouble_zero : roundDouble 0 = 0 := by
  simp [roundDouble, roundHalfEven]

theorem roundDouble_natCast (n : ℕ) (h : n < 2 ^ 53) : roundDouble (n : ℚ) = n := by
  have := roundDouble_intCast (n : ℤ) (by rw [abs_of_nonneg (by positivity)]; exact_mod_cast h)
  simpa using this

@[simp]
theorem roundDouble_one : roundDouble 1 = 1 := by
  simpa using roundDouble_natCast 1 (by norm_num)

@[simp]
theorem roundDouble_ofNat (n : ℕ) [n.AtLeastTwo] (h : n < 2 ^ 53) :
    roundDouble (no_index (OfNat.ofNat n) : ℚ) = OfNat.ofNat n := by
  simpa using roundDouble_natCast n h

/-- A small multiple of a power of one half is a double. -/
theorem roundDouble_natCast_div_pow (n k : ℕ) (h : n < 2 ^ 53) (hk : k ≤ 1074) :
    roundDouble ((n : ℚ) / 2 ^ k) = (n : ℚ) / 2 ^ k := by
  apply roundDouble_eq_self _ (n : ℤ) (-(k : ℤ))
  · rw [abs_of_nonneg (by positivity)]; exact_mod_cast h
  · omega
  · rw [zpow_neg, zpow_natCast]; push_cast; ring

@[simp]
theorem roundDouble_half : roundDouble (1 / 2) = 1 / 2 :=
  roundDouble_eq_self _ 1 (-1) (by norm_num) (by norm_num) (by norm_num)

@[simp]
theorem roundDouble_inv_two : roundDouble (2⁻¹) = 2⁻¹ :=
  roundDouble_eq_self _ 1 (-1) (by norm_num) (by norm_num) (by norm_num)

@[simp]
theorem roundDouble_ofNat_div_two (n : ℕ) [n.AtLeastTwo] (h : n < 2 ^ 53) :
    roundDouble ((no_index (OfNat.ofNat n) : ℚ) / 2) = OfNat.ofNat n / 2 := by
  simpa using roundDouble_natCast_div_pow n 1 h (by norm_num)

/-- Rounding to the nearest double changes a number by at most half a unit in
the last place: by at most `|x| / 2 ^ 53`, or `2 ^ (-1075)` below the normal
range. -/
theorem roundDouble_sub_abs_le (x : ℚ) :
    |roundDouble x - x| ≤ |x| / 2 ^ 53 + 2 ^ (-1075 : ℤ) := by
  by_cases h0 : x = 0
  · subst h0
    simp only [roundDouble_zero, sub_zero, abs_zero, zero_div, zero_add]
    positivity
  have hpos : 0 < |x| := abs_pos.mpr h0
  have hu : (2 : ℚ) ^ ulpExponent x ≤ |x| / 2 ^ 52 + 2 ^ (-1074 : ℤ) := by
    unfold ulpExponent
    rcases le_total (Int.log 2 |x| - 52) (-1074) with h | h
    · rw [max_eq_right h]
      have : 0 ≤ |x| / 2 ^ 52 := by positivity
      linarith
    · rw [max_eq_left h, zpow_sub₀ (by norm_num)]
      have hl : ((2 : ℕ) : ℚ) ^ Int.log 2 |x| ≤ |x| := Int.zpow_log_le_self (by norm_num) hpos
      have hl2 : (2 : ℚ) ^ Int.log 2 |x| ≤ |x| := by exact_mod_cast hl
      have hz : (0 : ℚ) ≤ 2 ^ (-1074 : ℤ) := by positivity
      have : (2 : ℚ) ^ Int.log 2 |x| / 2 ^ (52 : ℤ) ≤ |x| / 2 ^ 52 := by
        rw [show ((2 : ℚ) ^ (52 : ℤ)) = 2 ^ 52 by norm_cast]
        exact div_le_div_of_nonneg_right hl2 (by positivity)
      linarith
  have hr : |x / 2 ^ ulpExponent x - roundHalfEven (x / 2 ^ ulpExponent x)| ≤ 1 / 2 := by
    rcases roundHalfEven_spec (x / 2 ^ ulpExponent x) with h | ⟨h, _⟩
    · exact le_of_lt h
    · exact le_of_eq h
  have he : (0 : ℚ) < 2 ^ ulpExponent x := by positivity
  have hx : roundDouble x - x =
      -(x / 2 ^ ulpExponent x - roundHalfEven (x / 2 ^ ulpExponent x)) * 2 ^ ulpExponent x := by
    unfold roundDouble
    field_simp
    ring
  have h1075 : (2 : ℚ) ^ (-1074 : ℤ) = 2 * 2 ^ (-1075 : ℤ) := by
    rw [show (-1074 : ℤ) = 1 + (-1075) by norm_num, zpow_add₀ (by norm_num)]
    norm_num
  rw [hx, abs_mul, abs_neg, abs_of_pos he]
  calc |x / 2 ^ ulpExponent x - roundHalfEven (x / 2 ^ ulpExponent x)| * 2 ^ ulpExponent x
      ≤ 1 / 2 * 2 ^ ulpExponent x := mul_le_mul_of_nonneg_right hr (le_of_lt he)
    _ ≤ 1 / 2 * (|x| / 2 ^ 52 + 2 ^ (-1074 : ℤ)) := by linarith
    _ = |x| / 2 ^ 53 + 2 ^ (-1075 : ℤ) := by rw [h1075]; ring

/-- The absolute value of a rounded difference, against the absolute value of
the difference. -/
theorem abs_roundDouble_sub_abs_le (x : ℚ) :
    |(|roundDouble x| - |x|)| ≤ |x| / 2 ^ 53 + 2 ^ (-1075 : ℤ) :=
  le_trans (abs_abs_sub_abs_le_abs_sub _ _) (roundDouble_sub_abs_le x)

/-- The rounded sum of the absolute values of two rounded numbers, against the
sum of the absolute values of the numbers. -/
theorem roundDouble_abs_add_abs_le (x y : ℚ) :
    |roundDouble (|roundDouble x| + |roundDouble y|) - (|x| + |y|)| ≤
      (|x| + |y|) / 2 ^ 51 + 2 ^ (-1073 : ℤ) := by
  have hx := abs_le.mp (abs_roundDouble_sub_abs_le x)
  have hy := abs_le.mp (abs_roundDouble_sub_abs_le y)
  have hs := abs_le.mp (roundDouble_sub_abs_le (|roundDouble x| + |roundDouble y|))
  have h0 : 0 ≤ |roundDouble x| + |roundDouble y| := by positivity
  rw [abs_of_nonneg h0] at hs
  have hax : 0 ≤ |x| := abs_nonneg x
  have hay : 0 ≤ |y| := abs_nonneg y
  have h1073 : (2 : ℚ) ^ (-1073 : ℤ) = 4 * 2 ^ (-1075 : ℤ) := by
    rw [show (-1073 : ℤ) = 2 + (-1075) by norm_num, zpow_add₀ (by norm_num)]
    norm_num
  have hη : (0 : ℚ) < 2 ^ (-1075 : ℤ) := by positivity
  rw [h1073, abs_le]
  generalize (2 : ℚ) ^ (-1075 : ℤ) = η at *
  generalize |roundDouble x| = X at *
  generalize |roundDouble y| = Y at *
  generalize roundDouble (X + Y) = S at *
  generalize |x| = A at *
  generalize |y| = B at *
  norm_num at hx hy hs ⊢
  constructor <;> nlinarith

/-! ## The loop over `getNext` as a fold -/

section Resolver

open AcDbOffsetCurveIntersectionIter

/-- One turn of the loop: when `getNext` returns an intersection the body runs on it. -/
theorem whileGetNext_some {σ : Type} (G : GeLib) (body : σ → Intersection → σ)
    (it it' : AcDbOffsetCurveIntersectionIter) (x : Intersection) (acc : σ)
    (h : getNext G it = (some x, it')) :
    whileGetNext G body it acc = whileGetNext G body it' (body acc x) := by
  rw [whileGetNext]
  split
  · rename_i y it2 hy
    rw [h] at hy
    cases hy
    rfl
  · rename_i it2 hy
    rw [h] at hy
    cases hy

/-- The end of the loop: when `getNext` returns false the loop-carried variables are the result. -/
theorem whileGetNext_none {σ : Type} (G : GeLib) (body : σ → Intersection → σ)
    (it it' : AcDbOffsetCurveIntersectionIter) (acc : σ)
    (h : getNext G it = (none, it')) :
    whileGetNext G body it acc = acc := by
  rw [whileGetNext]
  split
  · rename_i y it2 hy
    rw [h] at hy
    cases hy
  · rfl

/-- The loop with body `body`, started after a fold over `l`, is the fold over what the collecting loop started from `l` gathers. -/
theorem whileGetNext_eq_foldl_aux {σ : Type} (G : GeLib) (body : σ → Intersection → σ)
    (it : AcDbOffsetCurveIntersectionIter) (l : List Intersection) :
    ∀ acc : σ, whileGetNext G body it (l.foldl body acc) =
      (whileGetNext G (fun l x => l ++ [x]) it l).foldl body acc := by
  induction it, l using whileGetNext.induct G (fun l x => l ++ [x]) with
  | case1 it l x it' hx ih =>
    intro acc
    rw [whileGetNext_some G body it it' x _ hx,
      whileGetNext_some G (fun l x => l ++ [x]) it it' x _ hx]
    have := ih acc
    simpa [List.foldl_append] using this
  | case2 it l it' hx =>
    intro acc
    rw [whileGetNext_none G body it it' _ hx,
      whileGetNext_none G (fun l x => l ++ [x]) it it' _ hx]

/-- The loop over `getNext` is the left fold of its body over the intersections that `getNext` returns. -/
theorem whileGetNext_eq_foldl {σ : Type} (G : GeLib) (body : σ → Intersection → σ)
    (it : AcDbOffsetCurveIntersectionIter) (acc : σ) :
    whileGetNext G body it acc = (results G it).foldl body acc := by
  have := whileGetNext_eq_foldl_aux G body it [] acc
  simpa [results] using this



/-- A call of `getNext` on a valid iterator returns the head of the intersections still to return and leaves the tail; it returns false only when none is left. -/
theorem getNext_pending (G : GeLib) (it : AcDbOffsetCurveIntersectionIter) :
    Valid it →
    (∀ x it', getNext G it = (some x, it') → pending G it = x :: pending G it' ∧ Valid it') ∧
    (∀ it', getNext G it = (none, it') → pending G it = []) := by
  induction it using getNext.induct G with
  | case1 it h0 h1 inters index h =>
    intro _
    have hget : getNext G it = (some (inters.get ⟨index, h⟩),
        { it with mCurrentCurveCurveInters := inters
                  mCurrentIntersectionIndex := some (index + 1) }) := by
      rw [getNext]
      simp only [h0, h1, dif_pos]
      rw [dif_pos h]
    have hd := List.cons_get_drop_succ (l := inters) (n := ⟨index, h⟩)
    simp only at hd
    have hinters : inters = match it.mCurrentIntersectionIndex with
        | none => G.curveCurveInt (it.mOffsetCurves.1[it.mCurrentCurveIndex.1])
            (it.mOffsetCurves.2[it.mCurrentCurveIndex.2]) it.mNormal
        | some _ => it.mCurrentCurveCurveInters := rfl
    have hindex : index = it.mCurrentIntersectionIndex.getD 0 := rfl
    constructor
    · intro x it' hx
      rw [hget] at hx
      obtain ⟨hx1, rfl⟩ := Prod.mk.inj hx
      cases hx1
      refine ⟨?_, Or.inr ⟨h0, h1⟩⟩
      simp only [pending]
      rw [← List.cons_append, ← List.cons_append, hd]
      clear hget hx hd h
      clear_value inters index
      rcases hk : it.mCurrentIntersectionIndex with _ | i
      · simp only [hk, Option.getD] at hinters hindex
        subst hinters hindex
        simp only [List.getElem?_eq_getElem h0, List.drop_eq_getElem_cons h1,
          List.flatMap_cons, List.drop_zero]
      · simp only [hk, Option.getD] at hinters hindex
        subst hinters hindex
        simp only [List.getElem?_eq_getElem h0]
    · intro it' hx
      rw [hget] at hx
      cases hx
  | case2 it h0 h1 inters index h ih =>
    intro _
    have hget : getNext G it = getNext G
        { it with mCurrentCurveCurveInters := inters
                  mCurrentIntersectionIndex := none
                  mCurrentCurveIndex := (it.mCurrentCurveIndex.1,
                                         it.mCurrentCurveIndex.2 + 1) } := by
      rw [getNext]
      simp only [h0, h1, dif_pos]
      rw [dif_neg h]
    have hinters : inters = match it.mCurrentIntersectionIndex with
        | none => G.curveCurveInt (it.mOffsetCurves.1[it.mCurrentCurveIndex.1])
            (it.mOffsetCurves.2[it.mCurrentCurveIndex.2]) it.mNormal
        | some _ => it.mCurrentCurveCurveInters := rfl
    have hindex : index = it.mCurrentIntersectionIndex.getD 0 := rfl
    have hp : pending G it = pending G
        { it with mCurrentCurveCurveInters := inters
                  mCurrentIntersectionIndex := none
                  mCurrentCurveIndex := (it.mCurrentCurveIndex.1,
                                         it.mCurrentCurveIndex.2 + 1) } := by
      simp only [pending]
      have hnil : inters.drop index = [] := List.drop_eq_nil_of_le (by omega)
      clear hget ih h
      clear_value inters index
      rcases hk : it.mCurrentIntersectionIndex with _ | i
      · simp only [hk, Option.getD] at hinters hindex
        subst hinters hindex
        simp only [List.drop_zero] at hnil
        simp only [List.getElem?_eq_getElem h0, List.drop_eq_getElem_cons h1,
          List.flatMap_cons, hnil, List.nil_append]
      · simp only [hk, Option.getD] at hinters hindex
        subst hinters hindex
        simp only [List.getElem?_eq_getElem h0, hnil, List.nil_append]
    rw [hget, hp]
    exact ih (Or.inl rfl)
  | case3 it h0 h1 ih =>
    intro hv
    have hget : getNext G it = getNext G
        { it with mCurrentCurveIndex := (it.mCurrentCurveIndex.1 + 1, 0) } := by
      rw [getNext]
      simp only [h0, h1, dif_pos, dif_neg, not_false_eq_true]
    have hk : it.mCurrentIntersectionIndex = none := by
      rcases hv with hv | hv
      · exact hv
      · exact absurd hv.2 h1
    have hp : pending G it = pending G
        { it with mCurrentCurveIndex := (it.mCurrentCurveIndex.1 + 1, 0) } := by
      simp only [pending, hk, allIntersections]
      have hrow : List.drop it.mCurrentCurveIndex.2 it.mOffsetCurves.2 = [] :=
        List.drop_eq_nil_of_le (by omega)
      simp only [List.getElem?_eq_getElem h0, hrow, List.flatMap_nil, List.nil_append,
        List.drop_zero]
      by_cases h2 : it.mCurrentCurveIndex.1 + 1 < it.mOffsetCurves.1.length
      · simp only [List.getElem?_eq_getElem h2, List.drop_eq_getElem_cons h2,
          List.flatMap_cons]
      · have hnone : it.mOffsetCurves.1[it.mCurrentCurveIndex.1 + 1]? = none :=
          List.getElem?_eq_none (by omega)
        have h3 : List.drop (it.mCurrentCurveIndex.1 + 1) it.mOffsetCurves.1 = [] :=
          List.drop_eq_nil_of_le (by omega)
        have h4 : List.drop (it.mCurrentCurveIndex.1 + 1 + 1) it.mOffsetCurves.1 = [] :=
          List.drop_eq_nil_of_le (by omega)
        simp only [hnone, h3, h4, List.flatMap_nil, List.append_nil]
    rw [hget, hp]
    refine ih ?_
    exact Or.inl hk
  | case4 it h0 =>
    intro hv
    have hget : getNext G it = (none, it) := by
      rw [getNext]
      simp only [h0, dif_neg, not_false_eq_true]
    have hk : it.mCurrentIntersectionIndex = none := by
      rcases hv with hv | hv
      · exact hv
      · exact absurd hv.1 h0
    constructor
    · intro x it' hx
      rw [hget] at hx
      cases hx
    · intro it' _
      have hnone : it.mOffsetCurves.1[it.mCurrentCurveIndex.1]? = none :=
        List.getElem?_eq_none (by omega)
      have h3 : List.drop (it.mCurrentCurveIndex.1 + 1) it.mOffsetCurves.1 = [] :=
        List.drop_eq_nil_of_le (by omega)
      simp only [pending, hk, allIntersections, hnone, h3, List.flatMap_nil, List.append_nil]

/-- The collecting loop appends the intersections still to return. -/
theorem whileGetNext_snoc (G : GeLib) (it : AcDbOffsetCurveIntersectionIter)
    (l : List Intersection) :
    Valid it → whileGetNext G (fun l x => l ++ [x]) it l = l ++ pending G it := by
  induction it, l using whileGetNext.induct G (fun l x => l ++ [x]) with
  | case1 it l x it' hx ih =>
    intro hv
    obtain ⟨hp, hv'⟩ := (getNext_pending G it hv).1 x it' hx
    rw [whileGetNext_some G _ it it' x _ hx, ih hv', hp]
    simp
  | case2 it l it' hx =>
    intro hv
    have hp := (getNext_pending G it hv).2 it' hx
    rw [whileGetNext_none G _ it it' _ hx, hp]
    simp

/-- A freshly constructed iterator returns the intersections of all pairs of offset curves, curve 0 outer, curve 1 inner. -/
theorem results_new (G : GeLib) (curve : Curve × Curve) (normal : Vector3d)
    (offsetDist : ℚ) (offsetLeft : Bool × Bool) :
    results G (AcDbOffsetCurveIntersectionIter.new G curve normal offsetDist offsetLeft) =
      allIntersections G
        (AcDbOffsetCurveIntersectionIter.new G curve normal offsetDist offsetLeft).mOffsetCurves
        normal := by
  rw [results, whileGetNext_snoc G _ _ (Or.inl rfl)]
  simp only [pending, AcDbOffsetCurveIntersectionIter.new, List.nil_append, allIntersections]
  rcases h : (getUnbooundedOffsetCurves G curve.1 normal
      (if offsetLeft.1 = true then offsetDist else -offsetDist)).2 with _ | ⟨c, cs⟩
  · simp
  · simp

/-! ## `paramDistance` -/

/-- C6, the code at two inputs.  On a periodic curve of period 10 the code
gives the parameters 0 and 10, one whole period apart, the distance 10, and
the parameters 5 and 13 the distance 8, although shifting by one period
brings them to distance 0 and 2: `paramDistance` is not the least of the
distances `|p1 - p0 + k * P|`. -/
theorem paramDistance_periodic_not_shortest :
    paramDistance (exampleLib [] false)
        (exampleSpline (AcGeInterval.bounded 0 10) (some 10) true) 0 10 = 10 ∧
      |(10 : ℚ) - 0 + ((-1 : ℤ) : ℚ) * 10| = 0 ∧
      paramDistance (exampleLib [] false)
        (exampleSpline (AcGeInterval.bounded 0 10) (some 10) true) 5 13 = 8 ∧
      |(13 : ℚ) - 5 + ((-1 : ℤ) : ℚ) * 10| = 2 := by
  have h52 : ⌊(5 : ℚ) / 2⌋ = 2 := by
    rw [Int.floor_eq_iff]; constructor <;> norm_num
  have h3310 : ⌊(33 : ℚ) / 10⌋ = 3 := by
    rw [Int.floor_eq_iff]; constructor <;> norm_num
  refine ⟨?_, by norm_num, ?_, by norm_num⟩
  · simp [paramDistance, getCurveParamRange, exampleSpline, fmod, fabs, min__, dadd, dsub,
      dmul]
    norm_num [roundDouble_ofNat, roundDouble_zero, roundDouble_neg]
  · simp [paramDistance, getCurveParamRange, exampleSpline, fmod, fabs, min__, dadd, dsub,
      dmul]
    norm_num [h52, h3310, roundDouble_ofNat, roundDouble_zero, roundDouble_neg]

/-- `fmod` of a parameter of the base period shifted by two periods gives the
parameter back. -/
theorem fmod_add_two_periods (p P : ℚ) (hP : 0 < P) (h0 : 0 ≤ p) (h1 : p < P) :
    fmod (p + 2 * P) P = p := by
  have hq : (p + 2 * P) / P = p / P + 2 := by
    field_simp
  have hfloor : ⌊(p + 2 * P) / P⌋ = 2 := by
    rw [hq, Int.floor_eq_iff]
    have hp0 : 0 ≤ p / P := div_nonneg h0 (le_of_lt hP)
    have hp1 : p / P < 1 := (div_lt_one hP).mpr h1
    constructor
    · push_cast; linarith
    · push_cast; linarith
  have hnn : 0 ≤ (p + 2 * P) / P := by
    rw [hq]
    have hp0 : 0 ≤ p / P := div_nonneg h0 (le_of_lt hP)
    linarith
  unfold fmod
  rw [if_pos hnn, hfloor]
  push_cast
  ring

/-- On a periodic curve with period `P > 0`, for two parameters of the base
period `[0, P)` the code does compute the shorter way round, when none of its
sums and differences is rounded. -/
theorem paramDistance_periodic_base_period (G : GeLib) (c : Curve) (P p0 p1 : ℚ)
    (hper : c.period? = some P) (hP : 0 < P)
    (h00 : 0 ≤ p0) (h01 : p0 < P) (h10 : 0 ≤ p1) (h11 : p1 < P)
    (h2P : roundDouble (2 * P) = 2 * P)
    (hs0 : roundDouble (p0 + 2 * P) = p0 + 2 * P)
    (hs1 : roundDouble (p1 + 2 * P) = p1 + 2 * P)
    (hd : roundDouble (p1 - p0) = p1 - p0)
    (hw0 : roundDouble (p0 - p1 + P) = p0 - p1 + P)
    (hw1 : roundDouble (p1 - p0 + P) = p1 - p0 + P) :
    paramDistance G c p0 p1 = min |p1 - p0| (P - |p1 - p0|) := by
  have hPer : (getCurveParamRange G c).2.2 = P := by simp [getCurveParamRange, hper]
  have hd' : roundDouble (p0 - p1) = p0 - p1 := by
    rw [show p0 - p1 = -(p1 - p0) by ring, roundDouble_neg, hd]
  simp only [paramDistance, hPer, ne_eq, ne_of_gt hP, not_false_eq_true, if_true, dadd, dsub,
    dmul, h2P, hs0, hs1, hd, hd', hw0, hw1,
    fmod_add_two_periods _ _ hP h00 h01, fmod_add_two_periods _ _ hP h10 h11, fabs, min__]
  rcases le_total p0 p1 with h | h
  · rw [abs_of_nonneg (sub_nonneg.mpr h), abs_of_nonneg (by linarith : 0 ≤ p0 - p1 + P),
      abs_of_nonneg (by linarith : 0 ≤ p1 - p0 + P)]
    split_ifs <;> simp only [min_def] <;> split_ifs <;> linarith
  · rw [abs_of_nonpos (sub_nonpos.mpr h), abs_of_nonneg (by linarith : 0 ≤ p0 - p1 + P),
      abs_of_nonneg (by linarith : 0 ≤ p1 - p0 + P)]
    split_ifs <;> simp only [min_def] <;> split_ifs <;> linarith

/-- What `paramDistance` computes on a curve that is not periodic: on a curve
reported closed the least of three sums of rounded differences, on any other
curve the rounded difference. -/
theorem paramDistance_of_no_period (G : GeLib) (c : Curve) (p0 p1 : ℚ)
    (hper : c.period? = none) :
    paramDistance G c p0 p1 =
      if (getCurveParamRange G c).1 = true then
        min__ (min__ |roundDouble (p1 - p0)|
          (roundDouble (|roundDouble (p0 - c.interval.lower)| +
            |roundDouble (p1 - c.interval.upper)|)))
          (roundDouble (|roundDouble (p1 - c.interval.lower)| +
            |roundDouble (p0 - c.interval.upper)|))
      else |roundDouble (p1 - p0)| := by
  have hP : (getCurveParamRange G c).2.2 = 0 := by simp [getCurveParamRange, hper]
  have hI : (getCurveParamRange G c).2.1 = c.interval := rfl
  simp only [paramDistance, hP, hI, ne_eq, not_true_eq_false, if_false, fabs, dadd, dsub]

/-- On a closed curve without period, for two parameters of the interval
`[a, b]`, `paramDistance` is the shorter way round up to the rounding of its
differences and sums. -/
theorem paramDistance_closed_near (G : GeLib) (c : Curve) (p0 p1 : ℚ)
    (hper : c.period? = none) (hc : (getCurveParamRange G c).1 = true)
    (ha0 : c.interval.lower ≤ p0) (hb0 : p0 ≤ c.interval.upper)
    (ha1 : c.interval.lower ≤ p1) (hb1 : p1 ≤ c.interval.upper) :
    |paramDistance G c p0 p1 -
        min |p1 - p0| ((c.interval.upper - c.interval.lower) - |p1 - p0|)| ≤
      (c.interval.upper - c.interval.lower) / 2 ^ 50 + 2 ^ (-1073 : ℤ) := by
  rw [paramDistance_of_no_period G c p0 p1 hper, if_pos hc]
  have hD := abs_le.mp (abs_roundDouble_sub_abs_le (p1 - p0))
  have hW1 := abs_le.mp (roundDouble_abs_add_abs_le (p0 - c.interval.lower)
    (p1 - c.interval.upper))
  have hW2 := abs_le.mp (roundDouble_abs_add_abs_le (p1 - c.interval.lower)
    (p0 - c.interval.upper))
  rw [abs_of_nonneg (sub_nonneg.mpr ha0), abs_of_nonpos (sub_nonpos.mpr hb1)] at hW1
  rw [abs_of_nonneg (sub_nonneg.mpr ha1), abs_of_nonpos (sub_nonpos.mpr hb0)] at hW2
  have h1073 : (2 : ℚ) ^ (-1073 : ℤ) = 4 * 2 ^ (-1075 : ℤ) := by
    rw [show (-1073 : ℤ) = 2 + (-1075) by norm_num, zpow_add₀ (by norm_num)]
    norm_num
  have hη : (0 : ℚ) < 2 ^ (-1075 : ℤ) := by positivity
  rw [h1073] at hW1 hW2 ⊢
  generalize (2 : ℚ) ^ (-1075 : ℤ) = η at *
  generalize |roundDouble (p1 - p0)| = D at *
  generalize roundDouble (|roundDouble (p0 - c.interval.lower)| +
    |roundDouble (p1 - c.interval.upper)|) = W1 at *
  generalize roundDouble (|roundDouble (p1 - c.interval.lower)| +
    |roundDouble (p0 - c.interval.upper)|) = W2 at *
  generalize c.interval.lower = a at *
  generalize c.interval.upper = b at *
  simp only [min__]
  rcases le_total p0 p1 with h | h
  · rw [abs_of_nonneg (sub_nonneg.mpr h)] at hD ⊢
    norm_num at hD hW1 hW2 ⊢
    rw [abs_le]
    split_ifs <;> simp only [min_def] <;> split_ifs <;> constructor <;> linarith
  · rw [abs_of_nonpos (sub_nonpos.mpr h)] at hD ⊢
    norm_num at hD hW1 hW2 ⊢
    rw [abs_le]
    split_ifs <;> simp only [min_def] <;> split_ifs <;> constructor <;> linarith

/-- The doubles `0.1` and `0.7` are doubles. -/
theorem example_doubles :
    roundDouble exampleTenth = exampleTenth ∧
    roundDouble exampleSevenTenths = exampleSevenTenths := by
  constructor
  · exact roundDouble_eq_self _ 3602879701896397 (-55) (by norm_num) (by norm_num)
      (by norm_num [exampleTenth])
  · exact roundDouble_eq_self _ 3152519739159347 (-52) (by norm_num) (by norm_num)
      (by norm_num [exampleSevenTenths])

/-- On a closed curve without period whose interval is `[0, 1]`, with the
doubles `0.1` and `0.7` as parameters, both in the interval: `paramDistance`
returns `14411518807585588 / 2 ^ 55`, the double `0.4`, which the sum
`0.1 + 0.30000000000000004` rounds to, and the smaller of `|p1 - p0|` and
`(1 - 0) - |p1 - p0|` is `14411518807585589 / 2 ^ 55`. -/
theorem example_paramDistance_tenths :
    (exampleSpline (AcGeInterval.bounded 0 1) none true).period? = none ∧
    (getCurveParamRange (exampleLib [] false)
      (exampleSpline (AcGeInterval.bounded 0 1) none true)).1 = true ∧
    roundDouble exampleTenth = exampleTenth ∧
    roundDouble exampleSevenTenths = exampleSevenTenths ∧
    (0 ≤ exampleTenth ∧ exampleTenth ≤ 1) ∧
    (0 ≤ exampleSevenTenths ∧ exampleSevenTenths ≤ 1) ∧
    paramDistance (exampleLib [] false) (exampleSpline (AcGeInterval.bounded 0 1) none true)
      exampleTenth exampleSevenTenths = 14411518807585588 / 2 ^ 55 ∧
    min |exampleSevenTenths - exampleTenth| ((1 - 0) - |exampleSevenTenths - exampleTenth|) =
      14411518807585589 / 2 ^ 55 := by
  have hx : exampleSevenTenths - exampleTenth = 21617278211378379 / 2 ^ 55 := by
    norm_num [exampleSevenTenths, exampleTenth]
  have hd : roundDouble (exampleSevenTenths - exampleTenth) = 5404319552844595 / 2 ^ 53 := by
    rw [hx]
    have h := roundDouble_eq (21617278211378379 / 2 ^ 55) (-53) 5404319552844595
      (by norm_num)
      (by rw [abs_of_pos (by norm_num)]; norm_num)
      (by rw [abs_of_pos (by norm_num)]; norm_num)
      (roundHalfEven_eq_of_lt _ _ (by rw [abs_lt]; constructor <;> norm_num))
    rw [h]; norm_num
  have h0a : roundDouble (exampleTenth - 0) = exampleTenth := by
    rw [sub_zero]; exact example_doubles.1
  have h1a : roundDouble (exampleSevenTenths - 0) = exampleSevenTenths := by
    rw [sub_zero]; exact example_doubles.2
  have h1b : roundDouble (exampleSevenTenths - 1) = exampleSevenTenths - 1 :=
    roundDouble_eq_self _ (-5404319552844596) (-54) (by rw [abs_lt]; constructor <;> norm_num)
      (by norm_num) (by norm_num [exampleSevenTenths])
  have h0b : roundDouble (exampleTenth - 1) = -(8106479329266893 / 2 ^ 53) := by
    have hy : exampleTenth - 1 = -(32425917317067571 / 2 ^ 55) := by
      norm_num [exampleTenth]
    rw [hy, roundDouble_neg]
    have h := roundDouble_eq (32425917317067571 / 2 ^ 55) (-53) 8106479329266893
      (by norm_num)
      (by rw [abs_of_pos (by norm_num)]; norm_num)
      (by rw [abs_of_pos (by norm_num)]; norm_num)
      (roundHalfEven_eq_of_lt _ _ (by rw [abs_lt]; constructor <;> norm_num))
    rw [h]; norm_num
  have e1 : |exampleTenth| + |exampleSevenTenths - 1| = 14411518807585589 / 2 ^ 55 := by
    rw [abs_of_pos (by norm_num [exampleTenth]),
      abs_of_neg (by norm_num [exampleSevenTenths])]
    norm_num [exampleSevenTenths, exampleTenth]
  have e2 : |exampleSevenTenths| + |-((8106479329266893 : ℚ) / 2 ^ 53)| =
      14411518807585587 / 2 ^ 53 := by
    rw [abs_of_pos (by norm_num [exampleSevenTenths]), abs_of_neg (by norm_num)]
    norm_num [exampleSevenTenths]
  have hs1 : roundDouble (|exampleTenth| + |exampleSevenTenths - 1|) =
      14411518807585588 / 2 ^ 55 := by
    rw [e1]
    have h := roundDouble_eq (14411518807585589 / 2 ^ 55) (-54) 7205759403792794
      (by norm_num)
      (by rw [abs_of_pos (by norm_num)]; norm_num)
      (by rw [abs_of_pos (by norm_num)]; norm_num)
      (roundHalfEven_eq_of_tie _ _
        (by rw [abs_eq (by norm_num)]; left; norm_num) (by norm_num))
    rw [h]; norm_num
  have hs2 : roundDouble (|exampleSevenTenths| + |-((8106479329266893 : ℚ) / 2 ^ 53)|) =
      7205759403792794 / 2 ^ 52 := by
    rw [e2]
    have h := roundDouble_eq (14411518807585587 / 2 ^ 53) (-52) 7205759403792794
      (by norm_num)
      (by rw [abs_of_pos (by norm_num)]; norm_num)
      (by rw [abs_of_pos (by norm_num)]; norm_num)
      (roundHalfEven_eq_of_tie _ _
        (by rw [abs_eq (by norm_num)]; right; norm_num) (by norm_num))
    rw [h]; norm_num
  have habs : |(5404319552844595 : ℚ) / 2 ^ 53| = 5404319552844595 / 2 ^ 53 :=
    abs_of_pos (by norm_num)
  refine ⟨rfl, by simp [getCurveParamRange, exampleSpline], example_doubles.1,
    example_doubles.2, by norm_num [exampleTenth], by norm_num [exampleSevenTenths], ?_, ?_⟩
  · rw [paramDistance_of_no_period _ _ _ _ rfl]
    simp only [exampleSpline, AcGeInterval.bounded, getCurveParamRange]
    simp only [h0b, hd, h0a, h1a, h1b, hs1, hs2, habs]
    norm_num [min__]
  · rw [hx, abs_of_pos (by norm_num)]
    norm_num [min_def]

/-- `setIntersectionCrossingType` writes `mIntersCrossingType` only. -/
theorem setIntersectionCrossingType_frame (G : GeLib) (this : AssocFilletConfig)
    (config : AcGeXConfig × AcGeXConfig) :
    (this.setIntersectionCrossingType G config).2 =
      { this with mIntersCrossingType :=
          (this.setIntersectionCrossingType G config).2.mIntersCrossingType } := by
  unfold AssocFilletConfig.setIntersectionCrossingType
  split_ifs <;> rfl

/-- One turn of the loop of `initializeFromPickPoints` leaves `mIsInitialized`,
the pick points, the arc end points and the intersection point alone. -/
theorem initializeFromPickPoints_body_frame (G : GeLib) (curve : Curve × Curve) (radius : ℚ)
    (acc : AssocFilletConfig × ℚ) (x : Intersection) :
    (AssocFilletConfig.initializeFromPickPoints.body G curve radius acc x).1.mIsInitialized =
      acc.1.mIsInitialized := by
  have hs : ∀ (s : AssocFilletConfig) (config : AcGeXConfig × AcGeXConfig),
      (s.setIntersectionCrossingType G config).2.mIsInitialized = s.mIsInitialized := by
    intro s config
    rw [setIntersectionCrossingType_frame]
  unfold AssocFilletConfig.initializeFromPickPoints.body
  simp only []
  split_ifs <;> simp only [hs]

/-- The loop of `initializeFromPickPoints` leaves `mIsInitialized` alone. -/
theorem initializeFromPickPoints_loop_frame (G : GeLib) (curve : Curve × Curve) (radius : ℚ)
    (l : List Intersection) (acc : AssocFilletConfig × ℚ) :
    (l.foldl (AssocFilletConfig.initializeFromPickPoints.body G curve radius)
      acc).1.mIsInitialized = acc.1.mIsInitialized := by
  induction l generalizing acc with
  | nil => rfl
  | cons x t ih => rw [List.foldl_cons, ih, initializeFromPickPoints_body_frame]

/-- `initializeFromPickPoints` sets `mIsInitialized` when it returns `eOk` and
leaves it alone when it fails. -/
theorem initializeFromPickPoints_mIsInitialized (G : GeLib) (this : AssocFilletConfig)
    (curve : Curve × Curve) (radius : ℚ) :
    (this.initializeFromPickPoints G curve radius).2.mIsInitialized =
      if (this.initializeFromPickPoints G curve radius).1 = ErrorStatus.eOk then true
      else this.mIsInitialized := by
  unfold AssocFilletConfig.initializeFromPickPoints
  simp only [whileGetNext_eq_foldl]
  split_ifs <;> simp_all [initializeFromPickPoints_loop_frame]

/-- `initializeFromPickPoints` returns `eOk`, `eInvalidNormal` or `eInvalidInput`. -/
theorem initializeFromPickPoints_status (G : GeLib) (this : AssocFilletConfig)
    (curve : Curve × Curve) (radius : ℚ) :
    (this.initializeFromPickPoints G curve radius).1 = ErrorStatus.eOk ∨
    (this.initializeFromPickPoints G curve radius).1 = ErrorStatus.eInvalidNormal ∨
    (this.initializeFromPickPoints G curve radius).1 = ErrorStatus.eInvalidInput := by
  unfold AssocFilletConfig.initializeFromPickPoints
  simp only []
  split_ifs <;> simp

/-- On an initialized resolver the start of `evaluate` changes nothing. -/
theorem evaluate_initialized_of_isInitialized (G : GeLib) (this : AssocFilletConfig)
    (curve : Curve × Curve) (radius : ℚ) (h : this.mIsInitialized = true) :
    AssocFilletConfig.evaluate.initialized G this curve radius = this := by
  simp [AssocFilletConfig.evaluate.initialized, AssocFilletConfig.isInitialized, h]

/-- On a resolver that is not initialized the start of `evaluate` leaves what
`initializeFromPickPoints` leaves. -/
theorem evaluate_initialized_of_not_isInitialized (G : GeLib) (this : AssocFilletConfig)
    (curve : Curve × Curve) (radius : ℚ) (h : this.mIsInitialized = false) :
    AssocFilletConfig.evaluate.initialized G this curve radius =
      (this.initializeFromPickPoints G curve radius).2 := by
  simp [AssocFilletConfig.evaluate.initialized, AssocFilletConfig.isInitialized, h]

/-- Unless `evaluate` is asked to update the state and returns `eOk`, it leaves
the resolver as the start of `evaluate` (the lazy initialization) left it. -/
theorem evaluate_config_frame (G : GeLib) (this : AssocFilletConfig) (updateState : Bool)
    (curve : Curve × Curve) (radius : ℚ) (isTrimCurve : Bool × Bool)
    (adjustTweakedCurves : Bool)
    (h : updateState = false ∨
      (this.evaluate G updateState curve radius isTrimCurve adjustTweakedCurves).status
        ≠ ErrorStatus.eOk) :
    (this.evaluate G updateState curve radius isTrimCurve adjustTweakedCurves).config =
      AssocFilletConfig.evaluate.initialized G this curve radius := by
  rw [AssocFilletConfig.evaluate] at h ⊢
  simp only [] at h ⊢
  split_ifs at h ⊢ <;> simp_all

/-- The status of `evaluate` is `eNotInitializedYet` exactly when the resolver
is not initialized after the start of `evaluate`. -/
theorem evaluate_status_eNotInitializedYet (G : GeLib) (this : AssocFilletConfig)
    (updateState : Bool) (curve : Curve × Curve) (radius : ℚ) (isTrimCurve : Bool × Bool)
    (adjustTweakedCurves : Bool) :
    (this.evaluate G updateState curve radius isTrimCurve adjustTweakedCurves).status
        = ErrorStatus.eNotInitializedYet ↔
      (AssocFilletConfig.evaluate.initialized G this curve radius).mIsInitialized = false := by
  rw [AssocFilletConfig.evaluate]
  simp only [AssocFilletConfig.isInitialized]
  split_ifs <;> simp_all

/-- With the example library every fresh iterator returns the list `inters`. -/
theorem example_results (inters : List Intersection) (d : Bool) (curve : Curve × Curve)
    (normal : Vector3d) (offsetDist : ℚ) (offsetLeft : Bool × Bool) :
    results (exampleLib inters d)
      (AcDbOffsetCurveIntersectionIter.new (exampleLib inters d) curve normal offsetDist
        offsetLeft) = inters := by
  rw [results_new]
  simp [allIntersections, AcDbOffsetCurveIntersectionIter.new, getUnbooundedOffsetCurves,
    exampleLib]

/-- `initializeFromPickPoints` on the example: it succeeds and leaves `exampleSolved`. -/
theorem example_init :
    examplePicked.initializeFromPickPoints (exampleLib [exampleCorner] false) exampleCurves 0 =
      (ErrorStatus.eOk, exampleSolved) := by
  have h12 : |(1 : ℚ) / 2| = 1 / 2 := abs_of_pos (by norm_num)
  unfold AssocFilletConfig.initializeFromPickPoints
  simp only [whileGetNext_eq_foldl, example_results]
  simp [h12, exampleLib, exampleCurves, exampleLineSeg, getCurveNormal₂, Curve.isLinearEnt,
    Vector3d.crossProduct, Vector3d.zero, AssocFilletConfig.initializeFromPickPoints.body,
    exampleCorner, examplePicked, exampleSolved, AssocFilletConfig.new,
    AssocFilletConfig.setPickPoints, Point3d.kOrigin, Point3d.sub, Vector3d.add,
    Vector3d.dotProduct, AssocFilletConfig.setIntersectionCrossingType, c1e30, c1e29]
  norm_num [h12]

/-- `evaluate` without update on the resolver that is not yet initialized. -/
theorem example_evaluate_picked :
    examplePicked.evaluate (exampleLib [exampleCorner] false) false exampleCurves 0
        (false, false) false =
      ⟨ErrorStatus.eOk, exampleSolved, exampleCurves,
        CircArc3d.circle (exampleLib [exampleCorner] false) Point3d.kOrigin Vector3d.kZAxis 0⟩ := by
  have hinit : AssocFilletConfig.evaluate.initialized (exampleLib [exampleCorner] false)
      examplePicked exampleCurves 0 = exampleSolved := by
    rw [evaluate_initialized_of_not_isInitialized _ _ _ _ rfl, example_init]
  rw [AssocFilletConfig.evaluate]
  simp only [hinit, AssocFilletConfig.evaluate.best, AssocFilletConfig.evaluate.iter,
    whileGetNext_eq_foldl, example_results]
  simp [AssocFilletConfig.evaluate.adjusted, AssocFilletConfig.isInitialized, exampleSolved,
    examplePicked, AssocFilletConfig.new, AssocFilletConfig.setPickPoints,
    exampleLib, exampleCurves, exampleLineSeg, getCurveNormal₂, Curve.isLinearEnt,
    Vector3d.crossProduct, Vector3d.zero, AssocFilletConfig.evaluate.body,
    AssocFilletConfig.evaluate.matches, AssocFilletConfig.evaluate.paramDist,
    paramDistance, getCurveParamRange, fabs, min__,
    exampleCorner, Point3d.kOrigin, Vector3d.kZAxis, AssocFilletConfig.evaluate.filletArc,
    AssocFilletConfig.evaluate.trimmed, CircArc3d.circle, c1e30, c1e29]
  norm_num

/-! ## The choice of the intersection in `evaluate` -/

/-- The least distance after one turn of the loop of `evaluate`. -/
theorem evaluate_body_min_le (G : GeLib) (this : AssocFilletConfig) (curve : Curve × Curve)
    (acc : AssocFilletConfig.evaluate.Best) (x : Intersection) (v : ℚ) :
    (AssocFilletConfig.evaluate.body G this curve acc x).minParamDist ≤ v ↔
      acc.minParamDist ≤ v ∨
        (AssocFilletConfig.evaluate.matches this x.config = true ∧
          AssocFilletConfig.evaluate.paramDist G this curve x ≤ v) := by
  unfold AssocFilletConfig.evaluate.body
  simp only []
  split_ifs with hm hlt
  · constructor
    · intro h; exact Or.inr ⟨hm, h⟩
    · rintro (h | ⟨-, h⟩)
      · exact le_trans (le_of_lt hlt) h
      · exact h
  · constructor
    · intro h; exact Or.inl h
    · rintro (h | ⟨-, h⟩)
      · exact h
      · exact le_trans (not_lt.mp hlt) h
  · constructor
    · intro h; exact Or.inl h
    · rintro (h | ⟨h, -⟩)
      · exact h
      · exact absurd h hm

/-- The least distance when the loop of `evaluate` ends is at most `v` exactly
when it was so at the start or some intersection that matches the
configuration has a distance of at most `v`. -/
theorem evaluate_loop_min_le (G : GeLib) (this : AssocFilletConfig) (curve : Curve × Curve)
    (l : List Intersection) (acc : AssocFilletConfig.evaluate.Best) (v : ℚ) :
    (l.foldl (AssocFilletConfig.evaluate.body G this curve) acc).minParamDist ≤ v ↔
      acc.minParamDist ≤ v ∨
        ∃ x ∈ l, AssocFilletConfig.evaluate.matches this x.config = true ∧
          AssocFilletConfig.evaluate.paramDist G this curve x ≤ v := by
  induction l generalizing acc with
  | nil => simp
  | cons y t ih =>
    rw [List.foldl_cons, ih, evaluate_body_min_le]
    constructor
    · rintro ((h | h) | ⟨x, hx, h⟩)
      · exact Or.inl h
      · exact Or.inr ⟨y, List.mem_cons_self _ _, h⟩
      · exact Or.inr ⟨x, List.mem_cons_of_mem _ hx, h⟩
    · rintro (h | ⟨x, hx, h⟩)
      · exact Or.inl (Or.inl h)
      · rcases List.mem_cons.mp hx with rfl | hx
        · exact Or.inl (Or.inr h)
        · exact Or.inr ⟨x, hx, h⟩

/-- What the loop of `evaluate` leaves: either nothing was chosen, and every
matching intersection is at least as far as the distance at the start; or the
chosen intersection matches, is nearer than the distance at the start,
strictly nearer than every matching intersection before it and at least as
near as every matching intersection after it. -/
theorem evaluate_loop_choice (G : GeLib) (this : AssocFilletConfig) (curve : Curve × Curve)
    (l : List Intersection) (acc : AssocFilletConfig.evaluate.Best) :
    (l.foldl (AssocFilletConfig.evaluate.body G this curve) acc = acc ∧
      ∀ x ∈ l, AssocFilletConfig.evaluate.matches this x.config = true →
        acc.minParamDist ≤ AssocFilletConfig.evaluate.paramDist G this curve x) ∨
    ∃ pre x post, l = pre ++ x :: post ∧
      AssocFilletConfig.evaluate.matches this x.config = true ∧
      l.foldl (AssocFilletConfig.evaluate.body G this curve) acc =
        ⟨AssocFilletConfig.evaluate.paramDist G this curve x, x.intersPoint, x.param⟩ ∧
      AssocFilletConfig.evaluate.paramDist G this curve x < acc.minParamDist ∧
      (∀ y ∈ pre, AssocFilletConfig.evaluate.matches this y.config = true →
        AssocFilletConfig.evaluate.paramDist G this curve x <
          AssocFilletConfig.evaluate.paramDist G this curve y) ∧
      (∀ y ∈ post, AssocFilletConfig.evaluate.matches this y.config = true →
        AssocFilletConfig.evaluate.paramDist G this curve x ≤
          AssocFilletConfig.evaluate.paramDist G this curve y) := by
  induction l generalizing acc with
  | nil => exact Or.inl ⟨rfl, by simp⟩
  | cons a t ih =>
    rw [List.foldl_cons]
    by_cases hsel : AssocFilletConfig.evaluate.matches this a.config = true ∧
        AssocFilletConfig.evaluate.paramDist G this curve a < acc.minParamDist
    · have hb : AssocFilletConfig.evaluate.body G this curve acc a =
          ⟨AssocFilletConfig.evaluate.paramDist G this curve a, a.intersPoint, a.param⟩ := by
        simp [AssocFilletConfig.evaluate.body, hsel.1, hsel.2]
      rw [hb]
      rcases ih ⟨AssocFilletConfig.evaluate.paramDist G this curve a, a.intersPoint, a.param⟩
        with ⟨heq, hall⟩ | ⟨pre, x, post, hl, hm, heq, hlt, hpre, hpost⟩
      · exact Or.inr ⟨[], a, t, rfl, hsel.1, heq, hsel.2, by simp, hall⟩
      · refine Or.inr ⟨a :: pre, x, post, by rw [hl]; rfl, hm, heq, lt_trans hlt hsel.2, ?_, hpost⟩
        intro y hy hmy
        rcases List.mem_cons.mp hy with rfl | hy
        · exact hlt
        · exact hpre y hy hmy
    · have hb : AssocFilletConfig.evaluate.body G this curve acc a = acc := by
        unfold AssocFilletConfig.evaluate.body
        simp only []
        split_ifs with hm hlt
        · exact absurd ⟨hm, hlt⟩ hsel
        · rfl
        · rfl
      have ha : AssocFilletConfig.evaluate.matches this a.config = true →
          acc.minParamDist ≤ AssocFilletConfig.evaluate.paramDist G this curve a := by
        intro hm
        exact not_lt.mp fun hlt => hsel ⟨hm, hlt⟩
      rw [hb]
      rcases ih acc with ⟨heq, hall⟩ | ⟨pre, x, post, hl, hm, heq, hlt, hpre, hpost⟩
      · refine Or.inl ⟨heq, ?_⟩
        intro x hx hmx
        rcases List.mem_cons.mp hx with rfl | hx
        · exact ha hmx
        · exact hall x hx hmx
      · refine Or.inr ⟨a :: pre, x, post, by rw [hl]; rfl, hm, heq, hlt, ?_, hpost⟩
        intro y hy hmy
        rcases List.mem_cons.mp hy with rfl | hy
        · exact lt_of_lt_of_le hlt (ha hmy)
        · exact hpre y hy hmy

/-- The variables of `evaluate` at the end of its loop are the fold of the loop
body over the candidates. -/
theorem evaluate_chosen_eq (G : GeLib) (this : AssocFilletConfig) (curve : Curve × Curve)
    (radius : ℚ) (isTrimCurve : Bool × Bool) (adjustTweakedCurves : Bool) :
    AssocFilletConfig.evaluate.chosen G this curve radius isTrimCurve adjustTweakedCurves =
      (AssocFilletConfig.evaluate.candidates G this curve radius isTrimCurve
        adjustTweakedCurves).foldl
        (AssocFilletConfig.evaluate.body G
          (AssocFilletConfig.evaluate.initialized G this curve radius)
          (AssocFilletConfig.evaluate.curveIn G this curve radius isTrimCurve
            adjustTweakedCurves))
        { minParamDist := c1e30, bestIntersPnt := Point3d.kOrigin, bestParam := (0, 0) } := by
  simp only [AssocFilletConfig.evaluate.chosen, AssocFilletConfig.evaluate.best,
    AssocFilletConfig.evaluate.candidates, whileGetNext_eq_foldl]

/-- The fillet arc that `evaluate` builds has the chosen intersection as center. -/
theorem evaluate_filletArc_center (G : GeLib) (this : AssocFilletConfig)
    (curve : Curve × Curve) (radius : ℚ) (normal : Vector3d) (bestIntersPnt : Point3d)
    (bestParam : ℚ × ℚ) :
    (AssocFilletConfig.evaluate.filletArc G this curve radius normal bestIntersPnt
      bestParam).1.center = bestIntersPnt := by
  unfold AssocFilletConfig.evaluate.filletArc
  simp only []
  split_ifs <;> rfl

/-- When `evaluate` returns `eOk`: the least distance is at most `1e29`, no
trimming failed, the curves are left as the trimming left them, the arc has the
chosen point as center and, when the state is updated, `mParam` holds the
chosen parameters while the members that only the initialization writes are
as the lazy initialization left them. -/
theorem evaluate_ok (G : GeLib) (this : AssocFilletConfig) (updateState : Bool)
    (curve : Curve × Curve) (radius : ℚ) (isTrimCurve : Bool × Bool)
    (adjustTweakedCurves : Bool)
    (h : (this.evaluate G updateState curve radius isTrimCurve adjustTweakedCurves).status
      = ErrorStatus.eOk) :
    (AssocFilletConfig.evaluate.initialized G this curve radius).mIsInitialized = true ∧
    (1 / 2 ≤ G.length (getCurveNormal₂ G
      (AssocFilletConfig.evaluate.curveIn G this curve radius isTrimCurve
        adjustTweakedCurves))) ∧
    (AssocFilletConfig.evaluate.chosen G this curve radius isTrimCurve
      adjustTweakedCurves).minParamDist ≤ c1e29 ∧
    (AssocFilletConfig.evaluate.trimmed G
      (AssocFilletConfig.evaluate.initialized G this curve radius)
      (AssocFilletConfig.evaluate.curveIn G this curve radius isTrimCurve adjustTweakedCurves)
      (AssocFilletConfig.evaluate.chosen G this curve radius isTrimCurve
        adjustTweakedCurves).bestParam isTrimCurve).1 = ErrorStatus.eOk ∧
    (this.evaluate G updateState curve radius isTrimCurve adjustTweakedCurves).curve =
      (AssocFilletConfig.evaluate.trimmed G
        (AssocFilletConfig.evaluate.initialized G this curve radius)
        (AssocFilletConfig.evaluate.curveIn G this curve radius isTrimCurve
          adjustTweakedCurves)
        (AssocFilletConfig.evaluate.chosen G this curve radius isTrimCurve
          adjustTweakedCurves).bestParam isTrimCurve).2 ∧
    (this.evaluate G updateState curve radius isTrimCurve
      adjustTweakedCurves).filletArcOut.center =
      (AssocFilletConfig.evaluate.chosen G this curve radius isTrimCurve
        adjustTweakedCurves).bestIntersPnt ∧
    (updateState = true →
      (this.evaluate G updateState curve radius isTrimCurve adjustTweakedCurves).config.mParam =
        (AssocFilletConfig.evaluate.chosen G this curve radius isTrimCurve
          adjustTweakedCurves).bestParam) := by
  rw [AssocFilletConfig.evaluate] at h ⊢
  simp only [AssocFilletConfig.evaluate.chosen, AssocFilletConfig.evaluate.curveIn,
    AssocFilletConfig.isInitialized] at h ⊢
  split_ifs at h ⊢ <;>
    simp_all [evaluate_filletArc_center, not_lt.mp, le_of_not_lt]

/-! ## Worked examples -/

/-- `evaluate` on the initialized example: it succeeds whether or not the
state is updated and leaves the resolver as it was. -/
theorem example_evaluate_solved (updateState adjustTweakedCurves : Bool) :
    exampleSolved.evaluate (exampleLib [exampleCorner] false) updateState exampleCurves 0
        (false, false) adjustTweakedCurves =
      ⟨ErrorStatus.eOk, exampleSolved, exampleCurves,
        CircArc3d.circle (exampleLib [exampleCorner] false) Point3d.kOrigin Vector3d.kZAxis 0⟩ := by
  have hinit : AssocFilletConfig.evaluate.initialized (exampleLib [exampleCorner] false)
      exampleSolved exampleCurves 0 = exampleSolved :=
    evaluate_initialized_of_isInitialized _ _ _ _ rfl
  rw [AssocFilletConfig.evaluate]
  simp only [hinit, AssocFilletConfig.evaluate.best, AssocFilletConfig.evaluate.iter,
    whileGetNext_eq_foldl, example_results]
  simp [AssocFilletConfig.evaluate.adjusted, AssocFilletConfig.isInitialized, exampleSolved,
    examplePicked, AssocFilletConfig.new, AssocFilletConfig.setPickPoints,
    exampleLib, exampleCurves, exampleLineSeg, getCurveNormal₂, Curve.isLinearEnt,
    Vector3d.crossProduct, Vector3d.zero, AssocFilletConfig.evaluate.body,
    AssocFilletConfig.evaluate.matches, AssocFilletConfig.evaluate.paramDist,
    paramDistance, getCurveParamRange, fabs, min__,
    exampleCorner, Point3d.kOrigin, Vector3d.kZAxis, AssocFilletConfig.evaluate.filletArc,
    AssocFilletConfig.evaluate.trimmed, CircArc3d.circle, c1e30, c1e29]
  norm_num

/-- `initializeFromPickPoints` on the example where the first segment starts at
the corner: it succeeds, with both curves taken as incoming. -/
theorem example_init_away :
    examplePicked.initializeFromPickPoints (exampleLib [exampleCornerAway] false)
        exampleCurvesAway 0 = (ErrorStatus.eOk, exampleSolvedAway) := by
  have h12 : |(1 : ℚ) / 2| = 1 / 2 := abs_of_pos (by norm_num)
  unfold AssocFilletConfig.initializeFromPickPoints
  simp only [whileGetNext_eq_foldl, example_results]
  simp [h12, exampleLib, exampleCurvesAway, exampleLineSeg, getCurveNormal₂, Curve.isLinearEnt,
    Vector3d.crossProduct, Vector3d.zero, AssocFilletConfig.initializeFromPickPoints.body,
    exampleCornerAway, examplePicked, exampleSolvedAway, AssocFilletConfig.new,
    AssocFilletConfig.setPickPoints, Point3d.kOrigin, Point3d.sub, Vector3d.add,
    Vector3d.dotProduct, AssocFilletConfig.setIntersectionCrossingType, c1e30, c1e29]
  norm_num [h12]

/-- `evaluate` with update and trimming on that example: the trimming of the
first segment to the corner would leave the empty interval `[0, 0]`, and
`evaluate` fails. -/
theorem example_evaluate_away :
    (examplePicked.evaluate (exampleLib [exampleCornerAway] false) true exampleCurvesAway 0
        (true, true) true).status = ErrorStatus.eInvalidInput := by
  have hinit : AssocFilletConfig.evaluate.initialized (exampleLib [exampleCornerAway] false)
      examplePicked exampleCurvesAway 0 = exampleSolvedAway := by
    rw [evaluate_initialized_of_not_isInitialized _ _ _ _ rfl, example_init_away]
  rw [AssocFilletConfig.evaluate]
  simp only [hinit, AssocFilletConfig.evaluate.best, AssocFilletConfig.evaluate.iter,
    whileGetNext_eq_foldl, example_results]
  simp [AssocFilletConfig.evaluate.adjusted, AssocFilletConfig.isInitialized, exampleSolvedAway,
    examplePicked, AssocFilletConfig.new, AssocFilletConfig.setPickPoints,
    exampleLib, exampleCurvesAway, exampleLineSeg, getCurveNormal₂, Curve.isLinearEnt,
    Vector3d.crossProduct, Vector3d.zero, AssocFilletConfig.evaluate.body,
    AssocFilletConfig.evaluate.matches, AssocFilletConfig.evaluate.paramDist,
    paramDistance, getCurveParamRange, fabs, min__,
    exampleCornerAway, Point3d.kOrigin, Vector3d.kZAxis, AssocFilletConfig.evaluate.filletArc,
    AssocFilletConfig.evaluate.trimmed, trimOrExtendCurve, AcGeInterval.setUpper,
    AcGeInterval.setLower, AcGeInterval.bounded, Curve.setInterval,
    CircArc3d.circle, c1e30, c1e29]

/-- `initializeFromPickPoints` on two parallel segments: there is no
intersection, it returns `eInvalidInput` and leaves the resolver as it was. -/
theorem example_init_parallel :
    examplePickedParallel.initializeFromPickPoints (exampleLib [] false) exampleParallel 0 =
      (ErrorStatus.eInvalidInput, examplePickedParallel) := by
  unfold AssocFilletConfig.initializeFromPickPoints
  simp only [whileGetNext_eq_foldl, example_results]
  simp [exampleLib, exampleParallel, exampleLineSeg, getCurveNormal₂, Curve.isLinearEnt,
    Vector3d.crossProduct, Vector3d.zero, Point3d.sub, Vector3d.dotProduct, c1e30, c1e29]
  norm_num

/-- `evaluate` on the initialized example when no intersection is found. -/
theorem example_evaluate_none (updateState : Bool) :
    (exampleSolved.evaluate (exampleLib [] false) updateState exampleCurves 0
        (false, false) false).status = ErrorStatus.eInvalidInput := by
  have hinit : AssocFilletConfig.evaluate.initialized (exampleLib [] false)
      exampleSolved exampleCurves 0 = exampleSolved :=
    evaluate_initialized_of_isInitialized _ _ _ _ rfl
  rw [AssocFilletConfig.evaluate]
  simp only [hinit, AssocFilletConfig.evaluate.best, AssocFilletConfig.evaluate.iter,
    whileGetNext_eq_foldl, example_results]
  simp [AssocFilletConfig.evaluate.adjusted, AssocFilletConfig.isInitialized, exampleSolved,
    exampleLib, exampleCurves, exampleLineSeg, getCurveNormal₂, Curve.isLinearEnt,
    Vector3d.crossProduct, Vector3d.zero, c1e30, c1e29]
  norm_num

/-! ## The state of the resolver across `evaluate` -/

/-- C1, the code at a failing input.  On the resolver `examplePicked`, which is
not initialized, `evaluate` with `updateState = false` returns `eOk` and leaves
the resolver initialized, with other cached parameters: the call is not
read-only. -/
theorem evaluate_without_update_initializes :
    examplePicked.mIsInitialized = false ∧
    (examplePicked.evaluate (exampleLib [exampleCorner] false) false exampleCurves 0
        (false, false) false).status = ErrorStatus.eOk ∧
    (examplePicked.evaluate (exampleLib [exampleCorner] false) false exampleCurves 0
        (false, false) false).config.mIsInitialized = true ∧
    (examplePicked.evaluate (exampleLib [exampleCorner] false) false exampleCurves 0
        (false, false) false).config.mParam = (1, 1) ∧
    examplePicked.mParam = (0, 0) ∧
    (examplePicked.evaluate (exampleLib [exampleCorner] false) false exampleCurves 0
        (false, false) false).config ≠ examplePicked := by
  rw [example_evaluate_picked]
  refine ⟨rfl, rfl, rfl, rfl, rfl, ?_⟩
  intro h
  have := congrArg AssocFilletConfig.mIsInitialized h
  simp [exampleSolved, examplePicked, AssocFilletConfig.new,
    AssocFilletConfig.setPickPoints] at this

/-- C2, counterexample.  On the resolver `examplePicked`, which is not
initialized, `evaluate` with update and trimming fails with `eInvalidInput`
(the trimmed interval is empty), yet it leaves the resolver initialized. -/
theorem evaluate_failure_keeps_initialization :
    (examplePicked.evaluate (exampleLib [exampleCornerAway] false) true exampleCurvesAway 0
        (true, true) true).status ≠ ErrorStatus.eOk ∧
    (examplePicked.evaluate (exampleLib [exampleCornerAway] false) true exampleCurvesAway 0
        (true, true) true).config ≠ examplePicked := by
  have hs := example_evaluate_away
  have hne : (examplePicked.evaluate (exampleLib [exampleCornerAway] false) true
      exampleCurvesAway 0 (true, true) true).status ≠ ErrorStatus.eOk := by
    rw [hs]; decide
  refine ⟨hne, ?_⟩
  rw [evaluate_config_frame _ _ _ _ _ _ _ (Or.inr hne),
    evaluate_initialized_of_not_isInitialized _ _ _ _ rfl, example_init_away]
  intro h
  have := congrArg AssocFilletConfig.mIsInitialized h
  simp [exampleSolvedAway, examplePicked, AssocFilletConfig.new,
    AssocFilletConfig.setPickPoints] at this

/-- C2, amended.  When `evaluate` returns a status other than `eOk`, also with
`updateState = true`: an initialized resolver is left exactly as it was; and a
resolver that was not initialized and whose lazy initialization succeeded is
left as that initialization left it, initialized. -/
theorem evaluate_failure_frame (G : GeLib) (this : AssocFilletConfig) (updateState : Bool)
    (curve : Curve × Curve) (radius : ℚ) (isTrimCurve : Bool × Bool)
    (adjustTweakedCurves : Bool)
    (h : (this.evaluate G updateState curve radius isTrimCurve adjustTweakedCurves).status
      ≠ ErrorStatus.eOk) :
    (this.mIsInitialized = true →
      (this.evaluate G updateState curve radius isTrimCurve adjustTweakedCurves).config
        = this) ∧
    (this.mIsInitialized = false →
      (this.initializeFromPickPoints G curve radius).1 = ErrorStatus.eOk →
      (this.evaluate G updateState curve radius isTrimCurve adjustTweakedCurves).config
        = (this.initializeFromPickPoints G curve radius).2 ∧
      (this.evaluate G updateState curve radius isTrimCurve
        adjustTweakedCurves).config.mIsInitialized = true) := by
  constructor
  · intro hi
    rw [evaluate_config_frame _ _ _ _ _ _ _ (Or.inr h),
      evaluate_initialized_of_isInitialized _ _ _ _ hi]
  · intro hi hok
    rw [evaluate_config_frame _ _ _ _ _ _ _ (Or.inr h),
      evaluate_initialized_of_not_isInitialized _ _ _ _ hi]
    refine ⟨rfl, ?_⟩
    rw [initializeFromPickPoints_mIsInitialized, if_pos hok]

/-- C2, witness: the initialized example with no intersection, and the example
that is not initialized, whose initialization succeeds and whose trimming
fails. -/
theorem evaluate_failure_frame_witness :
    ((exampleSolved.evaluate (exampleLib [] false) true exampleCurves 0
        (false, false) false).status ≠ ErrorStatus.eOk ∧
      exampleSolved.mIsInitialized = true ∧
      (exampleSolved.evaluate (exampleLib [] false) true exampleCurves 0
        (false, false) false).config = exampleSolved) ∧
    ((examplePicked.evaluate (exampleLib [exampleCornerAway] false) true exampleCurvesAway 0
        (true, true) true).status ≠ ErrorStatus.eOk ∧
      examplePicked.mIsInitialized = false ∧
      (examplePicked.initializeFromPickPoints (exampleLib [exampleCornerAway] false)
        exampleCurvesAway 0).1 = ErrorStatus.eOk ∧
      (examplePicked.evaluate (exampleLib [exampleCornerAway] false) true exampleCurvesAway 0
        (true, true) true).config =
        (examplePicked.initializeFromPickPoints (exampleLib [exampleCornerAway] false)
          exampleCurvesAway 0).2 ∧
      (examplePicked.evaluate (exampleLib [exampleCornerAway] false) true exampleCurvesAway 0
        (true, true) true).config.mIsInitialized = true) :=
  ⟨⟨by rw [example_evaluate_none]; decide, rfl,
    (evaluate_failure_frame (exampleLib [] false) exampleSolved true exampleCurves 0
      (false, false) false (by rw [example_evaluate_none]; decide)).1 rfl⟩,
   ⟨by rw [example_evaluate_away]; decide, rfl, by rw [example_init_away],
    (evaluate_failure_frame (exampleLib [exampleCornerAway] false) examplePicked true
      exampleCurvesAway 0 (true, true) true (by rw [example_evaluate_away]; decide)).2 rfl
      (by rw [example_init_away])⟩⟩

/-- C3, counterexample.  On two parallel segments the lazily invoked
`initializeFromPickPoints` fails with `eInvalidInput`, and `evaluate` returns
`eNotInitializedYet`, another status, although the pick points were set with
`setPickPoints`. -/
theorem evaluate_drops_initialization_status :
    examplePickedParallel =
      AssocFilletConfig.new.setPickPoints (⟨1 / 2, 0, 0⟩, ⟨1 / 2, 1, 0⟩) ∧
    (examplePickedParallel.initializeFromPickPoints (exampleLib [] false)
      exampleParallel 0).1 = ErrorStatus.eInvalidInput ∧
    (examplePickedParallel.evaluate (exampleLib [] false) true exampleParallel 0
      (false, false) false).status = ErrorStatus.eNotInitializedYet ∧
    (examplePickedParallel.evaluate (exampleLib [] false) true exampleParallel 0
      (false, false) false).status ≠
      (examplePickedParallel.initializeFromPickPoints (exampleLib [] false)
        exampleParallel 0).1 := by
  have hs : (examplePickedParallel.evaluate (exampleLib [] false) true exampleParallel 0
      (false, false) false).status = ErrorStatus.eNotInitializedYet := by
    rw [evaluate_status_eNotInitializedYet,
      evaluate_initialized_of_not_isInitialized _ _ _ _ rfl, example_init_parallel]
    rfl
  refine ⟨rfl, by rw [example_init_parallel], hs, ?_⟩
  rw [hs, example_init_parallel]
  decide

/-- C3, amended.  `evaluate` returns `eNotInitializedYet` exactly when the
resolver is not initialized and the lazily invoked `initializeFromPickPoints`
fails, whatever the status of that failure (`eInvalidNormal` or
`eInvalidInput`): the status of `initializeFromPickPoints` is not passed on. -/
theorem evaluate_eNotInitializedYet_iff (G : GeLib) (this : AssocFilletConfig)
    (updateState : Bool) (curve : Curve × Curve) (radius : ℚ) (isTrimCurve : Bool × Bool)
    (adjustTweakedCurves : Bool) :
    (this.evaluate G updateState curve radius isTrimCurve adjustTweakedCurves).status
        = ErrorStatus.eNotInitializedYet ↔
      (this.mIsInitialized = false ∧
        ((this.initializeFromPickPoints G curve radius).1 = ErrorStatus.eInvalidNormal ∨
         (this.initializeFromPickPoints G curve radius).1 = ErrorStatus.eInvalidInput)) := by
  rw [evaluate_status_eNotInitializedYet]
  have hst := initializeFromPickPoints_status G this curve radius
  have hflag := initializeFromPickPoints_mIsInitialized G this curve radius
  cases hi : this.mIsInitialized
  · rw [evaluate_initialized_of_not_isInitialized _ _ _ _ hi, hflag, hi]
    rcases hst with h | h | h <;> simp [h]
  · rw [evaluate_initialized_of_isInitialized _ _ _ _ hi, hi]
    simp

/-! ## The intersection that `evaluate` selects -/

/-- The total parametric distance of `evaluate` is the sum of the two
parametric distances, rounded to the nearest double. -/
theorem evaluate_paramDist_eq (G : GeLib) (this : AssocFilletConfig) (curve : Curve × Curve)
    (x : Intersection) :
    AssocFilletConfig.evaluate.paramDist G this curve x =
      roundDouble (paramDistance G curve.1 x.param.1 this.mParam.1 +
        paramDistance G curve.2 x.param.2 this.mParam.2) := rfl

/-- The parametric distance on a spline of `exampleWavy` is the absolute value
of the rounded difference. -/
theorem example_paramDistance_wavy (inters : List Intersection) (p0 p1 : ℚ) :
    paramDistance (exampleLib inters false) exampleWavy.1 p0 p1 = |roundDouble (p1 - p0)| ∧
    paramDistance (exampleLib inters false) exampleWavy.2 p0 p1 = |roundDouble (p1 - p0)| := by
  constructor <;>
  · rw [paramDistance_of_no_period _ _ _ _ rfl]
    simp [getCurveParamRange, exampleWavy, exampleSpline]

/-- The total parametric distance on the splines of `exampleWavy`. -/
theorem example_paramDist_wavy (inters : List Intersection) (this : AssocFilletConfig)
    (x : Intersection) :
    AssocFilletConfig.evaluate.paramDist (exampleLib inters false) this exampleWavy x =
      roundDouble (|roundDouble (this.mParam.1 - x.param.1)| +
        |roundDouble (this.mParam.2 - x.param.2)|) := by
  rw [evaluate_paramDist_eq, (example_paramDistance_wavy _ _ _).1,
    (example_paramDistance_wavy _ _ _).2]

/-- `evaluate` on the five intersections of `exampleCrossings`: the third is
selected. -/
theorem example_evaluate_wavy :
    exampleSolved.evaluate (exampleLib exampleCrossings false) true exampleWavy 0
        (false, false) false =
      ⟨ErrorStatus.eOk,
        { exampleSolved with
          mParam := (1 / 2, 1), mArcEndPoint := (⟨3, 0, 0⟩, ⟨3, 0, 0⟩)
          mIntersPoint := ⟨3, 0, 0⟩ },
        exampleWavy,
        CircArc3d.circle (exampleLib exampleCrossings false) ⟨3, 0, 0⟩ Vector3d.kZAxis 0⟩ := by
  have hinit : AssocFilletConfig.evaluate.initialized (exampleLib exampleCrossings false)
      exampleSolved exampleWavy 0 = exampleSolved :=
    evaluate_initialized_of_isInitialized _ _ _ _ rfl
  have hbest : AssocFilletConfig.evaluate.best (exampleLib exampleCrossings false)
      exampleSolved exampleWavy Vector3d.kZAxis 0 = ⟨1 / 2, ⟨3, 0, 0⟩, (1 / 2, 1)⟩ := by
    simp only [AssocFilletConfig.evaluate.best, AssocFilletConfig.evaluate.iter,
      whileGetNext_eq_foldl, example_results]
    simp only [exampleCrossings, List.foldl_cons, List.foldl_nil,
      AssocFilletConfig.evaluate.body, example_paramDist_wavy]
    have h12 : |(1 : ℚ) / 2| = 1 / 2 := abs_of_pos (by norm_num)
    have h21 : |(2 : ℚ)⁻¹| = 2⁻¹ := abs_of_pos (by norm_num)
    simp [AssocFilletConfig.evaluate.matches, exampleSolved, examplePicked,
      AssocFilletConfig.new, AssocFilletConfig.setPickPoints, c1e30, h12, h21]
    norm_num [h12, h21]
  have hnormal : getCurveNormal₂ (exampleLib exampleCrossings false) exampleWavy =
      Vector3d.kZAxis := by
    simp [getCurveNormal₂, getCurveNormal, exampleWavy, exampleSpline, Curve.isLinearEnt]
  have hadj : AssocFilletConfig.evaluate.adjusted (exampleLib exampleCrossings false)
      exampleSolved exampleWavy 0 (false, false) false = exampleWavy := by
    simp [AssocFilletConfig.evaluate.adjusted]
  rw [AssocFilletConfig.evaluate]
  simp only [hinit, hadj, hnormal, hbest]
  simp [AssocFilletConfig.isInitialized, exampleSolved, examplePicked, AssocFilletConfig.new,
    AssocFilletConfig.setPickPoints, exampleLib, Vector3d.kZAxis,
    AssocFilletConfig.evaluate.filletArc, AssocFilletConfig.evaluate.trimmed,
    CircArc3d.circle, c1e29]
  norm_num

/-- C4.  On an initialized resolver, when `evaluate` returns `eOk` the sequence
of candidates splits around the selected one: it passes the configuration
filter, its point is the center of the returned arc, its parameters become
`mParam` when the state is updated, every passing candidate before it is
strictly farther and every passing candidate after it is at least as far.
Far is measured by the total parametric distance to the cached parameters as
the code computes it: the sum of the two values of `paramDistance`, a
double. -/
theorem evaluate_selects_first_nearest (G : GeLib) (this : AssocFilletConfig)
    (updateState : Bool) (curve : Curve × Curve) (radius : ℚ) (isTrimCurve : Bool × Bool)
    (adjustTweakedCurves : Bool) (hinit : this.mIsInitialized = true)
    (h : (this.evaluate G updateState curve radius isTrimCurve adjustTweakedCurves).status
      = ErrorStatus.eOk) :
    (∀ y : Intersection,
      AssocFilletConfig.evaluate.paramDist G this
          (AssocFilletConfig.evaluate.curveIn G this curve radius isTrimCurve
            adjustTweakedCurves) y =
        roundDouble
          (paramDistance G
              (AssocFilletConfig.evaluate.curveIn G this curve radius isTrimCurve
                adjustTweakedCurves).1 y.param.1 this.mParam.1 +
            paramDistance G
              (AssocFilletConfig.evaluate.curveIn G this curve radius isTrimCurve
                adjustTweakedCurves).2 y.param.2 this.mParam.2)) ∧
    ∃ pre x post,
      AssocFilletConfig.evaluate.candidates G this curve radius isTrimCurve
        adjustTweakedCurves = pre ++ x :: post ∧
      AssocFilletConfig.evaluate.matches this x.config = true ∧
      (this.evaluate G updateState curve radius isTrimCurve
        adjustTweakedCurves).filletArcOut.center = x.intersPoint ∧
      (updateState = true →
        (this.evaluate G updateState curve radius isTrimCurve
          adjustTweakedCurves).config.mParam = x.param) ∧
      (∀ y ∈ pre, AssocFilletConfig.evaluate.matches this y.config = true →
        AssocFilletConfig.evaluate.paramDist G this
            (AssocFilletConfig.evaluate.curveIn G this curve radius isTrimCurve
              adjustTweakedCurves) x <
          AssocFilletConfig.evaluate.paramDist G this
            (AssocFilletConfig.evaluate.curveIn G this curve radius isTrimCurve
              adjustTweakedCurves) y) ∧
      (∀ y ∈ post, AssocFilletConfig.evaluate.matches this y.config = true →
        AssocFilletConfig.evaluate.paramDist G this
            (AssocFilletConfig.evaluate.curveIn G this curve radius isTrimCurve
              adjustTweakedCurves) x ≤
          AssocFilletConfig.evaluate.paramDist G this
            (AssocFilletConfig.evaluate.curveIn G this curve radius isTrimCurve
              adjustTweakedCurves) y) := by
  refine ⟨fun y => evaluate_paramDist_eq G this _ y, ?_⟩
  obtain ⟨-, -, hmin, -, -, hcenter, hparam⟩ := evaluate_ok G this updateState curve radius
    isTrimCurve adjustTweakedCurves h
  have hi := evaluate_initialized_of_isInitialized G this curve radius hinit
  have hch := evaluate_chosen_eq G this curve radius isTrimCurve adjustTweakedCurves
  rw [hi] at hch
  rcases evaluate_loop_choice G this
      (AssocFilletConfig.evaluate.curveIn G this curve radius isTrimCurve adjustTweakedCurves)
      (AssocFilletConfig.evaluate.candidates G this curve radius isTrimCurve
        adjustTweakedCurves)
      { minParamDist := c1e30, bestIntersPnt := Point3d.kOrigin, bestParam := (0, 0) }
    with ⟨heq, -⟩ | ⟨pre, x, post, hl, hm, heq, -, hpre, hpost⟩
  · rw [hch, heq] at hmin
    norm_num [c1e30, c1e29] at hmin
  · rw [← hch] at heq
    refine ⟨pre, x, post, hl, hm, ?_, ?_, hpre, hpost⟩
    · rw [hcenter, heq]
    · intro hu
      rw [hparam hu, heq]

/-- C4, witness: the initialized example on the five intersections of
`exampleCrossings`.  The first passes the filter at distance 2, the second is
at distance 0 and does not pass, the third and the fourth pass at distance 1/2
and the fifth at distance 1: the third is selected, its point `(3, 0, 0)` is
the center of the arc and its parameters `(1/2, 1)` are stored. -/
theorem evaluate_selects_first_nearest_witness :
    exampleSolved.mIsInitialized = true ∧
    (exampleSolved.evaluate (exampleLib exampleCrossings false) true exampleWavy 0
      (false, false) false).status = ErrorStatus.eOk ∧
    AssocFilletConfig.evaluate.candidates (exampleLib exampleCrossings false) exampleSolved
      exampleWavy 0 (false, false) false = exampleCrossings ∧
    exampleCrossings.map
        (fun x => AssocFilletConfig.evaluate.matches exampleSolved x.config) =
      [true, false, true, true, true] ∧
    exampleCrossings.map
        (AssocFilletConfig.evaluate.paramDist (exampleLib exampleCrossings false) exampleSolved
          (AssocFilletConfig.evaluate.curveIn (exampleLib exampleCrossings false)
            exampleSolved exampleWavy 0 (false, false) false)) =
      [2, 0, 1 / 2, 1 / 2, 1] ∧
    (exampleSolved.evaluate (exampleLib exampleCrossings false) true exampleWavy 0
      (false, false) false).filletArcOut.center = ⟨3, 0, 0⟩ ∧
    (exampleSolved.evaluate (exampleLib exampleCrossings false) true exampleWavy 0
      (false, false) false).config.mParam = (1 / 2, 1) ∧
    ∃ pre x post,
      AssocFilletConfig.evaluate.candidates (exampleLib exampleCrossings false) exampleSolved
        exampleWavy 0 (false, false) false = pre ++ x :: post ∧
      AssocFilletConfig.evaluate.matches exampleSolved x.config = true ∧
      (exampleSolved.evaluate (exampleLib exampleCrossings false) true exampleWavy 0
        (false, false) false).filletArcOut.center = x.intersPoint ∧
      (true = true →
        (exampleSolved.evaluate (exampleLib exampleCrossings false) true exampleWavy 0
          (false, false) false).config.mParam = x.param) ∧
      (∀ y ∈ pre, AssocFilletConfig.evaluate.matches exampleSolved y.config = true →
        AssocFilletConfig.evaluate.paramDist (exampleLib exampleCrossings false) exampleSolved
            (AssocFilletConfig.evaluate.curveIn (exampleLib exampleCrossings false)
              exampleSolved exampleWavy 0 (false, false) false) x <
          AssocFilletConfig.evaluate.paramDist (exampleLib exampleCrossings false) exampleSolved
            (AssocFilletConfig.evaluate.curveIn (exampleLib exampleCrossings false)
              exampleSolved exampleWavy 0 (false, false) false) y) ∧
      (∀ y ∈ post, AssocFilletConfig.evaluate.matches exampleSolved y.config = true →
        AssocFilletConfig.evaluate.paramDist (exampleLib exampleCrossings false) exampleSolved
            (AssocFilletConfig.evaluate.curveIn (exampleLib exampleCrossings false)
              exampleSolved exampleWavy 0 (false, false) false) x ≤
          AssocFilletConfig.evaluate.paramDist (exampleLib exampleCrossings false) exampleSolved
            (AssocFilletConfig.evaluate.curveIn (exampleLib exampleCrossings false)
              exampleSolved exampleWavy 0 (false, false) false) y) := by
  have hcurve : AssocFilletConfig.evaluate.curveIn (exampleLib exampleCrossings false)
      exampleSolved exampleWavy 0 (false, false) false = exampleWavy := by
    simp [AssocFilletConfig.evaluate.curveIn, AssocFilletConfig.evaluate.adjusted]
  refine ⟨rfl, by rw [example_evaluate_wavy], ?_, ?_, ?_,
    by rw [example_evaluate_wavy]; rfl, by rw [example_evaluate_wavy],
    (evaluate_selects_first_nearest (exampleLib exampleCrossings false) exampleSolved true
      exampleWavy 0 (false, false) false rfl (by rw [example_evaluate_wavy])).2⟩
  · simp only [AssocFilletConfig.evaluate.candidates, AssocFilletConfig.evaluate.iter,
      example_results]
  · simp [exampleCrossings, AssocFilletConfig.evaluate.matches, exampleSolved, examplePicked,
      AssocFilletConfig.new, AssocFilletConfig.setPickPoints]
  · rw [hcurve]
    have h12 : |(1 : ℚ) / 2| = 1 / 2 := abs_of_pos (by norm_num)
    simp only [exampleCrossings, List.map_cons, List.map_nil, example_paramDist_wavy]
    norm_num [exampleSolved, examplePicked, AssocFilletConfig.new,
      AssocFilletConfig.setPickPoints, h12]

/-- Two parameters that differ by `2 ^ (-60)` are at the same distance from the
cached parameter 1: the difference `1 - 2 ^ (-60)` is rounded to 1.  The loop
of `evaluate` keeps the first of two such candidates. -/
theorem example_paramDistance_near_tie (inters : List Intersection) :
    paramDistance (exampleLib inters false) exampleWavy.2 (1 / 2 ^ 60) 1 = 1 ∧
    paramDistance (exampleLib inters false) exampleWavy.2 0 1 = 1 := by
  have h : roundDouble (1 - 1 / 2 ^ 60) = 1 := by
    have h := roundDouble_eq (1 - 1 / 2 ^ 60) (-53) 9007199254740992 (by norm_num)
      (by rw [abs_of_pos (by norm_num)]; norm_num)
      (by rw [abs_of_pos (by norm_num)]; norm_num)
      (roundHalfEven_eq_of_lt _ _ (by rw [abs_lt]; constructor <;> norm_num))
    rw [h]; norm_num
  constructor
  · rw [(example_paramDistance_wavy _ _ _).2, h]; norm_num
  · rw [(example_paramDistance_wavy _ _ _).2]; norm_num

/-- On an initialized resolver with no trimming requested the curves reach the
search unchanged. -/
theorem evaluate_curveIn_of_no_trim (G : GeLib) (this : AssocFilletConfig)
    (curve : Curve × Curve) (radius : ℚ) (adjustTweakedCurves : Bool) :
    AssocFilletConfig.evaluate.curveIn G this curve radius (false, false)
      adjustTweakedCurves = curve := by
  simp [AssocFilletConfig.evaluate.curveIn, AssocFilletConfig.evaluate.adjusted]

/-- With no trimming requested the trimming step returns `eOk` and the curves
as they are. -/
theorem evaluate_trimmed_of_no_trim (G : GeLib) (this : AssocFilletConfig)
    (curve : Curve × Curve) (bestParam : ℚ × ℚ) :
    AssocFilletConfig.evaluate.trimmed G this curve bestParam (false, false) =
      (ErrorStatus.eOk, curve) := by
  simp [AssocFilletConfig.evaluate.trimmed]

/-- The status of `evaluate` is `eOk` exactly when the resolver is initialized
after the lazy initialization, the normal is not degenerate, the least distance
is at most `1e29` and no trimming fails. -/
theorem evaluate_status_ok_iff (G : GeLib) (this : AssocFilletConfig) (updateState : Bool)
    (curve : Curve × Curve) (radius : ℚ) (isTrimCurve : Bool × Bool)
    (adjustTweakedCurves : Bool) :
    (this.evaluate G updateState curve radius isTrimCurve adjustTweakedCurves).status
        = ErrorStatus.eOk ↔
    ((AssocFilletConfig.evaluate.initialized G this curve radius).mIsInitialized = true ∧
    (1 / 2 ≤ G.length (getCurveNormal₂ G
      (AssocFilletConfig.evaluate.curveIn G this curve radius isTrimCurve
        adjustTweakedCurves))) ∧
    (AssocFilletConfig.evaluate.chosen G this curve radius isTrimCurve
      adjustTweakedCurves).minParamDist ≤ c1e29 ∧
    (AssocFilletConfig.evaluate.trimmed G
      (AssocFilletConfig.evaluate.initialized G this curve radius)
      (AssocFilletConfig.evaluate.curveIn G this curve radius isTrimCurve adjustTweakedCurves)
      (AssocFilletConfig.evaluate.chosen G this curve radius isTrimCurve
        adjustTweakedCurves).bestParam isTrimCurve).1 = ErrorStatus.eOk) := by
  constructor
  · intro h
    obtain ⟨h1, h2, h3, h4, -⟩ := evaluate_ok G this updateState curve radius isTrimCurve
      adjustTweakedCurves h
    exact ⟨h1, h2, h3, h4⟩
  · rintro ⟨h1, h2, h3, h4⟩
    rw [AssocFilletConfig.evaluate]
    simp only [AssocFilletConfig.evaluate.chosen, AssocFilletConfig.evaluate.curveIn,
      AssocFilletConfig.isInitialized] at h1 h2 h3 h4 ⊢
    split_ifs <;> simp_all [not_lt.mpr]

/-- The candidates of `evaluate` with the example library are the list the
library was given. -/
theorem example_candidates (inters : List Intersection) (d : Bool) (this : AssocFilletConfig)
    (curve : Curve × Curve) (radius : ℚ) (isTrimCurve : Bool × Bool)
    (adjustTweakedCurves : Bool) :
    AssocFilletConfig.evaluate.candidates (exampleLib inters d) this curve radius isTrimCurve
      adjustTweakedCurves = inters := by
  simp only [AssocFilletConfig.evaluate.candidates, AssocFilletConfig.evaluate.iter,
    example_results]

/-- The doubles `1e29` and `2e30` are doubles, and adding or subtracting 1
leaves them as they are. -/
theorem example_big_doubles :
    roundDouble c1e29 = c1e29 ∧
    roundDouble (c1e29 + 1) = c1e29 ∧
    roundDouble (2000000000000000039769249677312 - 1) = 2000000000000000039769249677312 ∧
    roundDouble 2000000000000000039769249677312 = 2000000000000000039769249677312 := by
  refine ⟨?_, ?_, ?_, ?_⟩
  · exact roundDouble_eq_self _ 5684341886080801 44 (by norm_num) (by norm_num)
      (by norm_num [c1e29])
  · have h := roundDouble_eq (c1e29 + 1) 44 5684341886080801 (by norm_num)
      (by rw [abs_of_pos (by norm_num [c1e29])]; norm_num [c1e29])
      (by rw [abs_of_pos (by norm_num [c1e29])]; norm_num [c1e29])
      (roundHalfEven_eq_of_lt _ _ (by rw [abs_lt]; constructor <;> norm_num [c1e29]))
    rw [h]; norm_num [c1e29]
  · have h := roundDouble_eq (2000000000000000039769249677312 - 1) 48 7105427357601002
      (by norm_num)
      (by rw [abs_of_pos (by norm_num)]; norm_num)
      (by rw [abs_of_pos (by norm_num)]; norm_num)
      (roundHalfEven_eq_of_lt _ _ (by rw [abs_lt]; constructor <;> norm_num))
    rw [h]; norm_num
  · exact roundDouble_eq_self _ 7105427357601002 48 (by norm_num) (by norm_num)
      (by norm_num)

/-- The parametric distance on a segment of `exampleCurves` is the absolute
value of the rounded difference. -/
theorem example_paramDistance_segments (inters : List Intersection) (p0 p1 : ℚ) :
    paramDistance (exampleLib inters false) exampleCurves.1 p0 p1 = |roundDouble (p1 - p0)| ∧
    paramDistance (exampleLib inters false) exampleCurves.2 p0 p1 = |roundDouble (p1 - p0)| := by
  constructor
  · rw [paramDistance_of_no_period _ _ _ _ rfl]
    simp [getCurveParamRange, exampleCurves, exampleLineSeg, exampleLib]
  · rw [paramDistance_of_no_period _ _ _ _ rfl]
    simp [getCurveParamRange, exampleCurves, exampleLineSeg, exampleLib]

/-- On an initialized resolver `evaluate` returns `eOk` or `eInvalidInput`. -/
theorem evaluate_status_of_isInitialized (G : GeLib) (this : AssocFilletConfig)
    (updateState : Bool) (curve : Curve × Curve) (radius : ℚ) (isTrimCurve : Bool × Bool)
    (adjustTweakedCurves : Bool) (hinit : this.mIsInitialized = true) :
    (this.evaluate G updateState curve radius isTrimCurve adjustTweakedCurves).status
      = ErrorStatus.eOk ∨
    (this.evaluate G updateState curve radius isTrimCurve adjustTweakedCurves).status
      = ErrorStatus.eInvalidInput := by
  have hi := evaluate_initialized_of_isInitialized G this curve radius hinit
  rw [AssocFilletConfig.evaluate]
  simp only [hi, AssocFilletConfig.isInitialized, hinit]
  split_ifs <;> simp_all

/-- `evaluate` on the initialized example whose cached parameter is the double
`2e30`: the only candidate passes the filter, at the distance `2e30`, and
`evaluate` fails. -/
theorem example_evaluate_far :
    (exampleSolvedFar.evaluate (exampleLib [exampleCorner] false) false exampleCurves 0
        (false, false) false).status = ErrorStatus.eInvalidInput := by
  have hinit : AssocFilletConfig.evaluate.initialized (exampleLib [exampleCorner] false)
      exampleSolvedFar exampleCurves 0 = exampleSolvedFar :=
    evaluate_initialized_of_isInitialized _ _ _ _ rfl
  have hdist : AssocFilletConfig.evaluate.paramDist (exampleLib [exampleCorner] false)
      exampleSolvedFar exampleCurves exampleCorner = 2000000000000000039769249677312 := by
    rw [evaluate_paramDist_eq, (example_paramDistance_segments _ _ _).1,
      (example_paramDistance_segments _ _ _).2]
    simp only [exampleSolvedFar, exampleCorner, example_big_doubles.2.2.1]
    norm_num [example_big_doubles.2.2.2]
  have hbest : AssocFilletConfig.evaluate.best (exampleLib [exampleCorner] false)
      exampleSolvedFar exampleCurves Vector3d.kZAxis 0 = ⟨c1e30, Point3d.kOrigin, (0, 0)⟩ := by
    simp only [AssocFilletConfig.evaluate.best, AssocFilletConfig.evaluate.iter,
      whileGetNext_eq_foldl, example_results, List.foldl_cons, List.foldl_nil,
      AssocFilletConfig.evaluate.body, hdist]
    norm_num [c1e30]
  have hnormal : getCurveNormal₂ (exampleLib [exampleCorner] false) exampleCurves =
      Vector3d.kZAxis := by
    simp [exampleLib, exampleCurves, exampleLineSeg, getCurveNormal₂, Curve.isLinearEnt,
      Vector3d.crossProduct, Vector3d.zero, Vector3d.kZAxis]
  have hadj : AssocFilletConfig.evaluate.adjusted (exampleLib [exampleCorner] false)
      exampleSolvedFar exampleCurves 0 (false, false) false = exampleCurves := by
    simp [AssocFilletConfig.evaluate.adjusted]
  rw [AssocFilletConfig.evaluate]
  simp only [hinit, hadj, hnormal, hbest]
  simp [AssocFilletConfig.isInitialized, exampleSolvedFar, exampleSolved, examplePicked,
    AssocFilletConfig.new, AssocFilletConfig.setPickPoints, exampleLib, Vector3d.kZAxis,
    c1e30, c1e29]
  norm_num

/-- `trimOrExtendCurve` on a curve whose period is reported as zero, by the
interval `trimInterval`. -/
theorem trimOrExtendCurve_eq (G : GeLib) (c : Curve) (param : ℚ) (isIncoming : Bool)
    (hper : c.period?.getD 0 = 0) :
    trimOrExtendCurve G c param isIncoming =
      if ((trimInterval c param isIncoming).boundedBelow &&
          (trimInterval c param isIncoming).boundedAbove &&
          decide ((trimInterval c param isIncoming).lower ≥
            (trimInterval c param isIncoming).upper)) = true then
        (ErrorStatus.eInvalidInput, c)
      else if G.isDegenerate (c.setInterval (trimInterval c param isIncoming)) = true then
        (ErrorStatus.eInvalidInput, c.setInterval (trimInterval c param isIncoming))
      else
        (ErrorStatus.eOk, c.setInterval (trimInterval c param isIncoming)) := by
  have hP : (getCurveParamRange G c).2.2 = 0 := by simp [getCurveParamRange, hper]
  have hI : (getCurveParamRange G c).2.1 = c.interval := rfl
  simp only [trimOrExtendCurve, trimInterval, hP, hI, ne_eq, not_true_eq_false, if_false,
    gt_iff_lt, lt_self_iff_false]

/-- `trimOrExtendCurve` on a curve with a period other than zero returns `eOk`
at once and leaves the curve as it is. -/
theorem trimOrExtendCurve_of_period (G : GeLib) (c : Curve) (param : ℚ)
    (isIncoming : Bool) (hper : c.period?.getD 0 ≠ 0) :
    trimOrExtendCurve G c param isIncoming = (ErrorStatus.eOk, c) := by
  have hP : (getCurveParamRange G c).2.2 = c.period?.getD 0 := rfl
  simp only [trimOrExtendCurve, hP, ne_eq, hper, not_false_eq_true, if_true]

/-- `evaluate` with update and trimming of the first curve on the initialized
example: it succeeds. -/
theorem example_evaluate_trim :
    (exampleSolved.evaluate (exampleLib [exampleCorner] false) true exampleCurves 0
        (true, false) true).status = ErrorStatus.eOk := by
  have hinit : AssocFilletConfig.evaluate.initialized (exampleLib [exampleCorner] false)
      exampleSolved exampleCurves 0 = exampleSolved :=
    evaluate_initialized_of_isInitialized _ _ _ _ rfl
  rw [AssocFilletConfig.evaluate]
  simp only [hinit, AssocFilletConfig.evaluate.best, AssocFilletConfig.evaluate.iter,
    whileGetNext_eq_foldl, example_results]
  simp [AssocFilletConfig.evaluate.adjusted, AssocFilletConfig.isInitialized, exampleSolved,
    examplePicked, AssocFilletConfig.new, AssocFilletConfig.setPickPoints,
    exampleLib, exampleCurves, exampleLineSeg, getCurveNormal₂, Curve.isLinearEnt,
    Vector3d.crossProduct, Vector3d.zero, AssocFilletConfig.evaluate.body,
    AssocFilletConfig.evaluate.matches, AssocFilletConfig.evaluate.paramDist,
    paramDistance, getCurveParamRange, fabs, min__,
    exampleCorner, Point3d.kOrigin, Vector3d.kZAxis, AssocFilletConfig.evaluate.filletArc,
    AssocFilletConfig.evaluate.trimmed, trimOrExtendCurve, AcGeInterval.setUpper,
    AcGeInterval.setLower, AcGeInterval.bounded, Curve.setInterval,
    CircArc3d.circle, c1e30, c1e29]
  norm_num

/-- When the trimming step of `evaluate` returns `eOk`: a curve whose flag is
set is left as `trimOrExtendCurve` leaves it, and that call returned `eOk`; a
curve whose flag is not set is left as it was. -/
theorem evaluate_trimmed_ok (G : GeLib) (this : AssocFilletConfig) (curve : Curve × Curve)
    (bestParam : ℚ × ℚ) (isTrimCurve : Bool × Bool)
    (h : (AssocFilletConfig.evaluate.trimmed G this curve bestParam isTrimCurve).1
      = ErrorStatus.eOk) :
    (isTrimCurve.1 = true →
      trimOrExtendCurve G curve.1 bestParam.1 this.mIsIncoming.1 =
        (ErrorStatus.eOk,
          (AssocFilletConfig.evaluate.trimmed G this curve bestParam isTrimCurve).2.1)) ∧
    (isTrimCurve.1 = false →
      (AssocFilletConfig.evaluate.trimmed G this curve bestParam isTrimCurve).2.1 = curve.1) ∧
    (isTrimCurve.2 = true →
      trimOrExtendCurve G curve.2 bestParam.2 this.mIsIncoming.2 =
        (ErrorStatus.eOk,
          (AssocFilletConfig.evaluate.trimmed G this curve bestParam isTrimCurve).2.2)) ∧
    (isTrimCurve.2 = false →
      (AssocFilletConfig.evaluate.trimmed G this curve bestParam isTrimCurve).2.2 = curve.2) := by
  rcases isTrimCurve with ⟨b0, b1⟩
  rcases h0 : trimOrExtendCurve G curve.1 bestParam.1 this.mIsIncoming.1 with ⟨s0, c0⟩
  rcases h1 : trimOrExtendCurve G curve.2 bestParam.2 this.mIsIncoming.2 with ⟨s1, c1⟩
  simp only [AssocFilletConfig.evaluate.trimmed, h0, h1] at h ⊢
  cases b0 <;> cases b1 <;> simp only [if_true, if_false, Bool.false_eq_true] at h ⊢ <;>
    split_ifs at h ⊢ <;> simp_all

/-- The adjustment of tweaked lines leaves a curve whose trim flag is not set
as it is. -/
theorem evaluate_adjusted_of_not_flagged (G : GeLib) (this : AssocFilletConfig)
    (curve : Curve × Curve) (radius : ℚ) (isTrimCurve : Bool × Bool)
    (adjustTweakedCurves : Bool) :
    (isTrimCurve.1 = false →
      (AssocFilletConfig.evaluate.adjusted G this curve radius isTrimCurve
        adjustTweakedCurves).1 = curve.1) ∧
    (isTrimCurve.2 = false →
      (AssocFilletConfig.evaluate.adjusted G this curve radius isTrimCurve
        adjustTweakedCurves).2 = curve.2) := by
  unfold AssocFilletConfig.evaluate.adjusted
  constructor <;> intro hf <;> split_ifs <;> simp_all

/-- C8.  For a curve without period, a successful `trimOrExtendCurve` changes
the parameter interval only: for an incoming curve the upper bound becomes the
tangency parameter and the lower bound stays, for an outgoing curve the lower
bound becomes the tangency parameter and the upper bound stays.  When
`evaluate` returns `eOk`, curve `i` is left as `trimOrExtendCurve` leaves it,
called with the selected parameter and `mIsIncoming[i]` and returning `eOk`,
when `isTrimCurve[i]` is set, and is left as it was passed in when the flag is
not set. -/
theorem evaluate_trims_flagged_curves (G : GeLib) (c : Curve) (t : ℚ) (isIncoming : Bool)
    (this : AssocFilletConfig) (updateState : Bool) (curve : Curve × Curve) (radius : ℚ)
    (isTrimCurve : Bool × Bool) (adjustTweakedCurves : Bool) :
    (c.period? = none → (trimOrExtendCurve G c t isIncoming).1 = ErrorStatus.eOk →
      (trimOrExtendCurve G c t isIncoming).2 =
        c.setInterval (trimOrExtendCurve G c t isIncoming).2.interval ∧
      (isIncoming = true →
        (trimOrExtendCurve G c t isIncoming).2.interval.lower = c.interval.lower ∧
        (trimOrExtendCurve G c t isIncoming).2.interval.boundedBelow
          = c.interval.boundedBelow ∧
        (trimOrExtendCurve G c t isIncoming).2.interval.upper = t ∧
        (trimOrExtendCurve G c t isIncoming).2.interval.boundedAbove = true) ∧
      (isIncoming = false →
        (trimOrExtendCurve G c t isIncoming).2.interval.lower = t ∧
        (trimOrExtendCurve G c t isIncoming).2.interval.boundedBelow = true ∧
        (trimOrExtendCurve G c t isIncoming).2.interval.upper = c.interval.upper ∧
        (trimOrExtendCurve G c t isIncoming).2.interval.boundedAbove
          = c.interval.boundedAbove)) ∧
    ((this.evaluate G updateState curve radius isTrimCurve adjustTweakedCurves).status
        = ErrorStatus.eOk →
      (isTrimCurve.1 = true →
        trimOrExtendCurve G
          (AssocFilletConfig.evaluate.curveIn G this curve radius isTrimCurve
            adjustTweakedCurves).1
          (AssocFilletConfig.evaluate.chosen G this curve radius isTrimCurve
            adjustTweakedCurves).bestParam.1
          (AssocFilletConfig.evaluate.initialized G this curve radius).mIsIncoming.1 =
        (ErrorStatus.eOk,
          (this.evaluate G updateState curve radius isTrimCurve
            adjustTweakedCurves).curve.1)) ∧
      (isTrimCurve.1 = false →
        (this.evaluate G updateState curve radius isTrimCurve adjustTweakedCurves).curve.1
          = curve.1) ∧
      (isTrimCurve.2 = true →
        trimOrExtendCurve G
          (AssocFilletConfig.evaluate.curveIn G this curve radius isTrimCurve
            adjustTweakedCurves).2
          (AssocFilletConfig.evaluate.chosen G this curve radius isTrimCurve
            adjustTweakedCurves).bestParam.2
          (AssocFilletConfig.evaluate.initialized G this curve radius).mIsIncoming.2 =
        (ErrorStatus.eOk,
          (this.evaluate G updateState curve radius isTrimCurve
            adjustTweakedCurves).curve.2)) ∧
      (isTrimCurve.2 = false →
        (this.evaluate G updateState curve radius isTrimCurve adjustTweakedCurves).curve.2
          = curve.2)) := by
  constructor
  · intro hper hok
    have heq := trimOrExtendCurve_eq G c t isIncoming (by simp [hper])
    rw [heq] at hok ⊢
    split_ifs at hok ⊢ with h1 h2
    refine ⟨rfl, ?_, ?_⟩
    · intro hi
      simp [Curve.setInterval, trimInterval, hi, AcGeInterval.setUpper]
    · intro hi
      simp [Curve.setInterval, trimInterval, hi, AcGeInterval.setLower]
  · intro hok
    obtain ⟨-, -, -, htrim, hcurve, -⟩ := evaluate_ok G this updateState curve radius
      isTrimCurve adjustTweakedCurves hok
    rw [hcurve]
    obtain ⟨h1, h2, h3, h4⟩ := evaluate_trimmed_ok G _ _ _ _ htrim
    have hadj := evaluate_adjusted_of_not_flagged G
      (AssocFilletConfig.evaluate.initialized G this curve radius) curve radius isTrimCurve
      adjustTweakedCurves
    refine ⟨h1, ?_, h3, ?_⟩
    · intro hf
      rw [h2 hf]
      exact hadj.1 hf
    · intro hf
      rw [h4 hf]
      exact hadj.2 hf

/-- C8, witness: trimming the incoming segment on `[0, 1]` at parameter `1/2`
leaves `[0, 1/2]`; on the initialized example with only the first trim flag
set, `evaluate` leaves the first curve as `trimOrExtendCurve` does and the
second as it was. -/
theorem evaluate_trims_flagged_curves_witness :
    (exampleCurves.1.period? = none ∧
      (trimOrExtendCurve (exampleLib [exampleCorner] false) exampleCurves.1 (1 / 2) true).1
        = ErrorStatus.eOk ∧
      (exampleSolved.evaluate (exampleLib [exampleCorner] false) true exampleCurves 0
        (true, false) true).status = ErrorStatus.eOk) ∧
    ((trimOrExtendCurve (exampleLib [exampleCorner] false) exampleCurves.1 (1 / 2)
        true).2.interval.lower = exampleCurves.1.interval.lower ∧
      (trimOrExtendCurve (exampleLib [exampleCorner] false) exampleCurves.1 (1 / 2)
        true).2.interval.upper = 1 / 2) ∧
    (exampleSolved.evaluate (exampleLib [exampleCorner] false) true exampleCurves 0
        (true, false) true).curve.2 = exampleCurves.2 := by
  have hper : exampleCurves.1.period? = none := rfl
  have htrim : (trimOrExtendCurve (exampleLib [exampleCorner] false) exampleCurves.1 (1 / 2)
      true).1 = ErrorStatus.eOk := by
    rw [trimOrExtendCurve_eq _ _ _ _ (by rfl)]
    norm_num [trimInterval, exampleCurves, exampleLineSeg, AcGeInterval.setUpper,
      AcGeInterval.bounded, exampleLib]
  have hev := example_evaluate_trim
  have key := evaluate_trims_flagged_curves (exampleLib [exampleCorner] false) exampleCurves.1
    (1 / 2) true exampleSolved true exampleCurves 0 (true, false) true
  obtain ⟨-, hin, -⟩ := key.1 hper htrim
  obtain ⟨hlo, -, hup, -⟩ := hin rfl
  exact ⟨⟨hper, htrim, hev⟩, ⟨hlo, hup⟩, (key.2 hev).2.2.2 rfl⟩

/-- C9, counterexample.  When the library reports the trimmed segment as
degenerate, `trimOrExtendCurve` fails after it has stored the new interval:
the segment on `[0, 1]` is left on `[0, 1/10^12]`. -/
theorem trimOrExtendCurve_degenerate_changes_interval :
    (trimOrExtendCurve (exampleLib [] true) exampleCurves.1 (1 / 10 ^ 12) true).1
      ≠ ErrorStatus.eOk ∧
    (trimOrExtendCurve (exampleLib [] true) exampleCurves.1 (1 / 10 ^ 12) true).2.interval
      = AcGeInterval.bounded 0 (1 / 10 ^ 12) ∧
    exampleCurves.1.interval = AcGeInterval.bounded 0 1 ∧
    (trimOrExtendCurve (exampleLib [] true) exampleCurves.1 (1 / 10 ^ 12) true).2.interval
      ≠ exampleCurves.1.interval := by
  have h : trimOrExtendCurve (exampleLib [] true) exampleCurves.1 (1 / 10 ^ 12) true =
      (ErrorStatus.eInvalidInput,
        exampleCurves.1.setInterval (AcGeInterval.bounded 0 (1 / 10 ^ 12))) := by
    rw [trimOrExtendCurve_eq _ _ _ _ (by rfl)]
    norm_num [trimInterval, exampleCurves, exampleLineSeg, AcGeInterval.setUpper,
      AcGeInterval.bounded, exampleLib, Curve.setInterval]
  rw [h]
  refine ⟨by decide, rfl, rfl, ?_⟩
  norm_num [Curve.setInterval, exampleCurves, exampleLineSeg, AcGeInterval.bounded]

/-- C9, amended.  When `trimOrExtendCurve` fails: if the interval it computed
has both bounds set and is empty or inverted, the curve is left exactly as it
was; otherwise the failure is the degeneracy of the curve, found after the new
interval has been stored, and the curve is left with the new interval (and
nothing else changed). -/
theorem trimOrExtendCurve_failure (G : GeLib) (c : Curve) (param : ℚ) (isIncoming : Bool)
    (h : (trimOrExtendCurve G c param isIncoming).1 ≠ ErrorStatus.eOk) :
    (((trimInterval c param isIncoming).boundedBelow = true ∧
        (trimInterval c param isIncoming).boundedAbove = true ∧
        (trimInterval c param isIncoming).upper ≤ (trimInterval c param isIncoming).lower) →
      (trimOrExtendCurve G c param isIncoming).2 = c) ∧
    (¬ ((trimInterval c param isIncoming).boundedBelow = true ∧
        (trimInterval c param isIncoming).boundedAbove = true ∧
        (trimInterval c param isIncoming).upper ≤ (trimInterval c param isIncoming).lower) →
      G.isDegenerate (c.setInterval (trimInterval c param isIncoming)) = true ∧
      (trimOrExtendCurve G c param isIncoming).2 =
        c.setInterval (trimInterval c param isIncoming)) := by
  have hper : c.period?.getD 0 = 0 := by
    by_contra hne
    rw [trimOrExtendCurve_of_period G c param isIncoming hne] at h
    exact h rfl
  rw [trimOrExtendCurve_eq G c param isIncoming hper] at h ⊢
  constructor
  · rintro ⟨hb, ha, hle⟩
    simp [hb, ha, hle]
  · intro hn
    have hcond : ¬ ((trimInterval c param isIncoming).boundedBelow &&
        (trimInterval c param isIncoming).boundedAbove &&
        decide ((trimInterval c param isIncoming).lower ≥
          (trimInterval c param isIncoming).upper)) = true := by
      intro hc
      simp only [Bool.and_eq_true, decide_eq_true_eq, ge_iff_le] at hc
      exact hn ⟨hc.1.1, hc.1.2, hc.2⟩
    rw [if_neg hcond] at h ⊢
    split_ifs at h ⊢ with hd
    · exact ⟨hd, rfl⟩
    · exact absurd rfl h

/-- C9, witness: trimming the incoming segment at its lower bound fails on the
empty interval and leaves the segment as it was; trimming it to a degenerate
segment fails and leaves it with the new interval. -/
theorem trimOrExtendCurve_failure_witness :
    ((trimOrExtendCurve (exampleLib [] false) exampleCurves.1 0 true).1 ≠ ErrorStatus.eOk ∧
      (trimOrExtendCurve (exampleLib [] false) exampleCurves.1 0 true).2 = exampleCurves.1) ∧
    ((trimOrExtendCurve (exampleLib [] true) exampleCurves.1 (1 / 2) true).1
        ≠ ErrorStatus.eOk ∧
      (trimOrExtendCurve (exampleLib [] true) exampleCurves.1 (1 / 2) true).2 =
        exampleCurves.1.setInterval (trimInterval exampleCurves.1 (1 / 2) true)) := by
  have h0 : (trimOrExtendCurve (exampleLib [] false) exampleCurves.1 0 true).1
      ≠ ErrorStatus.eOk := by
    rw [trimOrExtendCurve_eq _ _ _ _ (by rfl)]
    norm_num [trimInterval, exampleCurves, exampleLineSeg, AcGeInterval.setUpper,
      AcGeInterval.bounded, exampleLib]
    decide
  have h1 : (trimOrExtendCurve (exampleLib [] true) exampleCurves.1 (1 / 2) true).1
      ≠ ErrorStatus.eOk := by
    rw [trimOrExtendCurve_eq _ _ _ _ (by rfl)]
    norm_num [trimInterval, exampleCurves, exampleLineSeg, AcGeInterval.setUpper,
      AcGeInterval.bounded, exampleLib]
    decide
  refine ⟨⟨h0, (trimOrExtendCurve_failure _ _ _ _ h0).1 ?_⟩,
    ⟨h1, ((trimOrExtendCurve_failure _ _ _ _ h1).2 ?_).2⟩⟩
  · norm_num [trimInterval, exampleCurves, exampleLineSeg, AcGeInterval.setUpper,
      AcGeInterval.bounded]
  · norm_num [trimInterval, exampleCurves, exampleLineSeg, AcGeInterval.setUpper,
      AcGeInterval.bounded]

/-- C10, counterexample.  On a periodic curve of period 10 with interval
`[0, 10]`, `trimOrExtendCurve` leaves the interval as it is: trimming the
incoming curve at 5 does not set the upper bound to 5, trimming it at -1 does
not set the upper bound to `-1 + 10`, and trimming the outgoing curve at 12
does not set the lower bound to `12 - 10`. -/
theorem trimOrExtendCurve_periodic_no_wraparound :
    (exampleSpline (AcGeInterval.bounded 0 10) (some 10) true).period? = some 10 ∧
    (trimOrExtendCurve (exampleLib [] false)
      (exampleSpline (AcGeInterval.bounded 0 10) (some 10) true) 5 true).2.interval
      = AcGeInterval.bounded 0 10 ∧
    (trimOrExtendCurve (exampleLib [] false)
      (exampleSpline (AcGeInterval.bounded 0 10) (some 10) true) 5 true).2.interval.upper
      ≠ 5 ∧
    (trimOrExtendCurve (exampleLib [] false)
      (exampleSpline (AcGeInterval.bounded 0 10) (some 10) true) (-1) true).2.interval.upper
      ≠ -1 + 10 ∧
    (trimOrExtendCurve (exampleLib [] false)
      (exampleSpline (AcGeInterval.bounded 0 10) (some 10) true) 12 false).2.interval.lower
      ≠ 12 - 10 := by
  have hne : (exampleSpline (AcGeInterval.bounded 0 10) (some 10) true).period?.getD 0 ≠ 0 := by
    simp [exampleSpline]
  rw [trimOrExtendCurve_of_period _ _ _ _ hne, trimOrExtendCurve_of_period _ _ _ _ hne,
    trimOrExtendCurve_of_period _ _ _ _ hne]
  refine ⟨rfl, rfl, ?_, ?_, ?_⟩ <;>
    norm_num [exampleSpline, AcGeInterval.bounded]

/-- C10, amended.  On a periodic curve with period `P > 0`, `trimOrExtendCurve`
returns `eOk` at once and leaves the curve, and so its parameter interval, as
it is, whatever the parameter and the direction: a periodic curve is not
trimmed and no wraparound is applied. -/
theorem trimOrExtendCurve_periodic_unchanged (G : GeLib) (c : Curve) (t : ℚ)
    (isIncoming : Bool) (P : ℚ) (hper : c.period? = some P) (hP : 0 < P) :
    trimOrExtendCurve G c t isIncoming = (ErrorStatus.eOk, c) := by
  apply trimOrExtendCurve_of_period
  rw [hper]
  exact ne_of_gt hP

/-- C10, witness: the periodic curve of period 10 trimmed at 5. -/
theorem trimOrExtendCurve_periodic_unchanged_witness :
    (exampleSpline (AcGeInterval.bounded 0 10) (some 10) true).period? = some 10 ∧
    (0 : ℚ) < 10 ∧
    trimOrExtendCurve (exampleLib [] false)
      (exampleSpline (AcGeInterval.bounded 0 10) (some 10) true) 5 true =
      (ErrorStatus.eOk, exampleSpline (AcGeInterval.bounded 0 10) (some 10) true) :=
  ⟨rfl, by norm_num,
   trimOrExtendCurve_periodic_unchanged (exampleLib [] false)
     (exampleSpline (AcGeInterval.bounded 0 10) (some 10) true) 5 true 10 rfl (by norm_num)⟩

/-! ## `transformBy` -/

/-- C11.  `transformBy` changes `mIntersCrossingType` exactly when the
determinant is negative, and then turns 1 into 0 and 0 into 1; it leaves
`mIsIncoming`, `mParam`, `mHaveIntersPoint` and `mIsInitialized` alone and maps
the two arc end points, the intersection point and the two pick points by the
matrix.  Two mirrorings in succession give back the `mIntersCrossingType` of a
resolver that had 0 or 1 there. -/
theorem transformBy_crossingType (this : AssocFilletConfig) (trans trans' : AcGeMatrix3d) :
    ((this.transformBy trans).mIntersCrossingType ≠ this.mIntersCrossingType ↔
      trans.det < 0) ∧
    (trans.det < 0 → this.mIntersCrossingType = 1 →
      (this.transformBy trans).mIntersCrossingType = 0) ∧
    (trans.det < 0 → this.mIntersCrossingType = 0 →
      (this.transformBy trans).mIntersCrossingType = 1) ∧
    (0 ≤ trans.det →
      (this.transformBy trans).mIntersCrossingType = this.mIntersCrossingType) ∧
    (this.transformBy trans).mIsIncoming = this.mIsIncoming ∧
    (this.transformBy trans).mParam = this.mParam ∧
    (this.transformBy trans).mHaveIntersPoint = this.mHaveIntersPoint ∧
    (this.transformBy trans).mIsInitialized = this.mIsInitialized ∧
    (this.transformBy trans).mArcEndPoint =
      (trans.transform this.mArcEndPoint.1, trans.transform this.mArcEndPoint.2) ∧
    (this.transformBy trans).mIntersPoint = trans.transform this.mIntersPoint ∧
    (this.transformBy trans).mPickPoint =
      (trans.transform this.mPickPoint.1, trans.transform this.mPickPoint.2) ∧
    (trans.det < 0 → trans'.det < 0 →
      (this.mIntersCrossingType = 0 ∨ this.mIntersCrossingType = 1) →
      ((this.transformBy trans).transformBy trans').mIntersCrossingType =
        this.mIntersCrossingType) := by
  have hct : ∀ (s : AssocFilletConfig) (m : AcGeMatrix3d),
      (s.transformBy m).mIntersCrossingType =
        if m.det < 0 then (if s.mIntersCrossingType = 1 then 0 else 1)
        else s.mIntersCrossingType := by
    intro s m
    simp only [AssocFilletConfig.transformBy]
    split_ifs <;> simp_all
  refine ⟨?_, ?_, ?_, ?_, ?_, ?_, ?_, ?_, ?_, ?_, ?_, ?_⟩
  · rw [hct]
    constructor
    · intro hne
      by_contra hn
      rw [if_neg hn] at hne
      exact hne rfl
    · intro hdet
      rw [if_pos hdet]
      split_ifs with h1
      · rw [h1]; decide
      · exact fun h2 => h1 h2.symm
  · intro hdet h1
    rw [hct, if_pos hdet, if_pos h1]
  · intro hdet h0
    rw [hct, if_pos hdet, h0]
    rfl
  · intro hdet
    rw [hct, if_neg (not_lt.mpr hdet)]
  all_goals try (simp only [AssocFilletConfig.transformBy]; split_ifs <;> rfl)
  intro hdet hdet' h01
  rw [hct, if_pos hdet', hct, if_pos hdet]
  rcases h01 with h0 | h1
  · rw [h0]; rfl
  · rw [h1]; rfl

/-- C11, witness: the new resolver, where `mIntersCrossingType` is 1, mirrored
once and twice. -/
theorem transformBy_crossingType_witness :
    exampleMirror.det < 0 ∧ AssocFilletConfig.new.mIntersCrossingType = 1 ∧
    (AssocFilletConfig.new.transformBy exampleMirror).mIntersCrossingType = 0 ∧
    ((AssocFilletConfig.new.transformBy exampleMirror).transformBy
      exampleMirror).mIntersCrossingType = 1 := by
  have hdet : exampleMirror.det < 0 := by norm_num [exampleMirror]
  have key := transformBy_crossingType AssocFilletConfig.new exampleMirror exampleMirror
  exact ⟨hdet, rfl, key.2.1 hdet rfl,
    key.2.2.2.2.2.2.2.2.2.2.2 hdet hdet (Or.inr rfl)⟩

/-! ## The enumeration of `getNext` -/

/-- Once `getNext` has returned false it leaves the iterator in a state on
which it returns false again and which it does not change. -/
theorem getNext_none_stable (G : GeLib) (it : AcDbOffsetCurveIntersectionIter) :
    ∀ it', getNext G it = (none, it') → getNext G it' = (none, it') := by
  induction it using getNext.induct G with
  | case1 it h0 h1 inters index h =>
    intro it' hx
    rw [getNext] at hx
    simp only [h0, h1, dif_pos] at hx
    rw [dif_pos h] at hx
    cases hx
  | case2 it h0 h1 inters index h ih =>
    intro it' hx
    rw [getNext] at hx
    simp only [h0, h1, dif_pos] at hx
    rw [dif_neg h] at hx
    exact ih it' hx
  | case3 it h0 h1 ih =>
    intro it' hx
    rw [getNext] at hx
    simp only [h0, h1, dif_pos, dif_neg, not_false_eq_true] at hx
    exact ih it' hx
  | case4 it h0 =>
    intro it' hx
    have hget : getNext G it = (none, it) := by
      rw [getNext]
      simp only [h0, dif_neg, not_false_eq_true]
    rw [hget] at hx
    cases hx
    exact hget

/-- On an iterator on which `getNext` returns false without changing it, every
later call returns false. -/
theorem getNextCalls_of_none (G : GeLib) (it : AcDbOffsetCurveIntersectionIter)
    (h : getNext G it = (none, it)) (n : Nat) :
    getNextCalls G n it = List.replicate n none := by
  induction n with
  | zero => rfl
  | succ n ih => rw [getNextCalls, h, List.replicate_succ]; simp only; rw [ih]

/-- On a valid iterator the `k`-th of `n` successive calls of `getNext` returns
the `k`-th of the intersections still to return, and false when there are
fewer. -/
theorem getNextCalls_pending (G : GeLib) (n : Nat) :
    ∀ it : AcDbOffsetCurveIntersectionIter, Valid it →
      getNextCalls G n it = (List.range n).map fun k => (pending G it)[k]? := by
  induction n with
  | zero => intro it _; rfl
  | succ n ih =>
    intro it hv
    rw [getNextCalls, List.range_succ_eq_map, List.map_cons, List.map_map]
    rcases hg : getNext G it with ⟨_ | x, it'⟩
    · have hp := (getNext_pending G it hv).2 it' hg
      have hst := getNext_none_stable G it it' hg
      rw [getNextCalls_of_none G it' hst, hp]
      simp [Function.comp_def]
    · obtain ⟨hp, hv'⟩ := (getNext_pending G it hv).1 x it' hg
      rw [ih it' hv', hp]
      simp

/-- C12.  On an iterator as its constructor leaves it, whatever its two lists
of offset curves: the `k`-th call of `getNext` returns the `k`-th element of
the concatenation of the intersections of all pairs, the offset curves of
curve 0 outer and those of curve 1 inner, each pair in the order of its
intersections, and returns false when `k` is past the end; the loop over
`getNext` gathers exactly that concatenation. -/
theorem getNext_enumerates_all_pairs (G : GeLib) (it : AcDbOffsetCurveIntersectionIter)
    (n : Nat) (hindex : it.mCurrentCurveIndex = (0, 0))
    (hinters : it.mCurrentIntersectionIndex = none) :
    results G it = allIntersections G it.mOffsetCurves it.mNormal ∧
    getNextCalls G n it =
      (List.range n).map fun k => (allIntersections G it.mOffsetCurves it.mNormal)[k]? := by
  have hv : Valid it := Or.inl hinters
  have hp : pending G it = allIntersections G it.mOffsetCurves it.mNormal := by
    simp only [pending, hinters, hindex, allIntersections, List.drop_zero]
    rcases h : it.mOffsetCurves.1 with _ | ⟨c, cs⟩
    · simp
    · simp
  constructor
  · rw [results, whileGetNext_snoc G _ _ hv, hp, List.nil_append]
  · rw [getNextCalls_pending G n it hv, hp]

/-- C12, witness: the iterator constructed on the example, with one
intersection: the first call returns it, the second and third return false. -/
theorem getNext_enumerates_all_pairs_witness :
    (AcDbOffsetCurveIntersectionIter.new (exampleLib [exampleCorner] false) exampleCurves
      Vector3d.kZAxis 0 (false, true)).mCurrentCurveIndex = (0, 0) ∧
    (AcDbOffsetCurveIntersectionIter.new (exampleLib [exampleCorner] false) exampleCurves
      Vector3d.kZAxis 0 (false, true)).mCurrentIntersectionIndex = none ∧
    getNextCalls (exampleLib [exampleCorner] false) 3
      (AcDbOffsetCurveIntersectionIter.new (exampleLib [exampleCorner] false) exampleCurves
        Vector3d.kZAxis 0 (false, true)) = [some exampleCorner, none, none] := by
  refine ⟨rfl, rfl, ?_⟩
  rw [(getNext_enumerates_all_pairs (exampleLib [exampleCorner] false) _ 3 rfl rfl).2]
  simp [allIntersections, AcDbOffsetCurveIntersectionIter.new, getUnbooundedOffsetCurves,
    exampleLib, List.range_succ]

/-! ## The fillet arc -/

/-- When `evaluate` returns `eOk`, the arc it returns is the one it created
from the chosen intersection. -/
theorem evaluate_ok_filletArcOut (G : GeLib) (this : AssocFilletConfig) (updateState : Bool)
    (curve : Curve × Curve) (radius : ℚ) (isTrimCurve : Bool × Bool)
    (adjustTweakedCurves : Bool)
    (h : (this.evaluate G updateState curve radius isTrimCurve adjustTweakedCurves).status
      = ErrorStatus.eOk) :
    (this.evaluate G updateState curve radius isTrimCurve adjustTweakedCurves).filletArcOut =
      (AssocFilletConfig.evaluate.filletArc G
        (AssocFilletConfig.evaluate.initialized G this curve radius)
        (AssocFilletConfig.evaluate.curveIn G this curve radius isTrimCurve
          adjustTweakedCurves)
        radius
        (AssocFilletConfig.evaluate.normal G this curve radius isTrimCurve
          adjustTweakedCurves)
        (AssocFilletConfig.evaluate.chosen G this curve radius isTrimCurve
          adjustTweakedCurves).bestIntersPnt
        (AssocFilletConfig.evaluate.chosen G this curve radius isTrimCurve
          adjustTweakedCurves).bestParam).1 := by
  rw [AssocFilletConfig.evaluate] at h ⊢
  simp only [AssocFilletConfig.evaluate.chosen, AssocFilletConfig.evaluate.curveIn,
    AssocFilletConfig.evaluate.normal, AssocFilletConfig.isInitialized] at h ⊢
  split_ifs at h ⊢ <;> simp_all

/-- C13, counterexample.  On the initialized example `evaluate` with radius 0
returns `eOk` and an arc whose end angle exceeds its start angle by `2 * M_PI`:
the arc is the circle that the library constructs from center, normal and
radius, and a library that makes this a full circle gives it the span of a
full turn, not 0. -/
theorem evaluate_radius_zero_span_not_zero :
    (exampleSolved.evaluate (exampleLib [exampleCorner] false) false exampleCurves 0
        (false, false) false).status = ErrorStatus.eOk ∧
    (exampleSolved.evaluate (exampleLib [exampleCorner] false) false exampleCurves 0
        (false, false) false).filletArcOut.endAng -
      (exampleSolved.evaluate (exampleLib [exampleCorner] false) false exampleCurves 0
        (false, false) false).filletArcOut.startAng = 2 * M_PI ∧
    (exampleSolved.evaluate (exampleLib [exampleCorner] false) false exampleCurves 0
        (false, false) false).filletArcOut.endAng -
      (exampleSolved.evaluate (exampleLib [exampleCorner] false) false exampleCurves 0
        (false, false) false).filletArcOut.startAng ≠ 0 := by
  rw [example_evaluate_solved]
  refine ⟨rfl, ?_, ?_⟩ <;> norm_num [CircArc3d.circle, exampleLib, M_PI]

/-- C13, amended.  When `evaluate` with radius 0 returns `eOk`, the arc it
returns has the chosen intersection point as center, the normal of the pair as
normal and radius 0; its reference vector and its start and end angle are those
the library gives a circle that is constructed from center, normal and radius
only. -/
theorem evaluate_radius_zero_arc (G : GeLib) (this : AssocFilletConfig) (updateState : Bool)
    (curve : Curve × Curve) (isTrimCurve : Bool × Bool) (adjustTweakedCurves : Bool)
    (h : (this.evaluate G updateState curve 0 isTrimCurve adjustTweakedCurves).status
      = ErrorStatus.eOk) :
    (this.evaluate G updateState curve 0 isTrimCurve adjustTweakedCurves).filletArcOut.center =
      (AssocFilletConfig.evaluate.chosen G this curve 0 isTrimCurve
        adjustTweakedCurves).bestIntersPnt ∧
    (this.evaluate G updateState curve 0 isTrimCurve adjustTweakedCurves).filletArcOut.normal =
      AssocFilletConfig.evaluate.normal G this curve 0 isTrimCurve adjustTweakedCurves ∧
    (this.evaluate G updateState curve 0 isTrimCurve adjustTweakedCurves).filletArcOut.radius
      = 0 ∧
    (this.evaluate G updateState curve 0 isTrimCurve adjustTweakedCurves).filletArcOut.refVec =
      G.perpVector
        (AssocFilletConfig.evaluate.normal G this curve 0 isTrimCurve adjustTweakedCurves) ∧
    (this.evaluate G updateState curve 0 isTrimCurve
      adjustTweakedCurves).filletArcOut.startAng = G.circleAngles.1 ∧
    (this.evaluate G updateState curve 0 isTrimCurve
      adjustTweakedCurves).filletArcOut.endAng = G.circleAngles.2 := by
  rw [evaluate_ok_filletArcOut G this updateState curve 0 isTrimCurve adjustTweakedCurves h]
  simp [AssocFilletConfig.evaluate.filletArc, CircArc3d.circle]

/-- C13, witness: the initialized example with radius 0. -/
theorem evaluate_radius_zero_arc_witness :
    (exampleSolved.evaluate (exampleLib [exampleCorner] false) true exampleCurves 0
        (false, false) false).status = ErrorStatus.eOk ∧
    (exampleSolved.evaluate (exampleLib [exampleCorner] false) true exampleCurves 0
        (false, false) false).filletArcOut.center =
      (AssocFilletConfig.evaluate.chosen (exampleLib [exampleCorner] false) exampleSolved
        exampleCurves 0 (false, false) false).bestIntersPnt ∧
    (exampleSolved.evaluate (exampleLib [exampleCorner] false) true exampleCurves 0
        (false, false) false).filletArcOut.radius = 0 :=
  ⟨by rw [example_evaluate_solved],
   (evaluate_radius_zero_arc (exampleLib [exampleCorner] false) exampleSolved true
     exampleCurves (false, false) false (by rw [example_evaluate_solved])).1,
   (evaluate_radius_zero_arc (exampleLib [exampleCorner] false) exampleSolved true
     exampleCurves (false, false) false (by rw [example_evaluate_solved])).2.2.1⟩

/-- C14, amended.  When `evaluate` with a radius other than 0 returns `eOk`,
the arc it returns has the chosen intersection point as center, the normal of
the pair as normal, the given radius and start angle 0.  When the cross product
of the two tangency vectors is not of zero length, its end angle is the angle
between them and its reference vector is the first of them if the cross
product points along the normal, the second otherwise.  When the cross product
is of zero length, its end angle is `M_PI` and its reference vector is the
second tangency vector if the half-turn vector (the normal crossed with the
derivative of the second curve, negated for a first curve that is not
incoming) points along it, the first otherwise. -/
theorem evaluate_arc_of_radius_ne_zero (G : GeLib) (this : AssocFilletConfig)
    (updateState : Bool) (curve : Curve × Curve) (radius : ℚ) (isTrimCurve : Bool × Bool)
    (adjustTweakedCurves : Bool)
    (h : (this.evaluate G updateState curve radius isTrimCurve adjustTweakedCurves).status
      = ErrorStatus.eOk)
    (hr : radius ≠ 0) :
    (this.evaluate G updateState curve radius isTrimCurve
      adjustTweakedCurves).filletArcOut.center =
      (AssocFilletConfig.evaluate.chosen G this curve radius isTrimCurve
        adjustTweakedCurves).bestIntersPnt ∧
    (this.evaluate G updateState curve radius isTrimCurve
      adjustTweakedCurves).filletArcOut.normal =
      AssocFilletConfig.evaluate.normal G this curve radius isTrimCurve adjustTweakedCurves ∧
    (this.evaluate G updateState curve radius isTrimCurve
      adjustTweakedCurves).filletArcOut.radius = radius ∧
    (this.evaluate G updateState curve radius isTrimCurve
      adjustTweakedCurves).filletArcOut.startAng = 0 ∧
    (G.isZeroLength
        ((AssocFilletConfig.evaluate.tangencyVectors G this curve radius isTrimCurve
          adjustTweakedCurves).1.crossProduct
         (AssocFilletConfig.evaluate.tangencyVectors G this curve radius isTrimCurve
          adjustTweakedCurves).2) = false →
      (this.evaluate G updateState curve radius isTrimCurve
        adjustTweakedCurves).filletArcOut.endAng =
        G.angleTo
          (AssocFilletConfig.evaluate.tangencyVectors G this curve radius isTrimCurve
            adjustTweakedCurves).1
          (AssocFilletConfig.evaluate.tangencyVectors G this curve radius isTrimCurve
            adjustTweakedCurves).2 ∧
      (this.evaluate G updateState curve radius isTrimCurve
        adjustTweakedCurves).filletArcOut.refVec =
        if ((AssocFilletConfig.evaluate.tangencyVectors G this curve radius isTrimCurve
              adjustTweakedCurves).1.crossProduct
            (AssocFilletConfig.evaluate.tangencyVectors G this curve radius isTrimCurve
              adjustTweakedCurves).2).dotProduct
            (AssocFilletConfig.evaluate.normal G this curve radius isTrimCurve
              adjustTweakedCurves) > 0
        then (AssocFilletConfig.evaluate.tangencyVectors G this curve radius isTrimCurve
          adjustTweakedCurves).1
        else (AssocFilletConfig.evaluate.tangencyVectors G this curve radius isTrimCurve
          adjustTweakedCurves).2) ∧
    (G.isZeroLength
        ((AssocFilletConfig.evaluate.tangencyVectors G this curve radius isTrimCurve
          adjustTweakedCurves).1.crossProduct
         (AssocFilletConfig.evaluate.tangencyVectors G this curve radius isTrimCurve
          adjustTweakedCurves).2) = true →
      (this.evaluate G updateState curve radius isTrimCurve
        adjustTweakedCurves).filletArcOut.endAng = M_PI ∧
      (this.evaluate G updateState curve radius isTrimCurve
        adjustTweakedCurves).filletArcOut.refVec =
        if (AssocFilletConfig.evaluate.halfTurnVector G this curve radius isTrimCurve
              adjustTweakedCurves).dotProduct
            (AssocFilletConfig.evaluate.tangencyVectors G this curve radius isTrimCurve
              adjustTweakedCurves).2 > 0
        then (AssocFilletConfig.evaluate.tangencyVectors G this curve radius isTrimCurve
          adjustTweakedCurves).2
        else (AssocFilletConfig.evaluate.tangencyVectors G this curve radius isTrimCurve
          adjustTweakedCurves).1) := by
  rw [evaluate_ok_filletArcOut G this updateState curve radius isTrimCurve
    adjustTweakedCurves h]
  simp only [AssocFilletConfig.evaluate.filletArc, AssocFilletConfig.evaluate.tangencyVectors,
    AssocFilletConfig.evaluate.halfTurnVector, if_neg hr]
  split_ifs <;> simp_all

/-- `evaluate` with radius 1 on the tangent example: a 180 degree arc whose
reference vector is the first tangency vector. -/
theorem example_evaluate_tangent :
    exampleSolvedTangent.evaluate (exampleLib [exampleTouch] false) false exampleTangent 1
        (false, false) false =
      ⟨ErrorStatus.eOk, exampleSolvedTangent, exampleTangent,
        ⟨⟨0, 1, 0⟩, Vector3d.kZAxis, ⟨0, -1, 0⟩, 1, 0, M_PI⟩⟩ := by
  have hinit : AssocFilletConfig.evaluate.initialized (exampleLib [exampleTouch] false)
      exampleSolvedTangent exampleTangent 1 = exampleSolvedTangent :=
    evaluate_initialized_of_isInitialized _ _ _ _ rfl
  rw [AssocFilletConfig.evaluate]
  simp only [hinit, AssocFilletConfig.evaluate.best, AssocFilletConfig.evaluate.iter,
    whileGetNext_eq_foldl, example_results]
  simp [AssocFilletConfig.evaluate.adjusted, AssocFilletConfig.isInitialized,
    exampleSolvedTangent, AssocFilletConfig.new,
    exampleLib, exampleTangent, exampleLineSeg, exampleSpline, getCurveNormal₂,
    getCurveNormal, Curve.isLinearEnt,
    Vector3d.crossProduct, Vector3d.zero, AssocFilletConfig.evaluate.body,
    AssocFilletConfig.evaluate.matches, AssocFilletConfig.evaluate.paramDist,
    paramDistance, getCurveParamRange, fabs, min__, Point3d.sub, Vector3d.negate,
    Vector3d.dotProduct,
    exampleTouch, Point3d.kOrigin, Vector3d.kZAxis, AssocFilletConfig.evaluate.filletArc,
    AssocFilletConfig.evaluate.trimmed, CircArc3d.circle, c1e30, c1e29]
  norm_num

/-- The chosen intersection, the tangency vectors and the normal of the tangent
example. -/
theorem example_tangent_vectors :
    AssocFilletConfig.evaluate.tangencyVectors (exampleLib [exampleTouch] false)
        exampleSolvedTangent exampleTangent 1 (false, false) false =
      (⟨0, -1, 0⟩, ⟨0, 1, 0⟩) ∧
    AssocFilletConfig.evaluate.normal (exampleLib [exampleTouch] false)
        exampleSolvedTangent exampleTangent 1 (false, false) false = Vector3d.kZAxis := by
  have hinit : AssocFilletConfig.evaluate.initialized (exampleLib [exampleTouch] false)
      exampleSolvedTangent exampleTangent 1 = exampleSolvedTangent :=
    evaluate_initialized_of_isInitialized _ _ _ _ rfl
  have hcurve : AssocFilletConfig.evaluate.curveIn (exampleLib [exampleTouch] false)
      exampleSolvedTangent exampleTangent 1 (false, false) false = exampleTangent := by
    simp [AssocFilletConfig.evaluate.curveIn, AssocFilletConfig.evaluate.adjusted]
  simp only [AssocFilletConfig.evaluate.tangencyVectors, AssocFilletConfig.evaluate.normal,
    evaluate_chosen_eq, example_candidates, hinit, hcurve]
  simp [exampleSolvedTangent, AssocFilletConfig.new,
    exampleLib, exampleTangent, exampleLineSeg, exampleSpline, getCurveNormal₂,
    getCurveNormal, Curve.isLinearEnt,
    Vector3d.crossProduct, Vector3d.zero, AssocFilletConfig.evaluate.body,
    AssocFilletConfig.evaluate.matches, AssocFilletConfig.evaluate.paramDist,
    paramDistance, getCurveParamRange, fabs, min__, Point3d.sub,
    exampleTouch, Point3d.kOrigin, Vector3d.kZAxis, c1e30, c1e29]
  norm_num

/-- C14, counterexample.  On the tangent example `evaluate` with radius 1
returns `eOk`; the tangency vectors are `(0, -1, 0)` and `(0, 1, 0)`, the normal
is the z axis, the cross product of the tangency vectors has no positive
component along the normal, and yet the reference vector of the arc is the
first tangency vector, not the second. -/
theorem evaluate_half_turn_refVec :
    (exampleSolvedTangent.evaluate (exampleLib [exampleTouch] false) false exampleTangent 1
        (false, false) false).status = ErrorStatus.eOk ∧
    ¬ (((AssocFilletConfig.evaluate.tangencyVectors (exampleLib [exampleTouch] false)
          exampleSolvedTangent exampleTangent 1 (false, false) false).1.crossProduct
        (AssocFilletConfig.evaluate.tangencyVectors (exampleLib [exampleTouch] false)
          exampleSolvedTangent exampleTangent 1 (false, false) false).2).dotProduct
        (AssocFilletConfig.evaluate.normal (exampleLib [exampleTouch] false)
          exampleSolvedTangent exampleTangent 1 (false, false) false) > 0) ∧
    (exampleSolvedTangent.evaluate (exampleLib [exampleTouch] false) false exampleTangent 1
        (false, false) false).filletArcOut.refVec =
      (AssocFilletConfig.evaluate.tangencyVectors (exampleLib [exampleTouch] false)
        exampleSolvedTangent exampleTangent 1 (false, false) false).1 ∧
    (exampleSolvedTangent.evaluate (exampleLib [exampleTouch] false) false exampleTangent 1
        (false, false) false).filletArcOut.refVec ≠
      (AssocFilletConfig.evaluate.tangencyVectors (exampleLib [exampleTouch] false)
        exampleSolvedTangent exampleTangent 1 (false, false) false).2 := by
  rw [example_evaluate_tangent, example_tangent_vectors.1, example_tangent_vectors.2]
  refine ⟨rfl, ?_, rfl, ?_⟩
  · norm_num [Vector3d.crossProduct, Vector3d.dotProduct, Vector3d.kZAxis]
  · intro h
    have := congrArg Vector3d.y h
    norm_num at this

/-- C14, witness: the tangent example with radius 1; the arc starts at angle 0
and spans `M_PI`. -/
theorem evaluate_arc_of_radius_ne_zero_witness :
    (exampleSolvedTangent.evaluate (exampleLib [exampleTouch] false) false exampleTangent 1
        (false, false) false).status = ErrorStatus.eOk ∧
    (1 : ℚ) ≠ 0 ∧
    (exampleSolvedTangent.evaluate (exampleLib [exampleTouch] false) false exampleTangent 1
        (false, false) false).filletArcOut.center =
      (AssocFilletConfig.evaluate.chosen (exampleLib [exampleTouch] false)
        exampleSolvedTangent exampleTangent 1 (false, false) false).bestIntersPnt ∧
    (exampleSolvedTangent.evaluate (exampleLib [exampleTouch] false) false exampleTangent 1
        (false, false) false).filletArcOut.startAng = 0 :=
  ⟨by rw [example_evaluate_tangent], one_ne_zero,
   (evaluate_arc_of_radius_ne_zero (exampleLib [exampleTouch] false) exampleSolvedTangent
     false exampleTangent 1 (false, false) false (by rw [example_evaluate_tangent])
     one_ne_zero).1,
   (evaluate_arc_of_radius_ne_zero (exampleLib [exampleTouch] false) exampleSolvedTangent
     false exampleTangent 1 (false, false) false (by rw [example_evaluate_tangent])
     one_ne_zero).2.2.2.1⟩

/-! ## The DWG filer -/

/-- A value in the range of `Int32` is written as it is. -/
theorem toInt32_of_mem (i : Int) (h : -2 ^ 31 ≤ i ∧ i < 2 ^ 31) : toInt32 i = i := by
  unfold toInt32
  rw [Int.emod_eq_of_lt (by omega) (by omega)]
  omega

/-- C15.  For every resolver `s` whose crossing type is an `int` (32 bits):
`dwgOutFields` writes, in this order, the two incoming flags, the crossing
type, the two parameters, the two arc end points, the flag of the intersection
point, the intersection point if that flag is true, the initialized flag, and
the two pick points if that flag is false; `dwgInFields` of any resolver `t` on
these items, whatever follows them, reads exactly these items and leaves every
written field equal to that of `s`, the intersection point of `t` if it was not
written, and the pick points of `t` if they were not written. -/
theorem dwgInFields_dwgOutFields (s t : AssocFilletConfig) (rest : List DwgItem)
    (hint : -2 ^ 31 ≤ s.mIntersCrossingType ∧ s.mIntersCrossingType < 2 ^ 31) :
    s.dwgOutFields =
      [DwgItem.bool s.mIsIncoming.1, DwgItem.bool s.mIsIncoming.2,
       DwgItem.int32 s.mIntersCrossingType,
       DwgItem.double s.mParam.1, DwgItem.double s.mParam.2,
       DwgItem.point3d s.mArcEndPoint.1, DwgItem.point3d s.mArcEndPoint.2,
       DwgItem.bool s.mHaveIntersPoint] ++
      (if s.mHaveIntersPoint = true then [DwgItem.point3d s.mIntersPoint] else []) ++
      [DwgItem.bool s.mIsInitialized] ++
      (if s.mIsInitialized = false then
        [DwgItem.point3d s.mPickPoint.1, DwgItem.point3d s.mPickPoint.2]
       else []) ∧
    t.dwgInFields (s.dwgOutFields ++ rest) =
      ({ mIsIncoming := s.mIsIncoming
         mIntersCrossingType := s.mIntersCrossingType
         mParam := s.mParam
         mArcEndPoint := s.mArcEndPoint
         mIntersPoint := if s.mHaveIntersPoint = true then s.mIntersPoint else t.mIntersPoint
         mHaveIntersPoint := s.mHaveIntersPoint
         mIsInitialized := s.mIsInitialized
         mPickPoint := if s.mIsInitialized = false then s.mPickPoint else t.mPickPoint },
       rest) := by
  have h32 := toInt32_of_mem s.mIntersCrossingType hint
  constructor
  · cases h1 : s.mHaveIntersPoint <;> cases h2 : s.mIsInitialized <;>
      simp [AssocFilletConfig.dwgOutFields, h32, h1, h2]
  · cases h1 : s.mHaveIntersPoint <;> cases h2 : s.mIsInitialized <;>
      simp [AssocFilletConfig.dwgOutFields, AssocFilletConfig.dwgInFields, readBool, readInt32,
        readDouble, readPoint3d, h32, h1, h2]

/-- C15, witness: the initialized example is written as ten items, and a new
resolver that reads them is the initialized example but for the pick points,
which were not written. -/
theorem dwgInFields_dwgOutFields_witness :
    (-2 ^ 31 ≤ exampleSolved.mIntersCrossingType ∧ exampleSolved.mIntersCrossingType < 2 ^ 31) ∧
    (AssocFilletConfig.new.dwgInFields (exampleSolved.dwgOutFields ++ [])).2 = [] ∧
    (AssocFilletConfig.new.dwgInFields (exampleSolved.dwgOutFields ++ [])).1.mParam =
      exampleSolved.mParam :=
  ⟨by decide,
   by rw [(dwgInFields_dwgOutFields exampleSolved AssocFilletConfig.new [] (by decide)).2],
   by rw [(dwgInFields_dwgOutFields exampleSolved AssocFilletConfig.new [] (by decide)).2]⟩

/-! ## `initializeFromPickPoints`: which candidate wins -/

/-- Whether `setIntersectionCrossingType` succeeds depends on the configuration
only, not on the resolver. -/
theorem setIntersectionCrossingType_status (G : GeLib) (this : AssocFilletConfig)
    (config : AcGeXConfig × AcGeXConfig) :
    ((this.setIntersectionCrossingType G config).1 = ErrorStatus.eOk) ↔
      classifies G config = true := by
  unfold classifies AssocFilletConfig.setIntersectionCrossingType
  simp only [decide_eq_true_eq]
  split_ifs <;> simp

/-- The body of the loop of `initializeFromPickPoints` keeps the pick points. -/
theorem initializeFromPickPoints_body_mPickPoint (G : GeLib) (curve : Curve × Curve)
    (radius : ℚ) (acc : AssocFilletConfig × ℚ) (x : Intersection) :
    (AssocFilletConfig.initializeFromPickPoints.body G curve radius acc x).1.mPickPoint =
      acc.1.mPickPoint := by
  have hs : ∀ (s : AssocFilletConfig) (config : AcGeXConfig × AcGeXConfig),
      (s.setIntersectionCrossingType G config).2.mPickPoint = s.mPickPoint := by
    intro s config
    rw [setIntersectionCrossingType_frame]
  unfold AssocFilletConfig.initializeFromPickPoints.body
  simp only []
  split_ifs <;> simp only [hs]

/-- The distance that one turn of the loop of `initializeFromPickPoints` leaves
is at most `v` exactly when it was before, or the candidate is classified and
its distance to the pick points is at most `v`. -/
theorem initializeFromPickPoints_body_min_le (G : GeLib) (curve : Curve × Curve)
    (radius : ℚ) (acc : AssocFilletConfig × ℚ) (x : Intersection) (v : ℚ) :
    (AssocFilletConfig.initializeFromPickPoints.body G curve radius acc x).2 ≤ v ↔
      acc.2 ≤ v ∨
        (classifies G x.config = true ∧
          AssocFilletConfig.initializeFromPickPoints.dist G acc.1 x ≤ v) := by
  unfold AssocFilletConfig.initializeFromPickPoints.body
    AssocFilletConfig.initializeFromPickPoints.dist
  simp only [ne_eq, setIntersectionCrossingType_status]
  by_cases hlt : dadd (G.distanceTo x.intersPoint acc.1.mPickPoint.1)
      (G.distanceTo x.intersPoint acc.1.mPickPoint.2) < acc.2
  · rw [if_pos hlt]
    by_cases hc : classifies G x.config = true
    · rw [if_neg (not_not.mpr hc)]
      constructor
      · intro h; exact Or.inr ⟨hc, h⟩
      · rintro (h | ⟨-, h⟩)
        · exact le_trans (le_of_lt hlt) h
        · exact h
    · rw [if_pos hc]
      constructor
      · intro h; exact Or.inl h
      · rintro (h | ⟨h, -⟩)
        · exact h
        · exact absurd h hc
  · rw [if_neg hlt]
    constructor
    · intro h; exact Or.inl h
    · rintro (h | ⟨-, h⟩)
      · exact h
      · exact le_trans (not_lt.mp hlt) h

/-- The distance that the loop of `initializeFromPickPoints` leaves is at most
`v` exactly when it was before, or some candidate is classified and its
distance to the pick points is at most `v`. -/
theorem initializeFromPickPoints_loop_min_le (G : GeLib) (curve : Curve × Curve)
    (radius : ℚ) (l : List Intersection) (acc : AssocFilletConfig × ℚ) (v : ℚ) :
    (l.foldl (AssocFilletConfig.initializeFromPickPoints.body G curve radius) acc).2 ≤ v ↔
      acc.2 ≤ v ∨
        ∃ x ∈ l, classifies G x.config = true ∧
          AssocFilletConfig.initializeFromPickPoints.dist G acc.1 x ≤ v := by
  induction l generalizing acc with
  | nil => simp
  | cons y t ih =>
    have hd : ∀ x, AssocFilletConfig.initializeFromPickPoints.dist G
        (AssocFilletConfig.initializeFromPickPoints.body G curve radius acc y).1 x =
        AssocFilletConfig.initializeFromPickPoints.dist G acc.1 x := by
      intro x
      simp only [AssocFilletConfig.initializeFromPickPoints.dist,
        initializeFromPickPoints_body_mPickPoint]
    rw [List.foldl_cons, ih, initializeFromPickPoints_body_min_le]
    simp only [hd]
    constructor
    · rintro ((h | h) | ⟨x, hx, h⟩)
      · exact Or.inl h
      · exact Or.inr ⟨y, List.mem_cons_self _ _, h⟩
      · exact Or.inr ⟨x, List.mem_cons_of_mem _ hx, h⟩
    · rintro (h | ⟨x, hx, h⟩)
      · exact Or.inl (Or.inl h)
      · rcases List.mem_cons.mp hx with rfl | hx
        · exact Or.inl (Or.inr h)
        · exact Or.inr ⟨x, hx, h⟩

/-- With a normal that is not degenerate, `initializeFromPickPoints` is the
loop over its candidates followed by the test of the distance. -/
theorem initializeFromPickPoints_eq (G : GeLib) (this : AssocFilletConfig)
    (curve : Curve × Curve) (radius : ℚ)
    (hnormal : ¬ G.length (getCurveNormal₂ G curve) < 1 / 2) :
    this.initializeFromPickPoints G curve radius =
      if ((AssocFilletConfig.initializeFromPickPoints.candidates G this curve radius).foldl
          (AssocFilletConfig.initializeFromPickPoints.body G curve radius) (this, c1e30)).2
          > c1e29 then
        (ErrorStatus.eInvalidInput,
          ((AssocFilletConfig.initializeFromPickPoints.candidates G this curve radius).foldl
            (AssocFilletConfig.initializeFromPickPoints.body G curve radius) (this, c1e30)).1)
      else
        (ErrorStatus.eOk,
          { ((AssocFilletConfig.initializeFromPickPoints.candidates G this curve radius).foldl
              (AssocFilletConfig.initializeFromPickPoints.body G curve radius)
              (this, c1e30)).1 with mIsInitialized := true }) := by
  unfold AssocFilletConfig.initializeFromPickPoints
  simp only [whileGetNext_eq_foldl, if_neg hnormal,
    AssocFilletConfig.initializeFromPickPoints.candidates,
    AssocFilletConfig.initializeFromPickPoints.iter]

/-- With a normal that is not degenerate, `initializeFromPickPoints` returns
`eOk` exactly when some candidate is classified and its distance to the pick
points is at most `1e29`. -/
theorem initializeFromPickPoints_ok_iff (G : GeLib) (this : AssocFilletConfig)
    (curve : Curve × Curve) (radius : ℚ)
    (hnormal : ¬ G.length (getCurveNormal₂ G curve) < 1 / 2) :
    (this.initializeFromPickPoints G curve radius).1 = ErrorStatus.eOk ↔
      ∃ x ∈ AssocFilletConfig.initializeFromPickPoints.candidates G this curve radius,
        classifies G x.config = true ∧
          AssocFilletConfig.initializeFromPickPoints.dist G this x ≤ c1e29 := by
  have hloop := initializeFromPickPoints_loop_min_le G curve radius
    (AssocFilletConfig.initializeFromPickPoints.candidates G this curve radius)
    (this, c1e30) c1e29
  have h30 : ¬ (c1e30 ≤ c1e29) := by norm_num [c1e30, c1e29]
  simp only [h30, false_or] at hloop
  rw [initializeFromPickPoints_eq G this curve radius hnormal, ← hloop]
  split_ifs with h
  · simp only [reduceCtorEq, false_iff, not_le]
    exact h
  · simp only [true_iff]
    exact not_lt.mp h

/-- The candidates of `initializeFromPickPoints` with the example library are
the intersections the library returns. -/
theorem example_init_candidates (inters : List Intersection) (d : Bool)
    (this : AssocFilletConfig) (curve : Curve × Curve) (radius : ℚ) :
    AssocFilletConfig.initializeFromPickPoints.candidates (exampleLib inters d) this curve
      radius = inters := by
  simp only [AssocFilletConfig.initializeFromPickPoints.candidates,
    AssocFilletConfig.initializeFromPickPoints.iter, example_results]

/-- The normal of `exampleCurves` is not degenerate. -/
theorem example_normal (inters : List Intersection) (d : Bool) :
    ¬ (exampleLib inters d).length (getCurveNormal₂ (exampleLib inters d) exampleCurves)
      < 1 / 2 := by
  simp [exampleLib, exampleCurves, exampleLineSeg, getCurveNormal₂, Curve.isLinearEnt,
    Vector3d.crossProduct, Vector3d.zero]
  norm_num

/-- C16, counterexample.  On `exampleCurves` with the pick points of
`examplePicked` and a library whose only intersection is `exampleCornerFar`:
the normal is not degenerate, the iterator yields this one candidate, its
configuration is classified and its distance to the pick points is below
`1e30`, so that the loop examines and classifies it; yet
`initializeFromPickPoints` returns `eInvalidInput` and leaves the initialized
flag false, because that distance exceeds `1e29`. -/
theorem initializeFromPickPoints_fails_though_classified :
    ¬ (exampleLib [exampleCornerFar] false).length
        (getCurveNormal₂ (exampleLib [exampleCornerFar] false) exampleCurves) < 1 / 2 ∧
    AssocFilletConfig.initializeFromPickPoints.candidates (exampleLib [exampleCornerFar] false)
      examplePicked exampleCurves 0 = [exampleCornerFar] ∧
    classifies (exampleLib [exampleCornerFar] false) exampleCornerFar.config = true ∧
    AssocFilletConfig.initializeFromPickPoints.dist (exampleLib [exampleCornerFar] false)
      examplePicked exampleCornerFar < c1e30 ∧
    (examplePicked.initializeFromPickPoints (exampleLib [exampleCornerFar] false)
      exampleCurves 0).1 = ErrorStatus.eInvalidInput ∧
    (examplePicked.initializeFromPickPoints (exampleLib [exampleCornerFar] false)
      exampleCurves 0).2.mIsInitialized = false := by
  have hr : roundDouble 500000000000000000000000000001 = 500000000000000009942312419328 := by
    have h := roundDouble_eq 500000000000000000000000000001 46 7105427357601002
      (by norm_num)
      (by rw [abs_of_pos (by norm_num)]; norm_num)
      (by rw [abs_of_pos (by norm_num)]; norm_num)
      (roundHalfEven_eq_of_lt _ _ (by rw [abs_lt]; constructor <;> norm_num))
    rw [h]; norm_num
  have hd : AssocFilletConfig.initializeFromPickPoints.dist
      (exampleLib [exampleCornerFar] false) examplePicked exampleCornerFar =
      500000000000000009942312419328 := by
    have h1 : |(250000000000000000000000000000 : ℚ) + 1 / 2| =
        250000000000000000000000000000 + 1 / 2 := abs_of_pos (by norm_num)
    have h2 : |(1 : ℚ) / 2| = 1 / 2 := abs_of_pos (by norm_num)
    have h3 : |(250000000000000000000000000000 : ℚ)| = 250000000000000000000000000000 :=
      abs_of_pos (by norm_num)
    have h4 : |(500000000000000000000000000001 : ℚ) / 2| =
        500000000000000000000000000001 / 2 := abs_of_pos (by norm_num)
    simp only [AssocFilletConfig.initializeFromPickPoints.dist, exampleLib, exampleCornerFar,
      examplePicked, AssocFilletConfig.new, AssocFilletConfig.setPickPoints, dadd]
    norm_num [h1, h2, h3, h4, hr]
  have hc : classifies (exampleLib [exampleCornerFar] false) exampleCornerFar.config = true := by
    simp [classifies, AssocFilletConfig.setIntersectionCrossingType, exampleCornerFar]
  have hs : (examplePicked.initializeFromPickPoints (exampleLib [exampleCornerFar] false)
      exampleCurves 0).1 = ErrorStatus.eInvalidInput := by
    rcases initializeFromPickPoints_status (exampleLib [exampleCornerFar] false) examplePicked
      exampleCurves 0 with h | h | h
    · rw [initializeFromPickPoints_ok_iff _ _ _ _ (example_normal _ _),
        example_init_candidates] at h
      obtain ⟨x, hx, -, hle⟩ := h
      rw [List.mem_singleton] at hx
      subst hx
      rw [hd] at hle
      norm_num [c1e29] at hle
    · rw [initializeFromPickPoints_eq _ _ _ _ (example_normal _ _)] at h
      split_ifs at h
    · exact h
  refine ⟨example_normal _ _, example_init_candidates _ _ _ _ _, hc, ?_, hs, ?_⟩
  · rw [hd]; norm_num [c1e30]
  · rw [initializeFromPickPoints_mIsInitialized, hs]
    simp [examplePicked, AssocFilletConfig.setPickPoints]

/-- C16, amended.  With a normal that is not degenerate,
`initializeFromPickPoints` returns `eOk` exactly when the iterator yields a
candidate whose configuration is classified and whose distance to the pick
points is at most `1e29`, and returns `eInvalidInput` otherwise, in particular
when the iterator yields no candidate; when it returns `eOk` the initialized
flag is true, and when it fails the flag is as it was.  The distance to the
pick points is the one the code computes: the sum of the two distances, rounded
to the nearest double. -/
theorem initializeFromPickPoints_succeeds_iff_near_candidate (G : GeLib)
    (this : AssocFilletConfig) (curve : Curve × Curve) (radius : ℚ)
    (hnormal : ¬ G.length (getCurveNormal₂ G curve) < 1 / 2) :
    ((this.initializeFromPickPoints G curve radius).1 = ErrorStatus.eOk ↔
      ∃ x ∈ AssocFilletConfig.initializeFromPickPoints.candidates G this curve radius,
        classifies G x.config = true ∧
          AssocFilletConfig.initializeFromPickPoints.dist G this x ≤ c1e29) ∧
    (∀ x : Intersection,
      AssocFilletConfig.initializeFromPickPoints.dist G this x =
        roundDouble (G.distanceTo x.intersPoint this.mPickPoint.1 +
          G.distanceTo x.intersPoint this.mPickPoint.2)) ∧
    ((this.initializeFromPickPoints G curve radius).1 ≠ ErrorStatus.eOk →
      (this.initializeFromPickPoints G curve radius).1 = ErrorStatus.eInvalidInput) ∧
    (AssocFilletConfig.initializeFromPickPoints.candidates G this curve radius = [] →
      (this.initializeFromPickPoints G curve radius).1 = ErrorStatus.eInvalidInput) ∧
    ((this.initializeFromPickPoints G curve radius).1 = ErrorStatus.eOk →
      (this.initializeFromPickPoints G curve radius).2.mIsInitialized = true) ∧
    ((this.initializeFromPickPoints G curve radius).1 ≠ ErrorStatus.eOk →
      (this.initializeFromPickPoints G curve radius).2.mIsInitialized =
        this.mIsInitialized) := by
  have hiff := initializeFromPickPoints_ok_iff G this curve radius hnormal
  have hfail : (this.initializeFromPickPoints G curve radius).1 ≠ ErrorStatus.eOk →
      (this.initializeFromPickPoints G curve radius).1 = ErrorStatus.eInvalidInput := by
    intro h
    rw [initializeFromPickPoints_eq G this curve radius hnormal] at h ⊢
    split_ifs at h ⊢ <;> simp at h ⊢
  refine ⟨hiff, fun _ => rfl, hfail, ?_, ?_, ?_⟩
  · intro hnil
    apply hfail
    intro h
    rw [hiff, hnil] at h
    simp at h
  · intro h
    rw [initializeFromPickPoints_mIsInitialized, if_pos h]
  · intro h
    rw [initializeFromPickPoints_mIsInitialized, if_neg h]

/-- C16, witness: the pick points of `examplePickedThreshold` and the candidate
`exampleCornerAtThreshold`, at the distances `1e29` and 1 from them.  The sum
`1e29 + 1` is rounded to `1e29`, and `initializeFromPickPoints` returns `eOk`
with the initialized flag true. -/
theorem initializeFromPickPoints_succeeds_iff_near_candidate_witness :
    ¬ (exampleLib [exampleCornerAtThreshold] false).length
        (getCurveNormal₂ (exampleLib [exampleCornerAtThreshold] false) exampleCurves)
        < 1 / 2 ∧
    AssocFilletConfig.initializeFromPickPoints.dist (exampleLib [exampleCornerAtThreshold] false)
      examplePickedThreshold exampleCornerAtThreshold = c1e29 ∧
    (examplePickedThreshold.initializeFromPickPoints
      (exampleLib [exampleCornerAtThreshold] false) exampleCurves 0).1 = ErrorStatus.eOk ∧
    (examplePickedThreshold.initializeFromPickPoints
      (exampleLib [exampleCornerAtThreshold] false) exampleCurves 0).2.mIsInitialized
      = true := by
  have hd : AssocFilletConfig.initializeFromPickPoints.dist
      (exampleLib [exampleCornerAtThreshold] false) examplePickedThreshold
      exampleCornerAtThreshold = c1e29 := by
    have h1 : |c1e29| = c1e29 := abs_of_pos (by norm_num [c1e29])
    simp only [AssocFilletConfig.initializeFromPickPoints.dist, exampleLib,
      exampleCornerAtThreshold, examplePickedThreshold, AssocFilletConfig.new,
      AssocFilletConfig.setPickPoints, dadd]
    norm_num [h1, example_big_doubles.2.1]
  have hok : (examplePickedThreshold.initializeFromPickPoints
      (exampleLib [exampleCornerAtThreshold] false) exampleCurves 0).1 = ErrorStatus.eOk := by
    rw [(initializeFromPickPoints_succeeds_iff_near_candidate
      (exampleLib [exampleCornerAtThreshold] false) examplePickedThreshold exampleCurves 0
      (example_normal _ _)).1, example_init_candidates]
    refine ⟨exampleCornerAtThreshold, List.mem_singleton.mpr rfl, ?_, le_of_eq hd⟩
    simp [classifies, AssocFilletConfig.setIntersectionCrossingType, exampleCornerAtThreshold]
  refine ⟨example_normal _ _, hd, hok, ?_⟩
  rw [initializeFromPickPoints_mIsInitialized, if_pos hok]

/-- C17.  On `exampleCurves` with the pick points of `examplePicked` and a
library that returns `exampleWinner` and then `exampleRejected`: the second
candidate is nearer to the pick points and its configuration is not
classified.  `initializeFromPickPoints` returns `eOk` with the parameters and
the crossing type of `exampleWinner`, but with the incoming flags
`(false, false)` that it computed for `exampleRejected`; with `exampleWinner`
alone the incoming flags are `(true, true)`. -/
theorem initializeFromPickPoints_keeps_rejected_isIncoming :
    classifies (exampleLib [exampleWinner, exampleRejected] false) exampleWinner.config
      = true ∧
    classifies (exampleLib [exampleWinner, exampleRejected] false) exampleRejected.config
      = false ∧
    examplePicked.initializeFromPickPoints (exampleLib [exampleWinner, exampleRejected] false)
      exampleCurves 0 =
      (ErrorStatus.eOk,
        { examplePicked with
          mIsIncoming := (false, false), mIntersCrossingType := 0, mParam := (2, 2),
          mIsInitialized := true }) ∧
    examplePicked.initializeFromPickPoints (exampleLib [exampleWinner] false)
      exampleCurves 0 =
      (ErrorStatus.eOk,
        { examplePicked with
          mIsIncoming := (true, true), mIntersCrossingType := 0, mParam := (2, 2),
          mIsInitialized := true }) := by
  have h12 : |(1 : ℚ) / 2| = 1 / 2 := abs_of_pos (by norm_num)
  have h32 : |(3 : ℚ) / 2| = 3 / 2 := abs_of_pos (by norm_num)
  have step1 : AssocFilletConfig.initializeFromPickPoints.body
      (exampleLib [exampleWinner, exampleRejected] false) exampleCurves 0
      (examplePicked, c1e30) exampleWinner =
      ({ examplePicked with mIntersCrossingType := 0, mParam := (2, 2) }, 5) := by
    simp [h12, h32, exampleLib, exampleCurves, exampleLineSeg,
      AssocFilletConfig.initializeFromPickPoints.body,
      exampleWinner, examplePicked, AssocFilletConfig.new,
      AssocFilletConfig.setPickPoints, Point3d.kOrigin, Point3d.sub, Vector3d.add,
      Vector3d.dotProduct, Vector3d.zero, AssocFilletConfig.setIntersectionCrossingType, c1e30]
    norm_num [h12, h32]
  have step1' : AssocFilletConfig.initializeFromPickPoints.body
      (exampleLib [exampleWinner] false) exampleCurves 0
      (examplePicked, c1e30) exampleWinner =
      ({ examplePicked with mIntersCrossingType := 0, mParam := (2, 2) }, 5) := step1
  have step2 : AssocFilletConfig.initializeFromPickPoints.body
      (exampleLib [exampleWinner, exampleRejected] false) exampleCurves 0
      ({ examplePicked with mIntersCrossingType := 0, mParam := (2, 2) }, 5) exampleRejected =
      ({ examplePicked with
          mIsIncoming := (false, false), mIntersCrossingType := 0, mParam := (2, 2) }, 5) := by
    simp [h12, h32, exampleLib, exampleCurves, exampleLineSeg,
      AssocFilletConfig.initializeFromPickPoints.body,
      exampleRejected, examplePicked, AssocFilletConfig.new,
      AssocFilletConfig.setPickPoints, Point3d.kOrigin, Point3d.sub, Vector3d.add,
      Vector3d.dotProduct, Vector3d.zero, AssocFilletConfig.setIntersectionCrossingType]
    norm_num [h12, h32]
  refine ⟨?_, ?_, ?_, ?_⟩
  · simp [classifies, AssocFilletConfig.setIntersectionCrossingType, exampleWinner]
  · simp [classifies, AssocFilletConfig.setIntersectionCrossingType, exampleRejected]
  · rw [initializeFromPickPoints_eq _ _ _ _ (example_normal _ _), example_init_candidates,
      List.foldl_cons, List.foldl_cons, List.foldl_nil, step1, step2]
    norm_num [c1e29]
  · rw [initializeFromPickPoints_eq _ _ _ _ (example_normal _ _), example_init_candidates,
      List.foldl_cons, List.foldl_nil, step1']
    norm_num [c1e29]
    rfl

/-! ## The deep clone of the action body -/

/-- C18.  `addMoreObjectsToDeepCloneOverride` appends the parent action and the
fillet arc exactly when the entity of input edge 0 is in the id mapping,
whatever the entity of input edge 1: on `exampleBody` and `exampleIdMap`, where
the entity of input edge 1 is not in the mapping, it appends both. -/
theorem addMoreObjectsToDeepCloneOverride_tests_edge_zero_only :
    (∀ (this : AssocFilletActionBody) (idMap : List AcDbIdPair)
        (additionalObjectsToClone : List Nat),
      this.addMoreObjectsToDeepCloneOverride idMap additionalObjectsToClone =
        (ErrorStatus.eOk,
          if (AcDbIdMapping.compute idMap ⟨this.inputEdgeLeafId.1, 0, false⟩).1 = true then
            additionalObjectsToClone ++ [this.parentAction, this.filletArcId]
          else additionalObjectsToClone)) ∧
    (AcDbIdMapping.compute exampleIdMap ⟨exampleBody.inputEdgeLeafId.1, 0, false⟩).1 = true ∧
    (AcDbIdMapping.compute exampleIdMap ⟨exampleBody.inputEdgeLeafId.2, 0, false⟩).1 = false ∧
    exampleBody.addMoreObjectsToDeepCloneOverride exampleIdMap [] =
      (ErrorStatus.eOk, [40, 50]) := by
  refine ⟨?_, by decide, by decide, by decide⟩
  intro this idMap l
  unfold AssocFilletActionBody.addMoreObjectsToDeepCloneOverride
  simp only [at2]
  split_ifs <;> simp_all

/-! ## The tweaked line -/

/-- C19, counterexample.  On `exampleTweaked` and the dragged segment
`exampleTweakedSeg` of curve 0, which is incoming: the heuristic applies (the
end point `(-1, 0, 0)` of the segment, its near endpoint, is the cached arc end
point, and the vector from the far to the near endpoint is not parallel to the
vector from the far endpoint to the intersection point, which is not of zero
length); `adjustTweakedLine` leaves a segment that still starts at the far
endpoint `(-3, 1, 0)` and now ends at the stored intersection point, the
origin: it has replaced the near endpoint and kept the far one. -/
theorem adjustTweakedLine_keeps_far_endpoint :
    exampleTweakedSeg.type = EntityId.kLineSeg3d ∧
    exampleTweaked.mHaveIntersPoint = true ∧
    at2 exampleTweaked.mIsIncoming 0 = true ∧
    exampleTweakedSeg.startPoint? = some ⟨-3, 1, 0⟩ ∧
    exampleTweakedSeg.endPoint? = some ⟨-1, 0, 0⟩ ∧
    at2 exampleTweaked.mArcEndPoint 0 = ⟨-1, 0, 0⟩ ∧
    exampleTweaked.mIntersPoint = ⟨0, 0, 0⟩ ∧
    (exampleLib [] false).isParallelTo
      ((⟨-1, 0, 0⟩ : Point3d).sub ⟨-3, 1, 0⟩) ((⟨0, 0, 0⟩ : Point3d).sub ⟨-3, 1, 0⟩) = false ∧
    (exampleLib [] false).isZeroLength ((⟨0, 0, 0⟩ : Point3d).sub ⟨-3, 1, 0⟩) = false ∧
    (exampleTweaked.adjustTweakedLine (exampleLib [] false) 0 exampleTweakedSeg).startPoint? =
      some ⟨-3, 1, 0⟩ ∧
    (exampleTweaked.adjustTweakedLine (exampleLib [] false) 0 exampleTweakedSeg).endPoint? =
      some ⟨0, 0, 0⟩ := by
  refine ⟨rfl, rfl, rfl, ?_, ?_, rfl, rfl, ?_, ?_, ?_, ?_⟩ <;>
    simp [AssocFilletConfig.adjustTweakedLine, Curve.setLineSeg, exampleTweaked, exampleSolved,
      examplePicked, AssocFilletConfig.new, AssocFilletConfig.setPickPoints, exampleTweakedSeg,
      exampleLineSeg, exampleLib, at2, Point3d.sub, Point3d.kOrigin, Vector3d.crossProduct,
      Vector3d.zero] <;>
    norm_num

/-- C19, amended.  When the heuristic applies to a line segment (an
intersection point is cached, the near endpoint of the segment, its end point
if the curve is incoming and its start point otherwise, equals the cached arc
end point, and the vector from the far to the near endpoint is not parallel to
the vector from the far endpoint to the intersection point, which is not of
zero length), `adjustTweakedLine` replaces the near endpoint by the stored
intersection point and keeps the far endpoint: an incoming segment whose start
point does not equal its end point keeps its start point and ends at the
intersection point; a segment that is not incoming, its start point equal to
itself, starts at the intersection point and keeps its end point. -/
theorem adjustTweakedLine_replaces_near_endpoint (G : GeLib) (this : AssocFilletConfig)
    (index : Fin 2) (pCurve : Curve) (startPoint endPoint : Point3d)
    (htype : pCurve.type = EntityId.kLineSeg3d)
    (hhave : this.mHaveIntersPoint = true)
    (hstart : pCurve.startPoint? = some startPoint)
    (hend : pCurve.endPoint? = some endPoint) :
    (at2 this.mIsIncoming index = true →
      G.isEqualTo endPoint (at2 this.mArcEndPoint index) = true →
      G.isParallelTo (endPoint.sub startPoint) (this.mIntersPoint.sub startPoint) = false →
      G.isZeroLength (this.mIntersPoint.sub startPoint) = false →
      G.isEqualTo startPoint endPoint = false →
      this.adjustTweakedLine G index pCurve = pCurve.setLineSeg G startPoint this.mIntersPoint ∧
      (this.adjustTweakedLine G index pCurve).startPoint? = some startPoint ∧
      (this.adjustTweakedLine G index pCurve).endPoint? = some this.mIntersPoint) ∧
    (at2 this.mIsIncoming index = false →
      G.isEqualTo startPoint (at2 this.mArcEndPoint index) = true →
      G.isParallelTo (startPoint.sub endPoint) (this.mIntersPoint.sub endPoint) = false →
      G.isZeroLength (this.mIntersPoint.sub endPoint) = false →
      G.isEqualTo startPoint startPoint = true →
      this.adjustTweakedLine G index pCurve = pCurve.setLineSeg G this.mIntersPoint endPoint ∧
      (this.adjustTweakedLine G index pCurve).startPoint? = some this.mIntersPoint ∧
      (this.adjustTweakedLine G index pCurve).endPoint? = some endPoint) := by
  constructor
  · intro hin h1 h2 h3 h4
    have h : this.adjustTweakedLine G index pCurve =
        pCurve.setLineSeg G startPoint this.mIntersPoint := by
      simp [AssocFilletConfig.adjustTweakedLine, htype, hhave, hstart, hend, hin, h1, h2, h3, h4]
    rw [h]
    exact ⟨rfl, rfl, rfl⟩
  · intro hin h1 h2 h3 h4
    have h : this.adjustTweakedLine G index pCurve =
        pCurve.setLineSeg G this.mIntersPoint endPoint := by
      simp [AssocFilletConfig.adjustTweakedLine, htype, hhave, hstart, hend, hin, h1, h2, h3, h4]
    rw [h]
    exact ⟨rfl, rfl, rfl⟩

/-- C19, witness: the dragged segment of the example. -/
theorem adjustTweakedLine_replaces_near_endpoint_witness :
    exampleTweakedSeg.type = EntityId.kLineSeg3d ∧
    exampleTweaked.mHaveIntersPoint = true ∧
    exampleTweakedSeg.startPoint? = some ⟨-3, 1, 0⟩ ∧
    exampleTweakedSeg.endPoint? = some ⟨-1, 0, 0⟩ ∧
    exampleTweaked.adjustTweakedLine (exampleLib [] false) 0 exampleTweakedSeg =
      exampleTweakedSeg.setLineSeg (exampleLib [] false) ⟨-3, 1, 0⟩ exampleTweaked.mIntersPoint := by
  have hs : exampleTweakedSeg.startPoint? = some ⟨-3, 1, 0⟩ := rfl
  have he : exampleTweakedSeg.endPoint? = some ⟨-1, 0, 0⟩ := by
    simp [exampleTweakedSeg, exampleLineSeg]
    norm_num
  refine ⟨rfl, rfl, hs, he, ?_⟩
  refine ((adjustTweakedLine_replaces_near_endpoint (exampleLib [] false) exampleTweaked 0
    exampleTweakedSeg ⟨-3, 1, 0⟩ ⟨-1, 0, 0⟩ rfl rfl hs he).1 rfl ?_ ?_ ?_ ?_).1 <;>
    simp [exampleTweaked, exampleLib, at2, Point3d.sub, Point3d.kOrigin, Vector3d.crossProduct,
      Vector3d.zero]

/-- C20.  `adjustTweakedLine` returns the curve as it is when no intersection
point is cached, when the curve is not a line segment, and when the near
endpoint of the segment (its end point if the curve is incoming, its start
point otherwise) does not equal the cached arc end point.  The curves that
`evaluate` searches on are the curves given, but for curve `i` when
`adjustTweakedCurves` is true, the radius is not 0 and `isTrimCurve[i]` is
true, which is what `adjustTweakedLine` makes of it. -/
theorem adjustTweakedLine_unchanged (G : GeLib) (this : AssocFilletConfig) (index : Fin 2)
    (pCurve : Curve) (curve : Curve × Curve) (radius : ℚ) (isTrimCurve : Bool × Bool)
    (adjustTweakedCurves : Bool) :
    (this.mHaveIntersPoint = false → this.adjustTweakedLine G index pCurve = pCurve) ∧
    (pCurve.type ≠ EntityId.kLineSeg3d → this.adjustTweakedLine G index pCurve = pCurve) ∧
    (G.isEqualTo
        (if at2 this.mIsIncoming index = true then pCurve.endPoint?.getD Point3d.kOrigin
         else pCurve.startPoint?.getD Point3d.kOrigin)
        (at2 this.mArcEndPoint index) = false →
      this.adjustTweakedLine G index pCurve = pCurve) ∧
    (AssocFilletConfig.evaluate.curveIn G this curve radius isTrimCurve adjustTweakedCurves).1 =
      (if adjustTweakedCurves = true ∧ radius ≠ 0 ∧ isTrimCurve.1 = true then
        (AssocFilletConfig.evaluate.initialized G this curve radius).adjustTweakedLine G 0
          curve.1
       else curve.1) ∧
    (AssocFilletConfig.evaluate.curveIn G this curve radius isTrimCurve adjustTweakedCurves).2 =
      (if adjustTweakedCurves = true ∧ radius ≠ 0 ∧ isTrimCurve.2 = true then
        (AssocFilletConfig.evaluate.initialized G this curve radius).adjustTweakedLine G 1
          curve.2
       else curve.2) := by
  refine ⟨?_, ?_, ?_, ?_, ?_⟩
  · intro h
    simp [AssocFilletConfig.adjustTweakedLine, h]
  · intro h
    simp [AssocFilletConfig.adjustTweakedLine, h]
  · intro h
    unfold AssocFilletConfig.adjustTweakedLine
    simp only []
    rw [h]
    simp
  · simp only [AssocFilletConfig.evaluate.curveIn, AssocFilletConfig.evaluate.adjusted]
    split_ifs <;> simp_all
  · simp only [AssocFilletConfig.evaluate.curveIn, AssocFilletConfig.evaluate.adjusted]
    split_ifs <;> simp_all

/-- C20, witness: a new resolver has no intersection point cached and leaves
the dragged segment as it is. -/
theorem adjustTweakedLine_unchanged_witness :
    AssocFilletConfig.new.mHaveIntersPoint = false ∧
    AssocFilletConfig.new.adjustTweakedLine (exampleLib [] false) 0 exampleTweakedSeg =
      exampleTweakedSeg :=
  ⟨rfl,
   (adjustTweakedLine_unchanged (exampleLib [] false) AssocFilletConfig.new 0 exampleTweakedSeg
     exampleCurves 1 (true, true) true).1 rfl⟩

/-! ## The normal of a pair of lines -/

/-- C21, the code on two lines that run in opposite directions.  The two
lines of `exampleOpposite` are straight, parallel with
opposite directions, and not collinear: the point of line 1 closest to the
point `(0, 0, 0)` of line 0 is `(0, 0, 1)`, and the direction of line 0 crossed
with the vector between these points is `(0, -1, 0)`, which is not zero.
`getCurveNormal` returns the z axis, which is not along that cross product and
is not perpendicular to the plane `y = 0` of the two lines.  For the same two
lines running the same way, `exampleSameWay`, it returns `(0, -1, 0)`. -/
theorem getCurveNormal_of_opposite_lines :
    exampleOpposite.1.isLinearEnt = true ∧ exampleOpposite.2.isLinearEnt = true ∧
    exampleOpposite.2.direction = exampleOpposite.1.direction.negate ∧
    (exampleLib [] false).closestPointTo exampleOpposite.2 exampleOpposite.1.pointOnLine =
      ⟨0, 0, 1⟩ ∧
    exampleOpposite.1.direction.crossProduct
      (((exampleLib [] false).closestPointTo exampleOpposite.2
        exampleOpposite.1.pointOnLine).sub exampleOpposite.1.pointOnLine) = ⟨0, -1, 0⟩ ∧
    getCurveNormal₂ (exampleLib [] false) exampleOpposite = Vector3d.kZAxis ∧
    Vector3d.kZAxis.dotProduct
      (((exampleLib [] false).closestPointTo exampleOpposite.2
        exampleOpposite.1.pointOnLine).sub exampleOpposite.1.pointOnLine) ≠ 0 ∧
    exampleSameWay.1 = exampleOpposite.1 ∧
    exampleSameWay.2.pointOnLine = exampleOpposite.2.pointOnLine ∧
    exampleSameWay.2.direction = exampleOpposite.2.direction.negate ∧
    getCurveNormal₂ (exampleLib [] false) exampleSameWay = ⟨0, -1, 0⟩ := by
  have hp : (exampleLib [] false).closestPointTo exampleOpposite.2
      exampleOpposite.1.pointOnLine = ⟨0, 0, 1⟩ := by
    simp [exampleLib, exampleOpposite, exampleLineSeg, Point3d.sub, Vector3d.dotProduct]
  rw [hp]
  refine ⟨rfl, rfl, ?_, rfl, ?_, ?_, ?_, rfl, rfl, ?_, ?_⟩
  · simp [exampleOpposite, exampleLineSeg, Vector3d.negate]
  · simp [exampleOpposite, exampleLineSeg, Point3d.sub, Vector3d.crossProduct]
  · simp [getCurveNormal₂, exampleLib, exampleOpposite, exampleLineSeg, Curve.isLinearEnt,
      Vector3d.crossProduct, Vector3d.zero, Point3d.sub, Vector3d.dotProduct,
      Vector3d.kZAxis]
    norm_num
  · simp [exampleOpposite, exampleLineSeg, Point3d.sub, Vector3d.dotProduct, Vector3d.kZAxis]
  · simp [exampleSameWay, exampleOpposite, exampleLineSeg, Vector3d.negate]
  · simp [getCurveNormal₂, exampleLib, exampleSameWay, exampleLineSeg, Curve.isLinearEnt,
      Vector3d.crossProduct, Vector3d.zero, Point3d.sub, Vector3d.dotProduct]

/-! ## The filter and the offset sides of `evaluate` -/

/-- The loop of `evaluate` over a list of candidates gives what it gives over
the candidates of the list that pass the filter. -/
theorem evaluate_loop_filter (G : GeLib) (this : AssocFilletConfig) (curve : Curve × Curve)
    (l : List Intersection) (acc : AssocFilletConfig.evaluate.Best) :
    l.foldl (AssocFilletConfig.evaluate.body G this curve) acc =
      (l.filter fun x => AssocFilletConfig.evaluate.matches this x.config).foldl
        (AssocFilletConfig.evaluate.body G this curve) acc := by
  induction l generalizing acc with
  | nil => rfl
  | cons x t ih =>
    by_cases hm : AssocFilletConfig.evaluate.matches this x.config = true
    · simp only [List.filter_cons, hm, if_true, List.foldl_cons]
      exact ih _
    · have hb : AssocFilletConfig.evaluate.body G this curve acc x = acc := by
        simp [AssocFilletConfig.evaluate.body, hm]
      simp only [List.filter_cons, hm, List.foldl_cons, hb]
      exact ih _

/-- C22.  In `evaluate` a candidate passes the filter exactly when the stored
crossing type is 1 and its first configuration is `kLeftRight`, or the stored
crossing type is 0 and its first configuration is `kRightLeft`, or its first
configuration is `kLeftLeft` or `kRightRight`.  A candidate that does not pass
leaves the best intersection found so far as it is, and the intersection chosen
is that of the loop over the candidates that pass; so a candidate with
`kRightLeft` under crossing type 1, or with `kLeftRight` under crossing type 0,
is not selected. -/
theorem evaluate_matches_iff (G : GeLib) (this : AssocFilletConfig) (curve : Curve × Curve)
    (radius : ℚ) (isTrimCurve : Bool × Bool) (adjustTweakedCurves : Bool)
    (acc : AssocFilletConfig.evaluate.Best) (x : Intersection) :
    (AssocFilletConfig.evaluate.matches this x.config = true ↔
      (this.mIntersCrossingType = 1 ∧ x.config.1 = AcGeXConfig.kLeftRight) ∨
      (this.mIntersCrossingType = 0 ∧ x.config.1 = AcGeXConfig.kRightLeft) ∨
      x.config.1 = AcGeXConfig.kLeftLeft ∨ x.config.1 = AcGeXConfig.kRightRight) ∧
    (AssocFilletConfig.evaluate.matches this x.config = false →
      AssocFilletConfig.evaluate.body G this curve acc x = acc) ∧
    (this.mIntersCrossingType = 1 → x.config.1 = AcGeXConfig.kRightLeft →
      AssocFilletConfig.evaluate.body G this curve acc x = acc) ∧
    (this.mIntersCrossingType = 0 → x.config.1 = AcGeXConfig.kLeftRight →
      AssocFilletConfig.evaluate.body G this curve acc x = acc) ∧
    AssocFilletConfig.evaluate.chosen G this curve radius isTrimCurve adjustTweakedCurves =
      ((AssocFilletConfig.evaluate.candidates G this curve radius isTrimCurve
          adjustTweakedCurves).filter fun y =>
        AssocFilletConfig.evaluate.matches
          (AssocFilletConfig.evaluate.initialized G this curve radius) y.config).foldl
        (AssocFilletConfig.evaluate.body G
          (AssocFilletConfig.evaluate.initialized G this curve radius)
          (AssocFilletConfig.evaluate.curveIn G this curve radius isTrimCurve
            adjustTweakedCurves))
        { minParamDist := c1e30, bestIntersPnt := Point3d.kOrigin, bestParam := (0, 0) } := by
  have hiff : AssocFilletConfig.evaluate.matches this x.config = true ↔
      (this.mIntersCrossingType = 1 ∧ x.config.1 = AcGeXConfig.kLeftRight) ∨
      (this.mIntersCrossingType = 0 ∧ x.config.1 = AcGeXConfig.kRightLeft) ∨
      x.config.1 = AcGeXConfig.kLeftLeft ∨ x.config.1 = AcGeXConfig.kRightRight := by
    simp only [AssocFilletConfig.evaluate.matches, Bool.or_eq_true, Bool.and_eq_true,
      beq_iff_eq, or_assoc]
  have hbody : AssocFilletConfig.evaluate.matches this x.config = false →
      AssocFilletConfig.evaluate.body G this curve acc x = acc := by
    intro hm
    simp [AssocFilletConfig.evaluate.body, hm]
  refine ⟨hiff, hbody, ?_, ?_, ?_⟩
  · intro hc hx
    apply hbody
    rw [Bool.eq_false_iff]
    intro hm
    rcases hiff.mp hm with h | h | h | h
    · rw [hx] at h; exact absurd h.2 (by decide)
    · rw [hc] at h; exact absurd h.1 (by decide)
    · rw [hx] at h; exact absurd h (by decide)
    · rw [hx] at h; exact absurd h (by decide)
  · intro hc hx
    apply hbody
    rw [Bool.eq_false_iff]
    intro hm
    rcases hiff.mp hm with h | h | h | h
    · rw [hc] at h; exact absurd h.1 (by decide)
    · rw [hx] at h; exact absurd h.2 (by decide)
    · rw [hx] at h; exact absurd h (by decide)
    · rw [hx] at h; exact absurd h (by decide)
  · rw [evaluate_chosen_eq, evaluate_loop_filter]

/-- C22, witness: under the crossing type 1 of a new resolver a candidate with
`kRightLeft` leaves the best intersection as it is. -/
theorem evaluate_matches_iff_witness :
    AssocFilletConfig.new.mIntersCrossingType = 1 ∧
    exampleWinner.config.1 = AcGeXConfig.kRightLeft ∧
    AssocFilletConfig.evaluate.body (exampleLib [] false) AssocFilletConfig.new exampleCurves
      ⟨c1e30, Point3d.kOrigin, (0, 0)⟩ exampleWinner = ⟨c1e30, Point3d.kOrigin, (0, 0)⟩ :=
  ⟨rfl, rfl,
   (evaluate_matches_iff (exampleLib [] false) AssocFilletConfig.new exampleCurves 0
     (false, false) false ⟨c1e30, Point3d.kOrigin, (0, 0)⟩ exampleWinner).2.2.1 rfl rfl⟩

/-- C23.  In `evaluate` curve 0 is offset to the left exactly when "curve 1 is
not incoming" differs from "the crossing type is 0", and curve 1 exactly when
"curve 0 is incoming" differs from "the crossing type is 0"; the iterator is
constructed with these sides, which depend on the stored state only; and with
the same incoming flags the sides under crossing type 0 are the opposite of
the sides under crossing type 1. -/
theorem evaluate_left_eq (G : GeLib) (this : AssocFilletConfig) (curve : Curve × Curve)
    (normal : Vector3d) (radius : ℚ) :
    AssocFilletConfig.evaluate.left this =
      (xor (!this.mIsIncoming.2) (decide (this.mIntersCrossingType = 0)),
       xor this.mIsIncoming.1 (decide (this.mIntersCrossingType = 0))) ∧
    AssocFilletConfig.evaluate.iter G this curve normal radius =
      AcDbOffsetCurveIntersectionIter.new G curve normal radius
        (xor (!this.mIsIncoming.2) (decide (this.mIntersCrossingType = 0)),
         xor this.mIsIncoming.1 (decide (this.mIntersCrossingType = 0))) ∧
    (AssocFilletConfig.evaluate.left { this with mIntersCrossingType := 0 }).1 =
      !(AssocFilletConfig.evaluate.left { this with mIntersCrossingType := 1 }).1 ∧
    (AssocFilletConfig.evaluate.left { this with mIntersCrossingType := 0 }).2 =
      !(AssocFilletConfig.evaluate.left { this with mIntersCrossingType := 1 }).2 := by
  have h : AssocFilletConfig.evaluate.left this =
      (xor (!this.mIsIncoming.2) (decide (this.mIntersCrossingType = 0)),
       xor this.mIsIncoming.1 (decide (this.mIntersCrossingType = 0))) := by
    unfold AssocFilletConfig.evaluate.left
    by_cases hc : this.mIntersCrossingType = 0
    · simp [hc]
    · simp [hc]
  refine ⟨h, ?_, ?_, ?_⟩
  · rw [AssocFilletConfig.evaluate.iter, h]
  · simp [AssocFilletConfig.evaluate.left]
  · simp [AssocFilletConfig.evaluate.left]

/-! ## `setIntersectionCrossingType` -/

/-- C24.  `setIntersectionCrossingType`: with `kLeftRight` as first
configuration it returns `eOk` and sets the crossing type to 1, with
`kRightLeft` it returns `eOk` and sets the crossing type to 0, whatever the
second configuration and the incoming flags, and it writes nothing else; with
a first configuration that is none of `kLeftRight`, `kRightLeft`, `kLeftLeft`,
`kRightRight` it returns `eInvalidInput` and leaves the resolver as it is. -/
theorem setIntersectionCrossingType_crossing (G : GeLib) (this : AssocFilletConfig)
    (config : AcGeXConfig × AcGeXConfig) :
    (config.1 = AcGeXConfig.kLeftRight →
      this.setIntersectionCrossingType G config =
        (ErrorStatus.eOk, { this with mIntersCrossingType := 1 })) ∧
    (config.1 = AcGeXConfig.kRightLeft →
      this.setIntersectionCrossingType G config =
        (ErrorStatus.eOk, { this with mIntersCrossingType := 0 })) ∧
    (config.1 ≠ AcGeXConfig.kLeftRight → config.1 ≠ AcGeXConfig.kRightLeft →
      config.1 ≠ AcGeXConfig.kLeftLeft → config.1 ≠ AcGeXConfig.kRightRight →
      this.setIntersectionCrossingType G config = (ErrorStatus.eInvalidInput, this)) := by
  refine ⟨?_, ?_, ?_⟩
  · intro h
    simp [AssocFilletConfig.setIntersectionCrossingType, h]
  · intro h
    simp [AssocFilletConfig.setIntersectionCrossingType, h]
  · intro h1 h2 h3 h4
    simp [AssocFilletConfig.setIntersectionCrossingType, h1, h2, h3, h4]

/-- C24, witness: a resolver with crossing type 1 and the configuration of
`exampleWinner`, whose first element is `kRightLeft`. -/
theorem setIntersectionCrossingType_crossing_witness :
    exampleWinner.config.1 = AcGeXConfig.kRightLeft ∧
    AssocFilletConfig.new.setIntersectionCrossingType (exampleLib [] false)
      exampleWinner.config =
      (ErrorStatus.eOk, { AssocFilletConfig.new with mIntersCrossingType := 0 }) :=
  ⟨rfl,
   (setIntersectionCrossingType_crossing (exampleLib [] false) AssocFilletConfig.new
     exampleWinner.config).2.1 rfl⟩

/-- C25.  With `kLeftLeft` as first configuration and a second configuration
other than `kLeftLeft`, `setIntersectionCrossingType` does not look at the
second configuration: it compares `config[2]`, one past the end of the array,
with `kRightRight`.  On a new resolver, both curves incoming, and the
configuration `(kLeftLeft, kRightRight)` it returns `eInvalidInput` and leaves
the crossing type as it is when that read is not `kRightRight`; and it returns
`eOk` on `(kLeftLeft, kLeftRight)`, whose second element is not tangential,
when that read is `kRightRight`. -/
theorem setIntersectionCrossingType_reads_beyond :
    (∀ (G : GeLib) (this : AssocFilletConfig) (config1 : AcGeXConfig),
      this.setIntersectionCrossingType G (AcGeXConfig.kLeftLeft, config1) =
        if config1 = AcGeXConfig.kLeftLeft then
          (ErrorStatus.eOk, { this with mIntersCrossingType :=
            if (this.mIsIncoming.1 && !this.mIsIncoming.2) = true then 1 else 0 })
        else if G.configBeyond = AcGeXConfig.kRightRight then
          (ErrorStatus.eOk, { this with mIntersCrossingType :=
            if (this.mIsIncoming.1 && this.mIsIncoming.2) = true then 1 else 0 })
        else (ErrorStatus.eInvalidInput, this)) ∧
    AssocFilletConfig.new.mIsIncoming = (true, true) ∧
    AssocFilletConfig.new.setIntersectionCrossingType (exampleLib [] false)
      (AcGeXConfig.kLeftLeft, AcGeXConfig.kRightRight) =
      (ErrorStatus.eInvalidInput, AssocFilletConfig.new) ∧
    AssocFilletConfig.new.setIntersectionCrossingType exampleLibBeyond
      (AcGeXConfig.kLeftLeft, AcGeXConfig.kLeftRight) =
      (ErrorStatus.eOk, { AssocFilletConfig.new with mIntersCrossingType := 1 }) := by
  refine ⟨?_, rfl, ?_, ?_⟩
  · intro G this config1
    simp only [AssocFilletConfig.setIntersectionCrossingType]
    simp
  · simp [AssocFilletConfig.setIntersectionCrossingType, exampleLib]
  · simp [AssocFilletConfig.setIntersectionCrossingType, exampleLibBeyond,
      AssocFilletConfig.new]

/-! ## What `evaluate` writes -/

/-- Whatever it returns, `evaluate` leaves the incoming flags, the crossing
type, the initialized flag and the pick points as the lazy initialization left
them. -/
theorem evaluate_config_fields (G : GeLib) (this : AssocFilletConfig) (updateState : Bool)
    (curve : Curve × Curve) (radius : ℚ) (isTrimCurve : Bool × Bool)
    (adjustTweakedCurves : Bool) :
    (this.evaluate G updateState curve radius isTrimCurve adjustTweakedCurves).config.mIsIncoming
      = (AssocFilletConfig.evaluate.initialized G this curve radius).mIsIncoming ∧
    (this.evaluate G updateState curve radius isTrimCurve
      adjustTweakedCurves).config.mIntersCrossingType
      = (AssocFilletConfig.evaluate.initialized G this curve radius).mIntersCrossingType ∧
    (this.evaluate G updateState curve radius isTrimCurve
      adjustTweakedCurves).config.mIsInitialized
      = (AssocFilletConfig.evaluate.initialized G this curve radius).mIsInitialized ∧
    (this.evaluate G updateState curve radius isTrimCurve adjustTweakedCurves).config.mPickPoint
      = (AssocFilletConfig.evaluate.initialized G this curve radius).mPickPoint := by
  rw [AssocFilletConfig.evaluate]
  simp only []
  split_ifs <;> exact ⟨rfl, rfl, rfl, rfl⟩

/-- With radius 0 `evaluate` leaves the flag of the intersection point as the
lazy initialization left it, whatever it returns. -/
theorem evaluate_radius_zero_mHaveIntersPoint (G : GeLib) (this : AssocFilletConfig)
    (updateState : Bool) (curve : Curve × Curve) (isTrimCurve : Bool × Bool)
    (adjustTweakedCurves : Bool) :
    (this.evaluate G updateState curve 0 isTrimCurve
      adjustTweakedCurves).config.mHaveIntersPoint
      = (AssocFilletConfig.evaluate.initialized G this curve 0).mHaveIntersPoint := by
  rw [AssocFilletConfig.evaluate]
  simp only []
  split_ifs <;> rfl

/-- Without update `evaluate` is the lazy initialization, the adjustment, the
search, the arc and the trimming; it does not call `getIntersectionPoint`. -/
theorem evaluate_false_eq (G : GeLib) (this : AssocFilletConfig)
    (curve : Curve × Curve) (radius : ℚ) (isTrimCurve : Bool × Bool)
    (adjustTweakedCurves : Bool) :
    this.evaluate G false curve radius isTrimCurve adjustTweakedCurves =
      if (AssocFilletConfig.evaluate.initialized G this curve radius).mIsInitialized = false then
        ⟨ErrorStatus.eNotInitializedYet,
          AssocFilletConfig.evaluate.initialized G this curve radius,
          AssocFilletConfig.evaluate.curveIn G this curve radius isTrimCurve
            adjustTweakedCurves,
          G.defaultCircArc⟩
      else if G.length (AssocFilletConfig.evaluate.normal G this curve radius isTrimCurve
          adjustTweakedCurves) < 1 / 2 then
        ⟨ErrorStatus.eInvalidInput,
          AssocFilletConfig.evaluate.initialized G this curve radius,
          AssocFilletConfig.evaluate.curveIn G this curve radius isTrimCurve
            adjustTweakedCurves,
          G.defaultCircArc⟩
      else if (AssocFilletConfig.evaluate.chosen G this curve radius isTrimCurve
          adjustTweakedCurves).minParamDist > c1e29 then
        ⟨ErrorStatus.eInvalidInput,
          AssocFilletConfig.evaluate.initialized G this curve radius,
          AssocFilletConfig.evaluate.curveIn G this curve radius isTrimCurve
            adjustTweakedCurves,
          G.defaultCircArc⟩
      else if (AssocFilletConfig.evaluate.trimmed G
          (AssocFilletConfig.evaluate.initialized G this curve radius)
          (AssocFilletConfig.evaluate.curveIn G this curve radius isTrimCurve
            adjustTweakedCurves)
          (AssocFilletConfig.evaluate.chosen G this curve radius isTrimCurve
            adjustTweakedCurves).bestParam isTrimCurve).1 ≠ ErrorStatus.eOk then
        ⟨ErrorStatus.eInvalidInput,
          AssocFilletConfig.evaluate.initialized G this curve radius,
          (AssocFilletConfig.evaluate.trimmed G
            (AssocFilletConfig.evaluate.initialized G this curve radius)
            (AssocFilletConfig.evaluate.curveIn G this curve radius isTrimCurve
              adjustTweakedCurves)
            (AssocFilletConfig.evaluate.chosen G this curve radius isTrimCurve
              adjustTweakedCurves).bestParam isTrimCurve).2,
          G.defaultCircArc⟩
      else
        ⟨ErrorStatus.eOk,
          AssocFilletConfig.evaluate.initialized G this curve radius,
          (AssocFilletConfig.evaluate.trimmed G
            (AssocFilletConfig.evaluate.initialized G this curve radius)
            (AssocFilletConfig.evaluate.curveIn G this curve radius isTrimCurve
              adjustTweakedCurves)
            (AssocFilletConfig.evaluate.chosen G this curve radius isTrimCurve
              adjustTweakedCurves).bestParam isTrimCurve).2,
          (AssocFilletConfig.evaluate.filletArc G
            (AssocFilletConfig.evaluate.initialized G this curve radius)
            (AssocFilletConfig.evaluate.curveIn G this curve radius isTrimCurve
              adjustTweakedCurves)
            radius
            (AssocFilletConfig.evaluate.normal G this curve radius isTrimCurve
              adjustTweakedCurves)
            (AssocFilletConfig.evaluate.chosen G this curve radius isTrimCurve
              adjustTweakedCurves).bestIntersPnt
            (AssocFilletConfig.evaluate.chosen G this curve radius isTrimCurve
              adjustTweakedCurves).bestParam).1⟩ := by
  rw [AssocFilletConfig.evaluate]
  simp only [AssocFilletConfig.evaluate.chosen, AssocFilletConfig.evaluate.curveIn,
    AssocFilletConfig.evaluate.normal, AssocFilletConfig.isInitialized]
  split_ifs <;> simp_all

/-- C26.  With radius 0 `evaluate` never writes the flag of the intersection
point: after the call it is what it was after the lazy initialization.  On the
initialized example, whose flag is false, and the curves `exampleCurvesShifted`
the call with update and radius 0 returns `eOk`, stores the center `(1, 1, 0)`
of the arc as intersection point and as both arc end points, and leaves the
flag false. -/
theorem evaluate_radius_zero_keeps_flag :
    (∀ (G : GeLib) (this : AssocFilletConfig) (updateState : Bool) (curve : Curve × Curve)
        (isTrimCurve : Bool × Bool) (adjustTweakedCurves : Bool),
      (this.evaluate G updateState curve 0 isTrimCurve
        adjustTweakedCurves).config.mHaveIntersPoint
        = (AssocFilletConfig.evaluate.initialized G this curve 0).mHaveIntersPoint) ∧
    exampleSolved.mIsInitialized = true ∧
    exampleSolved.mHaveIntersPoint = false ∧
    exampleSolved.evaluate (exampleLib [exampleCornerShifted] false) true exampleCurvesShifted 0
        (false, false) false =
      ⟨ErrorStatus.eOk,
        { exampleSolved with
          mArcEndPoint := (⟨1, 1, 0⟩, ⟨1, 1, 0⟩), mIntersPoint := ⟨1, 1, 0⟩
          mHaveIntersPoint := false },
        exampleCurvesShifted,
        CircArc3d.circle (exampleLib [exampleCornerShifted] false) ⟨1, 1, 0⟩
          Vector3d.kZAxis 0⟩ := by
  refine ⟨evaluate_radius_zero_mHaveIntersPoint, rfl, rfl, ?_⟩
  have hinit : AssocFilletConfig.evaluate.initialized (exampleLib [exampleCornerShifted] false)
      exampleSolved exampleCurvesShifted 0 = exampleSolved :=
    evaluate_initialized_of_isInitialized _ _ _ _ rfl
  rw [AssocFilletConfig.evaluate]
  simp only [hinit, AssocFilletConfig.evaluate.best, AssocFilletConfig.evaluate.iter,
    whileGetNext_eq_foldl, example_results]
  simp [AssocFilletConfig.evaluate.adjusted, AssocFilletConfig.isInitialized, exampleSolved,
    examplePicked, AssocFilletConfig.new, AssocFilletConfig.setPickPoints,
    exampleLib, exampleCurvesShifted, exampleLineSeg, getCurveNormal₂, Curve.isLinearEnt,
    Vector3d.crossProduct, Vector3d.zero, AssocFilletConfig.evaluate.body,
    AssocFilletConfig.evaluate.matches, AssocFilletConfig.evaluate.paramDist,
    paramDistance, getCurveParamRange, fabs, min__,
    exampleCornerShifted, Point3d.kOrigin, Vector3d.kZAxis,
    AssocFilletConfig.evaluate.filletArc,
    AssocFilletConfig.evaluate.trimmed, CircArc3d.circle, c1e30, c1e29]
  norm_num

/-! ## The crossing type is 0 or 1 -/

/-- `setIntersectionCrossingType` leaves a crossing type that is 0 or 1, if it
was. -/
theorem setIntersectionCrossingType_mIntersCrossingType (G : GeLib) (this : AssocFilletConfig)
    (config : AcGeXConfig × AcGeXConfig)
    (h : this.mIntersCrossingType = 0 ∨ this.mIntersCrossingType = 1) :
    (this.setIntersectionCrossingType G config).2.mIntersCrossingType = 0 ∨
    (this.setIntersectionCrossingType G config).2.mIntersCrossingType = 1 := by
  unfold AssocFilletConfig.setIntersectionCrossingType
  split_ifs <;> simp_all

/-- The body of the loop of `initializeFromPickPoints` leaves a crossing type
that is 0 or 1, if it was. -/
theorem initializeFromPickPoints_body_mIntersCrossingType (G : GeLib) (curve : Curve × Curve)
    (radius : ℚ) (acc : AssocFilletConfig × ℚ) (x : Intersection)
    (h : acc.1.mIntersCrossingType = 0 ∨ acc.1.mIntersCrossingType = 1) :
    (AssocFilletConfig.initializeFromPickPoints.body G curve radius acc x).1.mIntersCrossingType
      = 0 ∨
    (AssocFilletConfig.initializeFromPickPoints.body G curve radius acc x).1.mIntersCrossingType
      = 1 := by
  have hs : ∀ (s : AssocFilletConfig),
      (s.mIntersCrossingType = 0 ∨ s.mIntersCrossingType = 1) →
      ((s.setIntersectionCrossingType G x.config).2.mIntersCrossingType = 0 ∨
       (s.setIntersectionCrossingType G x.config).2.mIntersCrossingType = 1) :=
    fun s hs => setIntersectionCrossingType_mIntersCrossingType G s x.config hs
  unfold AssocFilletConfig.initializeFromPickPoints.body
  simp only []
  by_cases hlt : dadd (G.distanceTo x.intersPoint acc.1.mPickPoint.1)
      (G.distanceTo x.intersPoint acc.1.mPickPoint.2) < acc.2
  · rw [if_pos hlt]
    split_ifs <;> exact hs _ h
  · rw [if_neg hlt]
    exact h

/-- `initializeFromPickPoints` leaves a crossing type that is 0 or 1, if it
was. -/
theorem initializeFromPickPoints_mIntersCrossingType (G : GeLib) (this : AssocFilletConfig)
    (curve : Curve × Curve) (radius : ℚ)
    (h : this.mIntersCrossingType = 0 ∨ this.mIntersCrossingType = 1) :
    (this.initializeFromPickPoints G curve radius).2.mIntersCrossingType = 0 ∨
    (this.initializeFromPickPoints G curve radius).2.mIntersCrossingType = 1 := by
  have hloop : ∀ (l : List Intersection) (acc : AssocFilletConfig × ℚ),
      (acc.1.mIntersCrossingType = 0 ∨ acc.1.mIntersCrossingType = 1) →
      ((l.foldl (AssocFilletConfig.initializeFromPickPoints.body G curve radius)
          acc).1.mIntersCrossingType = 0 ∨
       (l.foldl (AssocFilletConfig.initializeFromPickPoints.body G curve radius)
          acc).1.mIntersCrossingType = 1) := by
    intro l
    induction l with
    | nil => intro acc hacc; exact hacc
    | cons x t ih =>
      intro acc hacc
      rw [List.foldl_cons]
      exact ih _ (initializeFromPickPoints_body_mIntersCrossingType G curve radius acc x hacc)
  unfold AssocFilletConfig.initializeFromPickPoints
  simp only [whileGetNext_eq_foldl]
  split_ifs
  · exact h
  · exact hloop _ _ h
  · exact hloop _ _ h

/-- Each call leaves a crossing type that is 0 or 1, if it was. -/
theorem call_mIntersCrossingType (G : GeLib) (this : AssocFilletConfig)
    (c : AssocFilletConfig.Call)
    (h : this.mIntersCrossingType = 0 ∨ this.mIntersCrossingType = 1) :
    (this.call G c).mIntersCrossingType = 0 ∨ (this.call G c).mIntersCrossingType = 1 := by
  cases c with
  | setPickPoints pickPoint => exact h
  | initializeFromPickPoints curve radius =>
    exact initializeFromPickPoints_mIntersCrossingType G this curve radius h
  | evaluate updateState curve radius isTrimCurve adjustTweakedCurves =>
    simp only [AssocFilletConfig.call]
    rw [(evaluate_config_fields G this updateState curve radius isTrimCurve
      adjustTweakedCurves).2.1]
    unfold AssocFilletConfig.evaluate.initialized
    split_ifs
    · exact initializeFromPickPoints_mIntersCrossingType G this curve radius h
    · exact h
  | transformBy matrix =>
    simp only [AssocFilletConfig.call, AssocFilletConfig.transformBy]
    split_ifs <;> simp_all

/-- C27.  After the constructor and any sequence of calls of `setPickPoints`,
`initializeFromPickPoints`, `evaluate` and `transformBy`, with any arguments
and whatever they return, the crossing type is 0 or 1. -/
theorem calls_mIntersCrossingType (G : GeLib) (l : List AssocFilletConfig.Call) :
    (AssocFilletConfig.calls G l).mIntersCrossingType = 0 ∨
    (AssocFilletConfig.calls G l).mIntersCrossingType = 1 := by
  have hloop : ∀ (l : List AssocFilletConfig.Call) (s : AssocFilletConfig),
      (s.mIntersCrossingType = 0 ∨ s.mIntersCrossingType = 1) →
      ((l.foldl (AssocFilletConfig.call G) s).mIntersCrossingType = 0 ∨
       (l.foldl (AssocFilletConfig.call G) s).mIntersCrossingType = 1) := by
    intro l
    induction l with
    | nil => intro s hs; exact hs
    | cons c t ih =>
      intro s hs
      rw [List.foldl_cons]
      exact ih _ (call_mIntersCrossingType G s c hs)
  exact hloop l AssocFilletConfig.new (Or.inr rfl)

/-- C28.  On an initialized resolver `evaluate`, with any arguments and
whatever it returns, leaves the incoming flags, the crossing type, the
initialized flag and the pick points as they are, so that a successful call
with update writes at most the parameters, the arc end points, the
intersection point and its flag; without update or on failure it leaves the
whole resolver as it is.  `getIntersectionPoint` calls `evaluate` without
update, with radius 0 and no trimming, on a copy of the resolver; and a call
of `evaluate` without update, on any resolver, is the lazy initialization, the
adjustment, the search, the arc and the trimming: it calls
`getIntersectionPoint` no more. -/
theorem evaluate_initialized_frame (G : GeLib) (this : AssocFilletConfig) (updateState : Bool)
    (curve : Curve × Curve) (radius : ℚ) (isTrimCurve : Bool × Bool)
    (adjustTweakedCurves : Bool) (h : this.mIsInitialized = true) :
    (this.evaluate G updateState curve radius isTrimCurve adjustTweakedCurves).config.mIsIncoming
      = this.mIsIncoming ∧
    (this.evaluate G updateState curve radius isTrimCurve
      adjustTweakedCurves).config.mIntersCrossingType = this.mIntersCrossingType ∧
    (this.evaluate G updateState curve radius isTrimCurve
      adjustTweakedCurves).config.mIsInitialized = this.mIsInitialized ∧
    (this.evaluate G updateState curve radius isTrimCurve adjustTweakedCurves).config.mPickPoint
      = this.mPickPoint ∧
    (updateState = false ∨
      (this.evaluate G updateState curve radius isTrimCurve adjustTweakedCurves).status
        ≠ ErrorStatus.eOk →
      (this.evaluate G updateState curve radius isTrimCurve adjustTweakedCurves).config
        = this) ∧
    (this.getIntersectionPoint G curve =
      if ((({ this with mIntersPoint := Point3d.kOrigin } : AssocFilletConfig).evaluate G false
          (getUnboundedCurve G curve.1, getUnboundedCurve G curve.2) 0 (false, false)
          false).status = ErrorStatus.eOk) then
        (ErrorStatus.eOk,
          (({ this with mIntersPoint := Point3d.kOrigin } : AssocFilletConfig).evaluate G false
            (getUnboundedCurve G curve.1, getUnboundedCurve G curve.2) 0 (false, false)
            false).filletArcOut.center)
      else
        ((({ this with mIntersPoint := Point3d.kOrigin } : AssocFilletConfig).evaluate G false
          (getUnboundedCurve G curve.1, getUnboundedCurve G curve.2) 0 (false, false)
          false).status, Point3d.kOrigin)) ∧
    (∀ (s : AssocFilletConfig) (c : Curve × Curve) (r : ℚ) (t : Bool × Bool) (a : Bool),
      (s.evaluate G false c r t a).config = AssocFilletConfig.evaluate.initialized G s c r ∧
      (s.evaluate G false c r t a).status =
        if (AssocFilletConfig.evaluate.initialized G s c r).mIsInitialized = false then
          ErrorStatus.eNotInitializedYet
        else if G.length (AssocFilletConfig.evaluate.normal G s c r t a) < 1 / 2 then
          ErrorStatus.eInvalidInput
        else if (AssocFilletConfig.evaluate.chosen G s c r t a).minParamDist > c1e29 then
          ErrorStatus.eInvalidInput
        else if (AssocFilletConfig.evaluate.trimmed G
            (AssocFilletConfig.evaluate.initialized G s c r)
            (AssocFilletConfig.evaluate.curveIn G s c r t a)
            (AssocFilletConfig.evaluate.chosen G s c r t a).bestParam t).1
            ≠ ErrorStatus.eOk then
          ErrorStatus.eInvalidInput
        else ErrorStatus.eOk) := by
  have hi := evaluate_initialized_of_isInitialized G this curve radius h
  have hf := evaluate_config_fields G this updateState curve radius isTrimCurve
    adjustTweakedCurves
  rw [hi] at hf
  refine ⟨hf.1, hf.2.1, hf.2.2.1, hf.2.2.2, ?_, ?_, ?_⟩
  · intro hc
    rw [evaluate_config_frame G this updateState curve radius isTrimCurve adjustTweakedCurves
      hc, hi]
  · rw [AssocFilletConfig.getIntersectionPoint]
  · intro s c r t a
    rw [evaluate_false_eq]
    constructor
    · split_ifs <;> rfl
    · split_ifs <;> rfl

/-- C28, witness: the initialized example, evaluated with update. -/
theorem evaluate_initialized_frame_witness :
    exampleSolved.mIsInitialized = true ∧
    (exampleSolved.evaluate (exampleLib [exampleCornerShifted] false) true exampleCurvesShifted
      0 (false, false) false).config.mIntersCrossingType = exampleSolved.mIntersCrossingType ∧
    (exampleSolved.evaluate (exampleLib [exampleCornerShifted] false) true exampleCurvesShifted
      0 (false, false) false).config.mPickPoint = exampleSolved.mPickPoint :=
  ⟨rfl,
   (evaluate_initialized_frame (exampleLib [exampleCornerShifted] false) exampleSolved true
     exampleCurvesShifted 0 (false, false) false rfl).2.1,
   (evaluate_initialized_frame (exampleLib [exampleCornerShifted] false) exampleSolved true
     exampleCurvesShifted 0 (false, false) false rfl).2.2.2.1⟩

/-! ## The DXF fields -/

/-- A turn of the loop of `AssocFilletConfig::dxfInFields` on an item whose
group code no `case` has: the filer is left with the same items to read. -/
theorem dxfInFields_turn_of_unrecognized (rb : resbuf) (rest : List resbuf)
    (last : Option resbuf) (endStatus : ErrorStatus) :
    (AcDbDxfFiler.mk (rb :: rest) last endStatus).readResBuf.2.pushBackItem =
      AcDbDxfFiler.mk (rb :: rest) none endStatus := by
  simp [AcDbDxfFiler.readResBuf, AcDbDxfFiler.pushBackItem]

/-- The loop of `AssocFilletConfig::dxfInFields` does not end when the next
item has a group code that no `case` has, however many turns it runs. -/
theorem dxfInFields_loop_of_unrecognized (fuel : Nat) (this : AssocFilletConfig) (rb : resbuf)
    (rest : List resbuf) (last : Option resbuf) (endStatus : ErrorStatus)
    (h : AssocFilletConfig.dxfInFields.assign this rb = none) :
    AssocFilletConfig.dxfInFields.loop fuel this (AcDbDxfFiler.mk (rb :: rest) last endStatus)
      = none := by
  induction fuel generalizing last with
  | zero => rfl
  | succ n ih =>
    rw [AssocFilletConfig.dxfInFields.loop]
    have hturn := dxfInFields_turn_of_unrecognized rb rest last endStatus
    simp only [AcDbDxfFiler.readResBuf] at hturn ⊢
    simp only [h, hturn]
    exact ih none

/-- C29.  On a filer whose next item is `exampleItemUnknown`, with group code
0, whatever items follow: no `case` of the `switch` has this group code; a turn
of the loop reads the item and pushes it back, which leaves the filer with the
same items to read; and `AssocFilletConfig::dxfInFields` has not returned after
any number of turns.  On a filer with no item left it returns after one
turn. -/
theorem dxfInFields_never_returns_on_unknown_code :
    (∀ (this : AssocFilletConfig),
      AssocFilletConfig.dxfInFields.assign this exampleItemUnknown = none) ∧
    (∀ (rest : List resbuf) (last : Option resbuf) (endStatus : ErrorStatus),
      ((AcDbDxfFiler.mk (exampleItemUnknown :: rest) last endStatus).readResBuf.2.pushBackItem).items
        = exampleItemUnknown :: rest) ∧
    (∀ (fuel : Nat) (this : AssocFilletConfig) (rest : List resbuf) (last : Option resbuf)
        (endStatus : ErrorStatus),
      AssocFilletConfig.dxfInFields fuel this
        (AcDbDxfFiler.mk (exampleItemUnknown :: rest) last endStatus) = none) ∧
    (∀ (this : AssocFilletConfig) (last : Option resbuf) (endStatus : ErrorStatus),
      AssocFilletConfig.dxfInFields 1 this (AcDbDxfFiler.mk [] last endStatus) =
        some (endStatus, this, AcDbDxfFiler.mk [] last endStatus)) := by
  have hassign : ∀ (this : AssocFilletConfig),
      AssocFilletConfig.dxfInFields.assign this exampleItemUnknown = none := by
    intro this
    simp [AssocFilletConfig.dxfInFields.assign, exampleItemUnknown, kDxfBool, kDxfInt32,
      kDxfReal, kDxfXCoord]
  refine ⟨hassign, ?_, ?_, ?_⟩
  · intro rest last endStatus
    rw [dxfInFields_turn_of_unrecognized]
  · intro fuel this rest last endStatus
    exact dxfInFields_loop_of_unrecognized fuel this exampleItemUnknown rest last endStatus
      (hassign this)
  · intro this last endStatus
    rfl

/-- C30.  On a filer at the subclass data whose items are the object version 0
and then `exampleItemHandle`, whose group code 5 is not `kDxfSoftPointerId`:
`AssocFilletActionBody::dxfInFields` does not return `eInvalidResBuf`; it
stores the id 77 of the item in `mFilletArcDepId`, which was 30, reads the
fields of the resolver, and returns the status of that read.  On an item of the
object version 1 it returns `eMakeMeProxy`, the body as it was and the
following items unread. -/
theorem actionBody_dxfInFields_accepts_any_group_code :
    exampleItemHandle.restype ≠ kDxfSoftPointerId ∧
    exampleBody.mFilletArcDepId = 30 ∧
    exampleBody.dxfInFields 1 ErrorStatus.eOk true ErrorStatus.eOk
        (AcDbDxfFiler.mk [exampleItemVersion, exampleItemHandle] none ErrorStatus.eEndOfFile) =
      some (ErrorStatus.eEndOfFile, { exampleBody with mFilletArcDepId := 77 },
        AcDbDxfFiler.mk [] (some exampleItemHandle) ErrorStatus.eEndOfFile) ∧
    exampleBody.dxfInFields 1 ErrorStatus.eOk true ErrorStatus.eOk
        (AcDbDxfFiler.mk [{ exampleItemVersion with rlong := 1 }, exampleItemHandle] none
          ErrorStatus.eEndOfFile) =
      some (ErrorStatus.eMakeMeProxy, exampleBody,
        AcDbDxfFiler.mk [exampleItemHandle] (some { exampleItemVersion with rlong := 1 })
          ErrorStatus.eEndOfFile) := by
  refine ⟨by decide, rfl, ?_, ?_⟩
  · simp [AssocFilletActionBody.dxfInFields, AcDbDxfFiler.readResBuf, exampleItemVersion,
      exampleItemHandle, kDxfInt32, kDxfSoftPointerId, kCurrentObjectVersion,
      AssocFilletConfig.dxfInFields, AssocFilletConfig.dxfInFields.loop, exampleBody]
  · simp [AssocFilletActionBody.dxfInFields, AcDbDxfFiler.readResBuf, exampleItemVersion,
      exampleItemHandle, kDxfInt32, kCurrentObjectVersion]

end Resolver

end AssocFillet
